import Mathlib

/-!
# DocumentDB cluster resource (`internal/service/docdb/cluster.go`)

A shallow embedding of the cluster resource's lifecycle handlers and helpers,
followed by theorems about them.  Remote API calls are modelled by a `Conn`
whose answers may depend on the whole history of calls; every handler threads
the list of calls issued so far, so "which remote calls were made" is an
observable part of each result.  The destroy check of the AppConfig
extension-association acceptance tests is embedded in namespace `AppConfig`.
-/

set_option autoImplicit false

namespace DocDB

/-! ## `tfslices.IndexOf` and `diffCloudWatchLogsExportConfiguration` -/

/-- Modelled from the spec: `tfslices.IndexOf` lives in `internal/slices`, which
is not part of the sources at hand.  It returns the index of the first element
equal to `v`, or `-1` when there is none. -/
def IndexOf (s : List String) (v : String) : Int :=
  match s with
  | [] => -1
  | x :: xs =>
    if x = v then 0
    else
      let idx := IndexOf xs v
      if idx = -1 then -1 else idx + 1

/-- The two loops of `diffCloudWatchLogsExportConfiguration`: every element of
`new` with no index in `old` is appended to `add`, every element of `old`
with no index in `new` is appended to `disable`. -/
def diffCloudWatchLogsExportConfiguration (old new : List String) :
    List String × List String :=
  let add := new.foldl (fun add n => if IndexOf old n = -1 then add ++ [n] else add) []
  let disable := old.foldl (fun disable o => if IndexOf new o = -1 then disable ++ [o] else disable) []
  (add, disable)

/-! ## Regular expressions as used by the `final_snapshot_identifier` validator -/

/-- Regular expression bodies: the fragment of the pattern language that the
validator's three patterns use (classes, sequencing, repetition), closed under
what derivatives need. -/
inductive Regex where
  | none : Regex
  | eps : Regex
  | cls (p : Char → Bool) : Regex
  | cat (r s : Regex) : Regex
  | alt (r s : Regex) : Regex
  | star (r : Regex) : Regex

namespace Regex

/-- Does the expression accept the empty word. -/
def nullable : Regex → Bool
  | none => false
  | eps => true
  | cls _ => false
  | cat r s => nullable r && nullable s
  | alt r s => nullable r || nullable s
  | star _ => true

/-- Brzozowski derivative with respect to one character. -/
def deriv : Regex → Char → Regex
  | none, _ => none
  | eps, _ => none
  | cls p, c => if p c then eps else none
  | cat r s, c =>
    if nullable r then alt (cat (deriv r c) s) (deriv s c) else cat (deriv r c) s
  | alt r s, c => alt (deriv r c) (deriv s c)
  | star r, c => cat (deriv r c) (star r)

/-- Whole-word acceptance. -/
def fullMatch (r : Regex) : List Char → Bool
  | [] => nullable r
  | c :: cs => fullMatch (deriv r c) cs

/-- Declarative meaning of an expression. -/
inductive Matches : Regex → List Char → Prop
  | eps : Matches Regex.eps []
  | cls {p : Char → Bool} {c : Char} : p c = true → Matches (Regex.cls p) [c]
  | cat {r s : Regex} {u v : List Char} :
      Matches r u → Matches s v → Matches (Regex.cat r s) (u ++ v)
  | altL {r s : Regex} {u : List Char} : Matches r u → Matches (Regex.alt r s) u
  | altR {r s : Regex} {u : List Char} : Matches s u → Matches (Regex.alt r s) u
  | starNil {r : Regex} : Matches (Regex.star r) []
  | starCons {r : Regex} {u v : List Char} :
      Matches r u → Matches (Regex.star r) v → Matches (Regex.star r) (u ++ v)

end Regex

/-- A compiled pattern: a body with optional `^` and `$` anchors.  Without the
multi-line flag `^` and `$` match only at the very start and end of the text. -/
structure Pattern where
  anchorStart : Bool
  body : Regex
  anchorEnd : Bool

/-- Model of `(*Regexp).MatchString`: is there a substring of the text that the
body accepts, starting at the beginning when the pattern is anchored at the
start and ending at the end when it is anchored at the end. -/
def Pattern.MatchString (p : Pattern) (s : String) : Bool :=
  let starts := if p.anchorStart then [s.data] else s.data.tails
  starts.any fun suf =>
    let mids := if p.anchorEnd then [suf] else suf.inits
    mids.any fun mid => p.body.fullMatch mid

/-- The class `[0-9A-Za-z-]`. -/
def alnumHyphen (c : Char) : Bool :=
  ('0' ≤ c && c ≤ '9') || ('A' ≤ c && c ≤ 'Z') || ('a' ≤ c && c ≤ 'z') || c == '-'

/-- The literal `-`. -/
def isHyphen (c : Char) : Bool := c == '-'

/-- The pattern `^[0-9A-Za-z-]+$`. -/
def reAlnumHyphens : Pattern :=
  ⟨true, .cat (.cls alnumHyphen) (.star (.cls alnumHyphen)), true⟩

/-- The pattern `--`. -/
def reDoubleHyphen : Pattern :=
  ⟨false, .cat (.cls isHyphen) (.cls isHyphen), false⟩

/-- The pattern `-$`. -/
def reTrailingHyphen : Pattern :=
  ⟨false, .cls isHyphen, true⟩

/-- The errors the validator can report, each carrying the attribute key that
the message quotes. -/
inductive ValidateError where
  | onlyAlnumHyphen (k : String)
  | consecutiveHyphens (k : String)
  | endsInHyphen (k : String)
  deriving DecidableEq, Repr

/-- The `ValidateFunc` of `final_snapshot_identifier`: returns the warnings
`ws` and the errors `es`. -/
def validateFinalSnapshotIdentifier (value k : String) :
    List String × List ValidateError :=
  let ws : List String := []
  let es : List ValidateError := []
  let es := if !reAlnumHyphens.MatchString value then es ++ [.onlyAlnumHyphen k] else es
  let es := if reDoubleHyphen.MatchString value then es ++ [.consecutiveHyphens k] else es
  let es := if reTrailingHyphen.MatchString value then es ++ [.endsInHyphen k] else es
  (ws, es)

/-! ## Errors -/

/-- An API error as the SDK reports it (`awserr.Error`): a code and a message. -/
structure AwsError where
  Code : String
  Message : String
  deriving DecidableEq, Repr

/-- The error values that flow through the resource.  `notFound` is
`retry.NotFoundError` (with its `LastError`), `emptyResult` and
`tooManyResults` are the two errors of `tfresource.AssertSinglePtrResult`,
`unexpectedState` and `timeout` are the two failures of a state-change wait,
`foundResource` is what a retry-until-not-found reports when the resource is
still there at the end, `removing` and `waitingRemoval` are the two wrappers
built by `removeClusterFromGlobalCluster`, and `other` is any other error. -/
inductive Err where
  | aws (e : AwsError)
  | notFound (lastError : Option AwsError)
  | emptyResult
  | tooManyResults (n : Nat)
  | unexpectedState (state : String)
  | timeout (lastState : String)
  | foundResource
  | removing (clusterARN globalClusterID : String) (e : Err)
  | waitingRemoval (clusterARN globalClusterID : String) (e : Err)
  | other (msg : String)
  deriving DecidableEq, Repr

/-- The API error inside an error value, looking through wrappers the way
`errors.As` does. -/
def Err.asAws : Err → Option AwsError
  | .aws e => some e
  | .notFound lastError => lastError
  | .removing _ _ e => e.asAws
  | .waitingRemoval _ _ e => e.asAws
  | _ => none

/-- Is the error value a not-found error, looking through wrappers the way
`errors.As` does. -/
def Err.isNotFound : Err → Bool
  | .notFound _ => true
  | .emptyResult => true
  | .tooManyResults _ => true
  | .removing _ _ e => e.isNotFound
  | .waitingRemoval _ _ e => e.isNotFound
  | _ => false

/-- Modelled from the spec: `tfresource.NotFound` lives in `internal/tfresource`,
which is not part of the sources at hand.  It recognises the not-found error
and the errors of a lookup that did not yield one entity; `nil` is not one. -/
def NotFound (err : Option Err) : Bool :=
  match err with
  | none => false
  | some e => e.isNotFound

/-- Model of `strings.Contains`. -/
def stringsContains (s substr : String) : Bool :=
  decide (substr.data <:+: s.data)

/-- Model of `tfawserr.ErrCodeEquals`: the error is an API error whose code is
one of `codes`; `nil` never is. -/
def ErrCodeEquals (err : Option Err) (codes : List String) : Bool :=
  match err with
  | none => false
  | some e =>
    match e.asAws with
    | none => false
    | some a => codes.contains a.Code

/-- Model of `tfawserr.ErrMessageContains`: the error is an API error with this
code whose message contains `message`; `nil` never is. -/
def ErrMessageContains (err : Option Err) (code message : String) : Bool :=
  match err with
  | none => false
  | some e =>
    match e.asAws with
    | none => false
    | some a => a.Code == code && stringsContains a.Message message

/-- Modelled from the spec: the constant `errCodeInvalidParameterValue` is
declared outside the sources at hand. -/
def errCodeInvalidParameterValue : String := "InvalidParameterValue"

/-- The SDK constant `docdb.ErrCodeDBClusterNotFoundFault`. -/
def ErrCodeDBClusterNotFoundFault : String := "DBClusterNotFoundFault"

/-- The SDK constant `docdb.ErrCodeGlobalClusterNotFoundFault`. -/
def ErrCodeGlobalClusterNotFoundFault : String := "GlobalClusterNotFoundFault"

/-- The SDK constant `docdb.ErrCodeInvalidDBClusterStateFault`. -/
def ErrCodeInvalidDBClusterStateFault : String := "InvalidDBClusterStateFault"

/-! ## API types -/

/-- Tags as key/value pairs. -/
abbrev Tags := List (String × String)

structure DBClusterMember where
  DBInstanceIdentifier : Option String
  deriving DecidableEq, Repr

structure VpcSecurityGroupMembership where
  VpcSecurityGroupId : Option String
  deriving DecidableEq, Repr

/-- The fields of `docdb.DBCluster` that the resource reads; a pointer field
is an `Option`. -/
structure DBCluster where
  AvailabilityZones : List (Option String) := []
  BackupRetentionPeriod : Option Int := none
  DBClusterArn : Option String := none
  DBClusterIdentifier : Option String := none
  DBClusterMembers : List DBClusterMember := []
  DBClusterParameterGroup : Option String := none
  DBSubnetGroup : Option String := none
  DbClusterResourceId : Option String := none
  DeletionProtection : Option Bool := none
  EnabledCloudwatchLogsExports : List (Option String) := []
  Endpoint : Option String := none
  Engine : Option String := none
  EngineVersion : Option String := none
  HostedZoneId : Option String := none
  KmsKeyId : Option String := none
  MasterUsername : Option String := none
  Port : Option Int := none
  PreferredBackupWindow : Option String := none
  PreferredMaintenanceWindow : Option String := none
  ReaderEndpoint : Option String := none
  Status : Option String := none
  StorageEncrypted : Option Bool := none
  StorageType : Option String := none
  VpcSecurityGroups : List VpcSecurityGroupMembership := []
  deriving DecidableEq, Repr

structure GlobalCluster where
  GlobalClusterIdentifier : Option String
  deriving DecidableEq, Repr

structure DescribeDBClustersInput where
  DBClusterIdentifier : Option String
  deriving DecidableEq, Repr

/-- One page of a paginated describe call; an entry may be `nil`. -/
structure DescribeDBClustersOutput where
  DBClusters : List (Option DBCluster)
  deriving DecidableEq, Repr

structure DeleteDBClusterInput where
  DBClusterIdentifier : Option String
  FinalDBSnapshotIdentifier : Option String
  SkipFinalSnapshot : Option Bool
  deriving DecidableEq, Repr

structure RemoveFromGlobalClusterInput where
  DbClusterIdentifier : Option String
  GlobalClusterIdentifier : Option String
  deriving DecidableEq, Repr

structure CloudwatchLogsExportConfiguration where
  DisableLogTypes : List String
  EnableLogTypes : List String
  deriving DecidableEq, Repr

structure ModifyDBClusterInput where
  AllowMajorVersionUpgrade : Option Bool := none
  ApplyImmediately : Option Bool := none
  BackupRetentionPeriod : Option Int := none
  CloudwatchLogsExportConfiguration : Option CloudwatchLogsExportConfiguration := none
  DBClusterIdentifier : Option String := none
  DBClusterParameterGroupName : Option String := none
  DeletionProtection : Option Bool := none
  EngineVersion : Option String := none
  MasterUserPassword : Option String := none
  PreferredBackupWindow : Option String := none
  PreferredMaintenanceWindow : Option String := none
  StorageType : Option String := none
  VpcSecurityGroupIds : Option (List String) := none
  deriving DecidableEq, Repr

structure RestoreDBClusterFromSnapshotInput where
  AvailabilityZones : Option (List String) := none
  DBClusterIdentifier : Option String := none
  DBSubnetGroupName : Option String := none
  DeletionProtection : Option Bool := none
  EnableCloudwatchLogsExports : Option (List String) := none
  Engine : Option String := none
  EngineVersion : Option String := none
  KmsKeyId : Option String := none
  Port : Option Int := none
  SnapshotIdentifier : Option String := none
  StorageType : Option String := none
  Tags : Tags := []
  VpcSecurityGroupIds : Option (List String) := none
  deriving DecidableEq, Repr

structure CreateDBClusterInput where
  AvailabilityZones : Option (List String) := none
  BackupRetentionPeriod : Option Int := none
  DBClusterIdentifier : Option String := none
  DBClusterParameterGroupName : Option String := none
  DBSubnetGroupName : Option String := none
  DeletionProtection : Option Bool := none
  EnableCloudwatchLogsExports : Option (List String) := none
  Engine : Option String := none
  EngineVersion : Option String := none
  GlobalClusterIdentifier : Option String := none
  KmsKeyId : Option String := none
  MasterUserPassword : Option String := none
  MasterUsername : Option String := none
  Port : Option Int := none
  PreferredBackupWindow : Option String := none
  PreferredMaintenanceWindow : Option String := none
  StorageEncrypted : Option Bool := none
  StorageType : Option String := none
  Tags : Tags := []
  VpcSecurityGroupIds : Option (List String) := none
  deriving DecidableEq, Repr

/-- Model of `aws.StringValue`: a `nil` pointer reads as the empty string. -/
def StringValue (p : Option String) : String := p.getD ""

/-- Model of `aws.StringValueSlice`. -/
def StringValueSlice (ps : List (Option String)) : List String := ps.map StringValue

/-! ## Remote calls -/

/-- A remote call, with the request it carried.  `DescribeGlobalClusters` is the
lookup that `findGlobalClusterByClusterARN` performs for a cluster ARN. -/
inductive Call where
  | RemoveFromGlobalCluster (input : RemoveFromGlobalClusterInput)
  | DeleteDBCluster (input : DeleteDBClusterInput)
  | DescribeDBClustersPages (input : DescribeDBClustersInput)
  | DescribeGlobalClusters (clusterARN : String)
  | CreateDBCluster (input : CreateDBClusterInput)
  | RestoreDBClusterFromSnapshot (input : RestoreDBClusterFromSnapshotInput)
  | ModifyDBCluster (input : ModifyDBClusterInput)
  deriving DecidableEq, Repr

/-- The calls issued so far, oldest first. -/
abbrev Trace := List Call

/-- Does the call change remote state (everything but the describe calls). -/
def Call.isMutating : Call → Bool
  | .DescribeDBClustersPages _ => false
  | .DescribeGlobalClusters _ => false
  | _ => true

/-- The remote service: what it answers to each call, given the calls issued
before it.  A paginated describe answers with the pages it delivers and the
error, if any, that ends the pagination. -/
structure Conn where
  RemoveFromGlobalCluster : Trace → RemoveFromGlobalClusterInput → Option Err
  DeleteDBCluster : Trace → DeleteDBClusterInput → Option Err
  DescribeDBClustersPages :
    Trace → DescribeDBClustersInput → List (Option DescribeDBClustersOutput) × Option Err
  DescribeGlobalClusters : Trace → String → Except Err GlobalCluster
  CreateDBCluster : Trace → CreateDBClusterInput → Option Err
  RestoreDBClusterFromSnapshot : Trace → RestoreDBClusterFromSnapshotInput → Option Err
  ModifyDBCluster : Trace → ModifyDBClusterInput → Option Err

def Conn.RemoveFromGlobalClusterWithContext (conn : Conn)
    (input : RemoveFromGlobalClusterInput) (tr : Trace) : Option Err × Trace :=
  (conn.RemoveFromGlobalCluster tr input, tr ++ [.RemoveFromGlobalCluster input])

def Conn.DeleteDBClusterWithContext (conn : Conn) (input : DeleteDBClusterInput)
    (tr : Trace) : Option Err × Trace :=
  (conn.DeleteDBCluster tr input, tr ++ [.DeleteDBCluster input])

def Conn.CreateDBClusterWithContext (conn : Conn) (input : CreateDBClusterInput)
    (tr : Trace) : Option Err × Trace :=
  (conn.CreateDBCluster tr input, tr ++ [.CreateDBCluster input])

def Conn.RestoreDBClusterFromSnapshotWithContext (conn : Conn)
    (input : RestoreDBClusterFromSnapshotInput) (tr : Trace) : Option Err × Trace :=
  (conn.RestoreDBClusterFromSnapshot tr input, tr ++ [.RestoreDBClusterFromSnapshot input])

def Conn.ModifyDBClusterWithContext (conn : Conn) (input : ModifyDBClusterInput)
    (tr : Trace) : Option Err × Trace :=
  (conn.ModifyDBCluster tr input, tr ++ [.ModifyDBCluster input])

/-- The pagination loop of the SDK: hand each delivered page to `fn` together
with the last-page flag, and stop as soon as `fn` answers `false`.  The flag is
set on the final page of a pagination that ended without error. -/
def eachPage {σ : Type} (noErr : Bool) (fn : Option DescribeDBClustersOutput → Bool → σ → Bool × σ) :
    List (Option DescribeDBClustersOutput) → σ → σ
  | [], s => s
  | page :: rest, s =>
    let lastPage := rest.isEmpty && noErr
    let r := fn page lastPage s
    if r.1 then eachPage noErr fn rest r.2 else r.2

/-- Model of `DescribeDBClustersPagesWithContext`: `fn` folds the pages into
the caller's accumulator. -/
def Conn.DescribeDBClustersPagesWithContext {σ : Type} (conn : Conn)
    (input : DescribeDBClustersInput)
    (fn : Option DescribeDBClustersOutput → Bool → σ → Bool × σ) (s : σ) (tr : Trace) :
    (σ × Option Err) × Trace :=
  let r := conn.DescribeDBClustersPages tr input
  ((eachPage r.2.isNone fn r.1 s, r.2), tr ++ [.DescribeDBClustersPages input])

/-- Modelled from the spec: `findGlobalClusterByClusterARN` is defined in a file
of this package that is not part of the sources at hand.  It looks up the
global cluster that has the given cluster as a member, and answers NotFound
when there is none. -/
def findGlobalClusterByClusterARN (conn : Conn) (clusterARN : String) (tr : Trace) :
    Except Err GlobalCluster × Trace :=
  (conn.DescribeGlobalClusters tr clusterARN, tr ++ [.DescribeGlobalClusters clusterARN])

/-! ## Resource data -/

/-- The attributes of the resource schema, each with the Go type of its schema
type (`TypeString`, `TypeBool`, `TypeInt`, list or set of strings). -/
structure Attrs where
  allow_major_version_upgrade : Bool := false
  apply_immediately : Bool := false
  arn : String := ""
  availability_zones : List String := []
  backup_retention_period : Int := 0
  cluster_identifier : String := ""
  cluster_identifier_prefix : String := ""
  cluster_members : List String := []
  cluster_resource_id : String := ""
  db_cluster_parameter_group_name : String := ""
  db_subnet_group_name : String := ""
  deletion_protection : Bool := false
  enabled_cloudwatch_logs_exports : List String := []
  endpoint : String := ""
  engine : String := ""
  engine_version : String := ""
  final_snapshot_identifier : String := ""
  global_cluster_identifier : String := ""
  hosted_zone_id : String := ""
  kms_key_id : String := ""
  master_password : String := ""
  master_username : String := ""
  port : Int := 0
  preferred_backup_window : String := ""
  preferred_maintenance_window : String := ""
  reader_endpoint : String := ""
  skip_final_snapshot : Bool := false
  snapshot_identifier : String := ""
  storage_encrypted : Bool := false
  storage_type : String := ""
  tags : Tags := []
  tags_all : Tags := []
  vpc_security_group_ids : List String := []
  deriving DecidableEq, Repr

/-- The part of `schema.ResourceData` the handlers use: the id, the
new-resource flag, the attribute values that `d.Get` reads and `d.Set` writes,
the values of the last read (what a change is measured against), and the
configured timeouts in seconds. -/
structure ResourceData where
  id : String := ""
  isNewResource : Bool := false
  attrs : Attrs := {}
  state : Attrs := {}
  timeoutCreate : Nat := 7200
  timeoutUpdate : Nat := 7200
  timeoutDelete : Nat := 7200
  deriving DecidableEq, Repr

/-- The `ok` of `d.GetOk` for a string attribute: set and not the zero value. -/
def GetOkString (v : String) : Bool := v != ""

/-- The `ok` of `d.GetOk` for an integer attribute. -/
def GetOkInt (v : Int) : Bool := v != 0

/-- The `ok` of `d.GetOk` for a boolean attribute. -/
def GetOkBool (v : Bool) : Bool := v

/-- The `ok` of `d.GetOk` for a list attribute. -/
def GetOkList (v : List String) : Bool := !v.isEmpty

/-- What the handlers get from the provider and the context: the connection,
the tags of the context, the suffix the name generator draws, how many further
attempts of a retried call and how many refreshes of a state-change wait fit
into a timeout, and two parts of this repository that are declared outside the
sources at hand (the propagation timeout and `create.NamePrefixFromName`). -/
structure Meta where
  conn : Conn
  tagsIn : Tags
  uniqueId : String
  retries : Nat → Nat
  polls : Nat → Nat
  propagationTimeout : Nat
  NamePrefixFromName : String → Option String

/-- Diagnostics of the handlers, one constructor per error message of the
source, carrying the values the message is formatted with. -/
inductive Diag where
  | requiredFieldNotSet (identifier field : String)
  | creatingRestore (identifier : String) (e : Err)
  | creating (identifier : String) (e : Err)
  | waitingCreate (id : String) (e : Err)
  | modifying (id : String) (e : Err)
  | waitingUpdate (id : String) (e : Err)
  | reading (id : String) (e : Err)
  | readingGlobalCluster (id : String) (e : Err)
  | cannotBeAdded
  | cannotBeMigrated
  | finalSnapshotIdentifierRequired
  | deleting (id : String) (e : Err)
  | waitingDelete (id : String) (e : Err)
  | fromErr (e : Err)
  deriving DecidableEq, Repr

/-- What a handler leaves behind: its diagnostics (all of them errors), the
resource data and the calls issued. -/
structure Result where
  diags : List Diag
  d : ResourceData
  trace : Trace
  deriving DecidableEq, Repr

/-! ## Retrying and waiting -/

/-- Modelled from the spec: `tfresource.RetryWhen` lives in `internal/tfresource`,
which is not part of the sources at hand.  It calls `f`, asks `retryable`
about the outcome, and calls again while the answer is "retry" and the timeout
leaves room (`fuel` further attempts); when the attempts are exhausted the
last error is surfaced. -/
def RetryWhen (f : Trace → Option Err × Trace) (retryable : Option Err → Bool × Option Err) :
    Nat → Trace → Option Err × Trace
  | 0, tr =>
    let r := f tr
    ((retryable r.1).2, r.2)
  | fuel + 1, tr =>
    let r := f tr
    let a := retryable r.1
    if a.1 then RetryWhen f retryable fuel r.2 else (a.2, r.2)

/-- Modelled from the spec: `tfresource.RetryWhenAWSErrMessageContains` lives in
`internal/tfresource`.  It retries while the error has the given code and its
message contains the given text. -/
def RetryWhenAWSErrMessageContains (fuel : Nat) (f : Trace → Option Err × Trace)
    (code message : String) (tr : Trace) : Option Err × Trace :=
  RetryWhen f (fun err => (ErrMessageContains err code message, err)) fuel tr

/-- Modelled from the spec: `tfresource.RetryUntilNotFound` lives in
`internal/tfresource`.  It calls `f` until `f` answers NotFound; another error
of `f` ends it with that error, and when the attempts are exhausted with the
resource still found it ends with an error. -/
def RetryUntilNotFound {α : Type} (f : Trace → Except Err α × Trace) :
    Nat → Trace → Option Err × Trace
  | 0, tr =>
    let r := f tr
    match r.1 with
    | .error e => if NotFound (some e) then (none, r.2) else (some e, r.2)
    | .ok _ => (some .foundResource, r.2)
  | fuel + 1, tr =>
    let r := f tr
    match r.1 with
    | .error e => if NotFound (some e) then (none, r.2) else (some e, r.2)
    | .ok _ => RetryUntilNotFound f fuel r.2

/-- The fields of `retry.StateChangeConf` that the waiters set, with the
refresh function threading the trace. -/
structure StateChangeConf where
  Pending : List String
  Target : List String
  Refresh : Trace → (Option DBCluster × String × Option Err) × Trace

/-- The default of `StateChangeConf.NotFoundChecks`. -/
def NotFoundChecks : Nat := 20

/-- Model of `StateChangeConf.WaitForStateContext`, with `fuel` the number of
refreshes that fit into the timeout.  A refresh error ends the wait; an absent
result ends it with success when there is no target, and otherwise counts
towards `NotFoundChecks`; a present result ends it with success in a target
state, continues in a pending state, and is an unexpected-state error in any
other state; running out of time is a timeout error with the last state. -/
def WaitForStateContext (conf : StateChangeConf) :
    Nat → Nat → String → Trace → (Option DBCluster × Option Err) × Trace
  | 0, _, lastState, tr => ((none, some (.timeout lastState)), tr)
  | fuel + 1, notfoundTick, _, tr =>
    let r := conf.Refresh tr
    let res := r.1.1
    let currentState := r.1.2.1
    match r.1.2.2 with
    | some err => ((res, some err), r.2)
    | none =>
      match res with
      | none =>
        if conf.Target.isEmpty then ((none, none), r.2)
        else if notfoundTick + 1 > NotFoundChecks then ((none, some (.notFound none)), r.2)
        else WaitForStateContext conf fuel (notfoundTick + 1) currentState r.2
      | some c =>
        if conf.Target.contains currentState then ((some c, none), r.2)
        else if conf.Pending.contains currentState then
          WaitForStateContext conf fuel 0 currentState r.2
        else if !conf.Pending.isEmpty then ((some c, some (.unexpectedState currentState)), r.2)
        else WaitForStateContext conf fuel 0 currentState r.2

/-! ## Finders -/

/-- Modelled from the spec: `tfresource.AssertSinglePtrResult` lives in
`internal/tfresource`.  Exactly one result is returned; none or more than one
is an error. -/
def AssertSinglePtrResult (a : List DBCluster) : Except Err DBCluster :=
  match a with
  | [] => .error .emptyResult
  | [v] => .ok v
  | _ => .error (.tooManyResults a.length)

/-- The body of the loop over a page in `findDBClusters`: a non-`nil` entry that
passes the filter is appended to the output. -/
def findDBClusters.append (filter : DBCluster → Bool) (output : List DBCluster)
    (v : Option DBCluster) : List DBCluster :=
  match v with
  | some v => if filter v then output ++ [v] else output
  | none => output

/-- The page callback of `findDBClusters`: a `nil` page is skipped, the entries
of any other page go through the loop, and the pagination goes on unless this
is the last page. -/
def findDBClusters.page (filter : DBCluster → Bool) (page : Option DescribeDBClustersOutput)
    (lastPage : Bool) (output : List DBCluster) : Bool × List DBCluster :=
  match page with
  | none => (!lastPage, output)
  | some page => (!lastPage, page.DBClusters.foldl (findDBClusters.append filter) output)

def findDBClusters (conn : Conn) (input : DescribeDBClustersInput) (filter : DBCluster → Bool)
    (tr : Trace) : Except Err (List DBCluster) × Trace :=
  let r := conn.DescribeDBClustersPagesWithContext input (findDBClusters.page filter) [] tr
  let output := r.1.1
  let err := r.1.2
  if ErrCodeEquals err [ErrCodeDBClusterNotFoundFault] then
    (.error (.notFound (err.bind Err.asAws)), r.2)
  else
    match err with
    | some e => (.error e, r.2)
    | none => (.ok output, r.2)

def findDBCluster (conn : Conn) (input : DescribeDBClustersInput) (filter : DBCluster → Bool)
    (tr : Trace) : Except Err DBCluster × Trace :=
  let r := findDBClusters conn input filter tr
  match r.1 with
  | .error err => (.error err, r.2)
  | .ok output => (AssertSinglePtrResult output, r.2)

def FindDBClusterByID (conn : Conn) (id : String) (tr : Trace) : Except Err DBCluster × Trace :=
  let input : DescribeDBClustersInput := { DBClusterIdentifier := some id }
  let r := findDBCluster conn input (fun _ => true) tr
  match r.1 with
  | .error err => (.error err, r.2)
  | .ok output =>
    -- Eventual consistency check.
    if StringValue output.DBClusterIdentifier != id then (.error (.notFound none), r.2)
    else (.ok output, r.2)

def findClusterByARN (conn : Conn) (arn : String) (tr : Trace) : Except Err DBCluster × Trace :=
  let input : DescribeDBClustersInput := { DBClusterIdentifier := none }
  findDBCluster conn input (fun v => StringValue v.DBClusterArn == arn) tr

/-! ## Status and waiters -/

/-- Modelled from the spec: the cluster status constants are declared in a file
of this package that is not part of the sources at hand. -/
def clusterStatusAvailable : String := "available"
def clusterStatusBackingUp : String := "backing-up"
def clusterStatusCreating : String := "creating"
def clusterStatusDeleting : String := "deleting"
def clusterStatusMigrating : String := "migrating"
def clusterStatusModifying : String := "modifying"
def clusterStatusPreparingDataMigration : String := "preparing-data-migration"
def clusterStatusResettingMasterCredentials : String := "resetting-master-credentials"
def clusterStatusUpgrading : String := "upgrading"

def statusDBCluster (conn : Conn) (id : String) (tr : Trace) :
    (Option DBCluster × String × Option Err) × Trace :=
  let r := FindDBClusterByID conn id tr
  match r.1 with
  | .error err =>
    if NotFound (some err) then ((none, "", none), r.2)
    else ((none, "", some err), r.2)
  | .ok output => ((some output, StringValue output.Status, none), r.2)

/-- The `stateConf` of `waitDBClusterAvailable`. -/
def waitDBClusterAvailable.stateConf (conn : Conn) (id : String) : StateChangeConf := {
  Pending := [
    clusterStatusCreating,
    clusterStatusBackingUp,
    clusterStatusModifying,
    clusterStatusPreparingDataMigration,
    clusterStatusMigrating,
    clusterStatusResettingMasterCredentials,
    clusterStatusUpgrading
  ]
  Target := [clusterStatusAvailable]
  Refresh := statusDBCluster conn id
}

def waitDBClusterAvailable (conn : Conn) (id : String) (fuel : Nat) (tr : Trace) :
    (Option DBCluster × Option Err) × Trace :=
  WaitForStateContext (waitDBClusterAvailable.stateConf conn id) fuel 0 "" tr

/-- The `stateConf` of `waitDBClusterDeleted`. -/
def waitDBClusterDeleted.stateConf (conn : Conn) (id : String) : StateChangeConf := {
  Pending := [
    clusterStatusAvailable,
    clusterStatusDeleting,
    clusterStatusBackingUp,
    clusterStatusModifying
  ]
  Target := []
  Refresh := statusDBCluster conn id
}

def waitDBClusterDeleted (conn : Conn) (id : String) (fuel : Nat) (tr : Trace) :
    (Option DBCluster × Option Err) × Trace :=
  WaitForStateContext (waitDBClusterDeleted.stateConf conn id) fuel 0 "" tr

/-! ## Detaching from a global cluster -/

def removeClusterFromGlobalCluster (conn : Conn) (clusterARN globalClusterID : String)
    (fuel : Nat) (tr : Trace) : Option Err × Trace :=
  let input : RemoveFromGlobalClusterInput := {
    DbClusterIdentifier := some clusterARN
    GlobalClusterIdentifier := some globalClusterID
  }
  let r := conn.RemoveFromGlobalClusterWithContext input tr
  let err := r.1
  if ErrCodeEquals err [ErrCodeDBClusterNotFoundFault, ErrCodeGlobalClusterNotFoundFault]
      || ErrMessageContains err errCodeInvalidParameterValue "is not found in global cluster" then
    (none, r.2)
  else
    match err with
    | some e => (some (.removing clusterARN globalClusterID e), r.2)
    | none =>
      let w := RetryUntilNotFound (findGlobalClusterByClusterARN conn clusterARN) fuel r.2
      match w.1 with
      | some e => (some (.waitingRemoval clusterARN globalClusterID e), w.2)
      | none => (none, w.2)

/-! ## Read -/

/-- The `d.Set` calls of `resourceClusterRead` that copy the cluster found into
the attributes; a `nil` field sets the zero value. -/
def resourceClusterRead.setAttrs (m : Meta) (dbc : DBCluster) (a : Attrs) : Attrs :=
  { a with
    arn := StringValue dbc.DBClusterArn
    availability_zones := StringValueSlice dbc.AvailabilityZones
    backup_retention_period := dbc.BackupRetentionPeriod.getD 0
    cluster_identifier := StringValue dbc.DBClusterIdentifier
    cluster_identifier_prefix :=
      StringValue (m.NamePrefixFromName (StringValue dbc.DBClusterIdentifier))
    cluster_members := dbc.DBClusterMembers.map fun v => StringValue v.DBInstanceIdentifier
    cluster_resource_id := StringValue dbc.DbClusterResourceId
    db_cluster_parameter_group_name := StringValue dbc.DBClusterParameterGroup
    db_subnet_group_name := StringValue dbc.DBSubnetGroup
    deletion_protection := dbc.DeletionProtection.getD false
    enabled_cloudwatch_logs_exports := StringValueSlice dbc.EnabledCloudwatchLogsExports
    endpoint := StringValue dbc.Endpoint
    engine_version := StringValue dbc.EngineVersion
    engine := StringValue dbc.Engine
    hosted_zone_id := StringValue dbc.HostedZoneId
    kms_key_id := StringValue dbc.KmsKeyId
    master_username := StringValue dbc.MasterUsername
    port := dbc.Port.getD 0
    preferred_backup_window := StringValue dbc.PreferredBackupWindow
    preferred_maintenance_window := StringValue dbc.PreferredMaintenanceWindow
    reader_endpoint := StringValue dbc.ReaderEndpoint
    storage_encrypted := dbc.StorageEncrypted.getD false
    storage_type := StringValue dbc.StorageType
    vpc_security_group_ids := dbc.VpcSecurityGroups.map fun v => StringValue v.VpcSecurityGroupId }

def resourceClusterRead (m : Meta) (d : ResourceData) (tr : Trace) : Result :=
  let conn := m.conn
  let r := FindDBClusterByID conn d.id tr
  match r.1 with
  | .error err =>
    if !d.isNewResource && NotFound (some err) then
      { diags := [], d := { d with id := "" }, trace := r.2 }
    else
      { diags := [.reading d.id err], d := d, trace := r.2 }
  | .ok dbc =>
    -- Ignore the API error of regions that do not support global clusters.
    let g := findGlobalClusterByClusterARN conn (StringValue dbc.DBClusterArn) r.2
    match g.1 with
    | .error err =>
      if NotFound (some err)
          || ErrMessageContains (some err) errCodeInvalidParameterValue
              "Access Denied to API Version: APIGlobalDatabases" then
        let a := { d.attrs with global_cluster_identifier := "" }
        { diags := [], d := { d with attrs := resourceClusterRead.setAttrs m dbc a }, trace := g.2 }
      else
        { diags := [.readingGlobalCluster d.id err], d := d, trace := g.2 }
    | .ok globalCluster =>
      let a := { d.attrs with
        global_cluster_identifier := StringValue globalCluster.GlobalClusterIdentifier }
      { diags := [], d := { d with attrs := resourceClusterRead.setAttrs m dbc a }, trace := g.2 }

/-! ## Delete -/

/-- The retry predicate of the `DeleteDBCluster` call. -/
def resourceClusterDelete.retryable (err : Option Err) : Bool × Option Err :=
  if ErrMessageContains err ErrCodeInvalidDBClusterStateFault
      "is not currently in the available state" then
    (true, err)
  else if ErrMessageContains err ErrCodeInvalidDBClusterStateFault
      "cluster is a part of a global cluster" then
    (true, err)
  else
    (false, err)

/-- The steps of `resourceClusterDelete` after the detach from the global
cluster: the retried `DeleteDBCluster` call and the wait for the deletion. -/
def resourceClusterDelete.delete (m : Meta) (d : ResourceData) (input : DeleteDBClusterInput)
    (tr : Trace) : Result :=
  let conn := m.conn
  let r := RetryWhen (conn.DeleteDBClusterWithContext input) resourceClusterDelete.retryable
    (m.retries d.timeoutDelete) tr
  let err := r.1
  if ErrCodeEquals err [ErrCodeDBClusterNotFoundFault] then
    { diags := [], d := d, trace := r.2 }
  else
    match err with
    | some e => { diags := [.deleting d.id e], d := d, trace := r.2 }
    | none =>
      let w := waitDBClusterDeleted conn d.id (m.polls d.timeoutDelete) r.2
      match w.1.2 with
      | some e => { diags := [.waitingDelete d.id e], d := d, trace := w.2 }
      | none => { diags := [], d := d, trace := w.2 }

/-- The steps of `resourceClusterDelete` after the final-snapshot check: the
detach from the global cluster when `global_cluster_identifier` is set, then
the deletion. -/
def resourceClusterDelete.detach (m : Meta) (d : ResourceData) (input : DeleteDBClusterInput)
    (tr : Trace) : Result :=
  let conn := m.conn
  if GetOkString d.attrs.global_cluster_identifier then
    let r := removeClusterFromGlobalCluster conn d.attrs.arn d.attrs.global_cluster_identifier
      (m.retries d.timeoutDelete) tr
    match r.1 with
    | some err => { diags := [.fromErr err], d := d, trace := r.2 }
    | none => resourceClusterDelete.delete m d input r.2
  else
    resourceClusterDelete.delete m d input tr

def resourceClusterDelete (m : Meta) (d : ResourceData) (tr : Trace) : Result :=
  let skipFinalSnapshot := d.attrs.skip_final_snapshot
  let input : DeleteDBClusterInput := {
    DBClusterIdentifier := some d.id
    FinalDBSnapshotIdentifier := none
    SkipFinalSnapshot := some skipFinalSnapshot
  }
  if !skipFinalSnapshot then
    if GetOkString d.attrs.final_snapshot_identifier then
      let input := { input with FinalDBSnapshotIdentifier := some d.attrs.final_snapshot_identifier }
      resourceClusterDelete.detach m d input tr
    else
      { diags := [.finalSnapshotIdentifierRequired], d := d, trace := tr }
  else
    resourceClusterDelete.detach m d input tr

/-! ## Create -/

/-- Modelled from the spec: the name generator of `internal/create` is not part
of the sources at hand.  It derives the identifier: the configured name if
there is one, else the configured prefix with a generated suffix, else the
default prefix with a generated suffix. -/
def NameGenerator.Generate (configuredName configuredPrefix defaultPrefix uniqueId : String) :
    String :=
  if configuredName != "" then configuredName
  else if configuredPrefix != "" then configuredPrefix ++ uniqueId
  else defaultPrefix ++ uniqueId

/-- The identifier that `resourceClusterCreate` derives. -/
def resourceClusterCreate.identifier (m : Meta) (d : ResourceData) : String :=
  NameGenerator.Generate d.attrs.cluster_identifier d.attrs.cluster_identifier_prefix "tf-"
    m.uniqueId

/-- The text both creation calls are retried on. -/
def iamRoleNotPropagated : String :=
  "IAM role ARN value is invalid or does not include the required permissions"

/-- The request of the restore-from-snapshot branch. -/
def resourceClusterCreate.restoreInput (m : Meta) (d : ResourceData) (identifier : String) :
    RestoreDBClusterFromSnapshotInput :=
  let a := d.attrs
  let input : RestoreDBClusterFromSnapshotInput := {
    DBClusterIdentifier := some identifier
    DeletionProtection := some a.deletion_protection
    Engine := some a.engine
    SnapshotIdentifier := some a.snapshot_identifier
    Tags := m.tagsIn
  }
  let input := if a.availability_zones.length > 0 then
    { input with AvailabilityZones := some a.availability_zones } else input
  let input := if GetOkString a.db_subnet_group_name then
    { input with DBSubnetGroupName := some a.db_subnet_group_name } else input
  let input :=
    if GetOkList a.enabled_cloudwatch_logs_exports && a.enabled_cloudwatch_logs_exports.length > 0
    then { input with EnableCloudwatchLogsExports := some a.enabled_cloudwatch_logs_exports }
    else input
  let input := if GetOkString a.engine_version then
    { input with EngineVersion := some a.engine_version } else input
  let input := if GetOkString a.kms_key_id then
    { input with KmsKeyId := some a.kms_key_id } else input
  let input := if GetOkInt a.port then { input with Port := some a.port } else input
  let input := if GetOkString a.storage_type then
    { input with StorageType := some a.storage_type } else input
  let input := if a.vpc_security_group_ids.length > 0 then
    { input with VpcSecurityGroupIds := some a.vpc_security_group_ids } else input
  input

/-- The follow-up modification that the restore-from-snapshot branch prepares:
the request and `requiresModifyDbCluster`. -/
def resourceClusterCreate.restoreModify (d : ResourceData) : ModifyDBClusterInput × Bool :=
  let a := d.attrs
  let inputM : ModifyDBClusterInput := { ApplyImmediately := some true }
  let requiresModifyDbCluster := false
  let r := (inputM, requiresModifyDbCluster)
  let r := if GetOkInt a.backup_retention_period then
    ({ r.1 with BackupRetentionPeriod := some a.backup_retention_period }, true) else r
  let r := if GetOkString a.db_cluster_parameter_group_name then
    ({ r.1 with DBClusterParameterGroupName := some a.db_cluster_parameter_group_name }, true)
    else r
  let r := if GetOkString a.preferred_backup_window then
    ({ r.1 with PreferredBackupWindow := some a.preferred_backup_window }, true) else r
  let r := if GetOkString a.preferred_maintenance_window then
    ({ r.1 with PreferredMaintenanceWindow := some a.preferred_maintenance_window }, true)
    else r
  r

/-- The request of the fresh-create branch. -/
def resourceClusterCreate.createInput (m : Meta) (d : ResourceData) (identifier : String) :
    CreateDBClusterInput :=
  let a := d.attrs
  let input : CreateDBClusterInput := {
    DBClusterIdentifier := some identifier
    DeletionProtection := some a.deletion_protection
    Engine := some a.engine
    MasterUsername := some a.master_username
    MasterUserPassword := some a.master_password
    Tags := m.tagsIn
  }
  let input := if a.availability_zones.length > 0 then
    { input with AvailabilityZones := some a.availability_zones } else input
  let input := if GetOkInt a.backup_retention_period then
    { input with BackupRetentionPeriod := some a.backup_retention_period } else input
  let input := if GetOkString a.db_cluster_parameter_group_name then
    { input with DBClusterParameterGroupName := some a.db_cluster_parameter_group_name }
    else input
  let input := if GetOkString a.db_subnet_group_name then
    { input with DBSubnetGroupName := some a.db_subnet_group_name } else input
  let input :=
    if GetOkList a.enabled_cloudwatch_logs_exports && a.enabled_cloudwatch_logs_exports.length > 0
    then { input with EnableCloudwatchLogsExports := some a.enabled_cloudwatch_logs_exports }
    else input
  let input := if GetOkString a.engine_version then
    { input with EngineVersion := some a.engine_version } else input
  let input := if GetOkString a.global_cluster_identifier then
    { input with GlobalClusterIdentifier := some a.global_cluster_identifier } else input
  let input := if GetOkString a.kms_key_id then
    { input with KmsKeyId := some a.kms_key_id } else input
  let input := if GetOkInt a.port then { input with Port := some a.port } else input
  let input := if GetOkString a.preferred_backup_window then
    { input with PreferredBackupWindow := some a.preferred_backup_window } else input
  let input := if GetOkString a.preferred_maintenance_window then
    { input with PreferredMaintenanceWindow := some a.preferred_maintenance_window } else input
  let input := if GetOkBool a.storage_encrypted then
    { input with StorageEncrypted := some a.storage_encrypted } else input
  let input := if GetOkString a.storage_type then
    { input with StorageType := some a.storage_type } else input
  let input := if a.vpc_security_group_ids.length > 0 then
    { input with VpcSecurityGroupIds := some a.vpc_security_group_ids } else input
  input

/-- The steps of `resourceClusterCreate` after the creation call succeeded:
set the id, wait for the cluster, issue the follow-up modification when one is
required and wait again, then read. -/
def resourceClusterCreate.finish (m : Meta) (d : ResourceData) (identifier : String)
    (inputM : ModifyDBClusterInput) (requiresModifyDbCluster : Bool) (tr : Trace) : Result :=
  let conn := m.conn
  let d := { d with id := identifier }
  let w := waitDBClusterAvailable conn d.id (m.polls d.timeoutCreate) tr
  match w.1.2 with
  | some err => { diags := [.waitingCreate d.id err], d := d, trace := w.2 }
  | none =>
    if requiresModifyDbCluster then
      let inputM := { inputM with DBClusterIdentifier := some d.id }
      let r := conn.ModifyDBClusterWithContext inputM w.2
      match r.1 with
      | some err => { diags := [.modifying d.id err], d := d, trace := r.2 }
      | none =>
        let w := waitDBClusterAvailable conn d.id (m.polls d.timeoutCreate) r.2
        match w.1.2 with
        | some err => { diags := [.waitingUpdate d.id err], d := d, trace := w.2 }
        | none => resourceClusterRead m d w.2
    else
      resourceClusterRead m d w.2

def resourceClusterCreate (m : Meta) (d : ResourceData) (tr : Trace) : Result :=
  let conn := m.conn
  let identifier := resourceClusterCreate.identifier m d
  if GetOkString d.attrs.snapshot_identifier then
    let input := resourceClusterCreate.restoreInput m d identifier
    let mod := resourceClusterCreate.restoreModify d
    let r := RetryWhenAWSErrMessageContains (m.retries m.propagationTimeout)
      (conn.RestoreDBClusterFromSnapshotWithContext input)
      errCodeInvalidParameterValue iamRoleNotPropagated tr
    match r.1 with
    | some err => { diags := [.creatingRestore identifier err], d := d, trace := r.2 }
    | none => resourceClusterCreate.finish m d identifier mod.1 mod.2 r.2
  else
    -- Secondary clusters of a global cluster do not supply the master password.
    if !GetOkString d.attrs.global_cluster_identifier && !GetOkString d.attrs.master_password then
      { diags := [.requiredFieldNotSet identifier "master_password"], d := d, trace := tr }
    -- Secondary clusters of a global cluster do not supply the master username.
    else if !GetOkString d.attrs.global_cluster_identifier
        && !GetOkString d.attrs.master_username then
      { diags := [.requiredFieldNotSet identifier "master_username"], d := d, trace := tr }
    else
      let input := resourceClusterCreate.createInput m d identifier
      let r := RetryWhenAWSErrMessageContains (m.retries m.propagationTimeout)
        (conn.CreateDBClusterWithContext input)
        errCodeInvalidParameterValue iamRoleNotPropagated tr
      match r.1 with
      | some err => { diags := [.creating identifier err], d := d, trace := r.2 }
      | none =>
        resourceClusterCreate.finish m d identifier { ApplyImmediately := some true } false r.2

/-! ## Update -/

/-- The attributes of the schema, as keys of `d.HasChange`. -/
inductive Key where
  | allow_major_version_upgrade
  | apply_immediately
  | arn
  | availability_zones
  | backup_retention_period
  | cluster_identifier
  | cluster_identifier_prefix
  | cluster_members
  | cluster_resource_id
  | db_cluster_parameter_group_name
  | db_subnet_group_name
  | deletion_protection
  | enabled_cloudwatch_logs_exports
  | endpoint
  | engine
  | engine_version
  | final_snapshot_identifier
  | global_cluster_identifier
  | hosted_zone_id
  | kms_key_id
  | master_password
  | master_username
  | port
  | preferred_backup_window
  | preferred_maintenance_window
  | reader_endpoint
  | skip_final_snapshot
  | snapshot_identifier
  | storage_encrypted
  | storage_type
  | tags
  | tags_all
  | vpc_security_group_ids
  deriving DecidableEq, Repr

/-- Every attribute of the schema. -/
def Key.all : List Key :=
  [.allow_major_version_upgrade, .apply_immediately, .arn, .availability_zones,
   .backup_retention_period, .cluster_identifier, Key.cluster_identifier_prefix, .cluster_members,
   .cluster_resource_id, .db_cluster_parameter_group_name, .db_subnet_group_name,
   .deletion_protection, .enabled_cloudwatch_logs_exports, .endpoint, .engine, .engine_version,
   .final_snapshot_identifier, .global_cluster_identifier, .hosted_zone_id, .kms_key_id,
   .master_password, .master_username, .port, .preferred_backup_window,
   .preferred_maintenance_window, .reader_endpoint, .skip_final_snapshot, .snapshot_identifier,
   .storage_encrypted, .storage_type, .tags, .tags_all, .vpc_security_group_ids]

/-- Equality of two `schema.Set` values: the same members, whatever the order. -/
def setEqual (a b : List String) : Bool :=
  a.all (fun x => b.contains x) && b.all (fun x => a.contains x)

/-- Model of `d.HasChange`: the value of the last read differs from the current
one; set-typed attributes are compared as sets. -/
def ResourceData.HasChange (d : ResourceData) : Key → Bool
  | .allow_major_version_upgrade =>
    d.state.allow_major_version_upgrade != d.attrs.allow_major_version_upgrade
  | .apply_immediately => d.state.apply_immediately != d.attrs.apply_immediately
  | .arn => d.state.arn != d.attrs.arn
  | .availability_zones => !setEqual d.state.availability_zones d.attrs.availability_zones
  | .backup_retention_period => d.state.backup_retention_period != d.attrs.backup_retention_period
  | .cluster_identifier => d.state.cluster_identifier != d.attrs.cluster_identifier
  | Key.cluster_identifier_prefix =>
    d.state.cluster_identifier_prefix != d.attrs.cluster_identifier_prefix
  | .cluster_members => !setEqual d.state.cluster_members d.attrs.cluster_members
  | .cluster_resource_id => d.state.cluster_resource_id != d.attrs.cluster_resource_id
  | .db_cluster_parameter_group_name =>
    d.state.db_cluster_parameter_group_name != d.attrs.db_cluster_parameter_group_name
  | .db_subnet_group_name => d.state.db_subnet_group_name != d.attrs.db_subnet_group_name
  | .deletion_protection => d.state.deletion_protection != d.attrs.deletion_protection
  | .enabled_cloudwatch_logs_exports =>
    d.state.enabled_cloudwatch_logs_exports != d.attrs.enabled_cloudwatch_logs_exports
  | .endpoint => d.state.endpoint != d.attrs.endpoint
  | .engine => d.state.engine != d.attrs.engine
  | .engine_version => d.state.engine_version != d.attrs.engine_version
  | .final_snapshot_identifier =>
    d.state.final_snapshot_identifier != d.attrs.final_snapshot_identifier
  | .global_cluster_identifier =>
    d.state.global_cluster_identifier != d.attrs.global_cluster_identifier
  | .hosted_zone_id => d.state.hosted_zone_id != d.attrs.hosted_zone_id
  | .kms_key_id => d.state.kms_key_id != d.attrs.kms_key_id
  | .master_password => d.state.master_password != d.attrs.master_password
  | .master_username => d.state.master_username != d.attrs.master_username
  | .port => d.state.port != d.attrs.port
  | .preferred_backup_window => d.state.preferred_backup_window != d.attrs.preferred_backup_window
  | .preferred_maintenance_window =>
    d.state.preferred_maintenance_window != d.attrs.preferred_maintenance_window
  | .reader_endpoint => d.state.reader_endpoint != d.attrs.reader_endpoint
  | .skip_final_snapshot => d.state.skip_final_snapshot != d.attrs.skip_final_snapshot
  | .snapshot_identifier => d.state.snapshot_identifier != d.attrs.snapshot_identifier
  | .storage_encrypted => d.state.storage_encrypted != d.attrs.storage_encrypted
  | .storage_type => d.state.storage_type != d.attrs.storage_type
  | .tags => d.state.tags != d.attrs.tags
  | .tags_all => d.state.tags_all != d.attrs.tags_all
  | .vpc_security_group_ids =>
    !setEqual d.state.vpc_security_group_ids d.attrs.vpc_security_group_ids

/-- Model of `d.HasChangesExcept`: some attribute of the schema other than the
given ones has a change. -/
def ResourceData.HasChangesExcept (d : ResourceData) (keys : List Key) : Bool :=
  Key.all.any fun attr => !keys.contains attr && d.HasChange attr

def expandCloudwatchLogsExportConfiguration (d : ResourceData) :
    CloudwatchLogsExportConfiguration :=
  let o := d.state.enabled_cloudwatch_logs_exports
  let n := d.attrs.enabled_cloudwatch_logs_exports
  let r := diffCloudWatchLogsExportConfiguration o n
  { EnableLogTypes := r.1, DisableLogTypes := r.2 }

/-- The `ModifyDBClusterInput` that `resourceClusterUpdate` builds. -/
def resourceClusterUpdate.input (d : ResourceData) : ModifyDBClusterInput :=
  let a := d.attrs
  let input : ModifyDBClusterInput := {
    ApplyImmediately := some a.apply_immediately
    DBClusterIdentifier := some d.id
  }
  let input := if GetOkBool a.allow_major_version_upgrade then
    { input with AllowMajorVersionUpgrade := some a.allow_major_version_upgrade } else input
  let input := if d.HasChange .backup_retention_period then
    { input with BackupRetentionPeriod := some a.backup_retention_period } else input
  let input := if d.HasChange .db_cluster_parameter_group_name then
    { input with DBClusterParameterGroupName := some a.db_cluster_parameter_group_name }
    else input
  let input := if d.HasChange .deletion_protection then
    { input with DeletionProtection := some a.deletion_protection } else input
  let input := if d.HasChange .enabled_cloudwatch_logs_exports then
    { input with
      CloudwatchLogsExportConfiguration := some (expandCloudwatchLogsExportConfiguration d) }
    else input
  let input := if d.HasChange .engine_version then
    { input with EngineVersion := some a.engine_version } else input
  let input := if d.HasChange .master_password then
    { input with MasterUserPassword := some a.master_password } else input
  let input := if d.HasChange .preferred_backup_window then
    { input with PreferredBackupWindow := some a.preferred_backup_window } else input
  let input := if d.HasChange .storage_type then
    { input with StorageType := some a.storage_type } else input
  let input := if d.HasChange .preferred_maintenance_window then
    { input with PreferredMaintenanceWindow := some a.preferred_maintenance_window } else input
  let input := if d.HasChange .vpc_security_group_ids then
    (if a.vpc_security_group_ids.length > 0 then
      { input with VpcSecurityGroupIds := some a.vpc_security_group_ids }
    else
      { input with VpcSecurityGroupIds := some [] })
    else input
  input

/-- The retry predicate of the `ModifyDBCluster` call. -/
def resourceClusterUpdate.retryable (err : Option Err) : Bool × Option Err :=
  if ErrMessageContains err errCodeInvalidParameterValue iamRoleNotPropagated then
    (true, err)
  else if ErrMessageContains err ErrCodeInvalidDBClusterStateFault
      "is not currently in the available state" then
    (true, err)
  else if ErrMessageContains err ErrCodeInvalidDBClusterStateFault
      "cluster is a part of a global cluster" then
    (true, err)
  else
    (false, err)

/-- The steps of `resourceClusterUpdate` after the modification: the handling
of a changed `global_cluster_identifier`, then the read. -/
def resourceClusterUpdate.globalCluster (m : Meta) (d : ResourceData) (tr : Trace) : Result :=
  let conn := m.conn
  if d.HasChange .global_cluster_identifier then
    let o := d.state.global_cluster_identifier
    let n := d.attrs.global_cluster_identifier
    if o == "" then
      { diags := [.cannotBeAdded], d := d, trace := tr }
    else if n != "" then
      { diags := [.cannotBeMigrated], d := d, trace := tr }
    else
      let r := removeClusterFromGlobalCluster conn d.attrs.arn o (m.retries d.timeoutUpdate) tr
      match r.1 with
      | some err => { diags := [.fromErr err], d := d, trace := r.2 }
      | none => resourceClusterRead m d r.2
  else
    resourceClusterRead m d tr

def resourceClusterUpdate (m : Meta) (d : ResourceData) (tr : Trace) : Result :=
  let conn := m.conn
  if d.HasChangesExcept
      [.tags, .tags_all, .global_cluster_identifier, .skip_final_snapshot] then
    let input := resourceClusterUpdate.input d
    let r := RetryWhen (conn.ModifyDBClusterWithContext input) resourceClusterUpdate.retryable
      (m.retries (5 * 60)) tr
    match r.1 with
    | some err => { diags := [.modifying d.id err], d := d, trace := r.2 }
    | none =>
      let w := waitDBClusterAvailable conn d.id (m.polls d.timeoutUpdate) r.2
      match w.1.2 with
      | some err => { diags := [.waitingUpdate d.id err], d := d, trace := w.2 }
      | none => resourceClusterUpdate.globalCluster m d w.2
  else
    resourceClusterUpdate.globalCluster m d tr

/-! ## The claims' reference notions and example environments -/

/-- The non-`nil` clusters of the non-`nil` pages that pass the filter, in page
order and in-page order. -/
def matchingClusters (pages : List (Option DescribeDBClustersOutput))
    (filter : DBCluster → Bool) : List DBCluster :=
  (((pages.filterMap id).map fun page => page.DBClusters).flatten.filterMap id).filter filter

/-- The error of a cluster that does not exist. -/
def clusterNotFoundFault : Err :=
  .aws { Code := ErrCodeDBClusterNotFoundFault, Message := "DBCluster not found" }

/-- A service on which the cluster is absent: every call that names it answers
`DBClusterNotFoundFault`, and no global cluster has it as a member. -/
def Conn.absent : Conn where
  RemoveFromGlobalCluster := fun _ _ => some clusterNotFoundFault
  DeleteDBCluster := fun _ _ => some clusterNotFoundFault
  DescribeDBClustersPages := fun _ _ => ([], some clusterNotFoundFault)
  DescribeGlobalClusters := fun _ _ => .error (.notFound none)
  CreateDBCluster := fun _ _ => none
  RestoreDBClusterFromSnapshot := fun _ _ => none
  ModifyDBCluster := fun _ _ => some clusterNotFoundFault

/-- A service whose describe call delivers the given pages and on which every
other call succeeds; no global cluster has a member. -/
def Conn.serving (pages : List (Option DescribeDBClustersOutput)) : Conn where
  RemoveFromGlobalCluster := fun _ _ => none
  DeleteDBCluster := fun _ _ => none
  DescribeDBClustersPages := fun _ _ => (pages, none)
  DescribeGlobalClusters := fun _ _ => .error (.notFound none)
  CreateDBCluster := fun _ _ => none
  RestoreDBClusterFromSnapshot := fun _ _ => none
  ModifyDBCluster := fun _ _ => none

/-- An environment around a connection: no tags, a fixed generated suffix, two
further attempts and three refreshes for every timeout. -/
def Meta.sample (conn : Conn) : Meta where
  conn := conn
  tagsIn := []
  uniqueId := "20240101000000000000000001"
  retries := fun _ => 2
  polls := fun _ => 3
  propagationTimeout := 120
  NamePrefixFromName := fun _ => none

/-- The request that `resourceClusterDelete` hands to `DeleteDBCluster` once the
final-snapshot check has passed. -/
def deleteInputOf (d : ResourceData) : DeleteDBClusterInput :=
  { DBClusterIdentifier := some d.id
    FinalDBSnapshotIdentifier :=
      if d.attrs.skip_final_snapshot then none else some d.attrs.final_snapshot_identifier
    SkipFinalSnapshot := some d.attrs.skip_final_snapshot }

/-- Is the diagnostic a "required field is not set" error. -/
def Diag.isRequiredFieldNotSet : Diag → Bool
  | .requiredFieldNotSet _ _ => true
  | _ => false

/-- A cluster that is a member of global cluster `g1` and is to be deleted
without a final snapshot. -/
def dGlobal : ResourceData :=
  { id := "c1"
    attrs := { arn := "arn:c1", global_cluster_identifier := "g1", skip_final_snapshot := true } }

/-- A service on which the cluster is absent, as on `Conn.absent`, and on which
`RemoveFromGlobalCluster` answers as given. -/
def Conn.absentDetaching (answer : Option Err) : Conn :=
  { Conn.absent with RemoveFromGlobalCluster := fun _ _ => answer }

/-- The error of a service that does not know the global cluster. -/
def globalClusterNotFoundFault : Err :=
  .aws { Code := ErrCodeGlobalClusterNotFoundFault, Message := "GlobalCluster not found" }

/-- The error of a service on which the cluster is not a member of the global
cluster. -/
def notInGlobalCluster : Err :=
  .aws { Code := "InvalidParameterValue"
         Message := "Cluster arn:c1 is not found in global cluster g1" }

/-- The error of a service that rejects a call for exceeding the request rate. -/
def throttled : Err :=
  .aws { Code := "Throttling", Message := "Rate exceeded" }

/-- Three pages, the second one `nil`, with a `nil` entry on the first. -/
def samplePages : List (Option DescribeDBClustersOutput) :=
  [some { DBClusters := [some { DBClusterIdentifier := some "c1" }, none] },
   none,
   some { DBClusters := [some { DBClusterIdentifier := some "c2" }] }]

/-- A describe answer that is broader than the request: one cluster, whose
identifier only starts with the requested one. -/
def broaderMatchPages : List (Option DescribeDBClustersOutput) :=
  [some { DBClusters := [some { DBClusterIdentifier := some "c1-replica" }] }]

/-- The error is an API error with the given code whose message contains the
given text. -/
def HasSignature (err : Option Err) (code message : String) : Prop :=
  ∃ e a, err = some e ∧ e.asAws = some a ∧ a.Code = code ∧ message.data <:+: a.Message.data

/-- The error that a service answers while an IAM role has not propagated. -/
def iamRoleError : Err :=
  .aws { Code := "InvalidParameterValue"
         Message := "IAM role ARN value is invalid or does not include the required permissions" }

def Call.isCreateDBCluster : Call → Bool
  | .CreateDBCluster _ => true
  | _ => false

def Call.isRestoreDBClusterFromSnapshot : Call → Bool
  | .RestoreDBClusterFromSnapshot _ => true
  | _ => false

def Call.isModifyDBCluster : Call → Bool
  | .ModifyDBCluster _ => true
  | _ => false

def Call.isDeleteDBCluster : Call → Bool
  | .DeleteDBCluster _ => true
  | _ => false

/-- A cluster `c1` in the given status. -/
def clusterInStatus (status : String) : DBCluster :=
  { DBClusterIdentifier := some "c1", DBClusterArn := some "arn:c1", Status := some status }

/-- A service on which cluster `c1` is in the given status, and every other call
succeeds. -/
def Conn.withStatus (status : String) : Conn :=
  Conn.serving [some { DBClusters := [some (clusterInStatus status)] }]

/-- A service on which cluster `c1` goes through the given statuses, one per
describe call (counting the calls issued so far), and stays in the last one. -/
def Conn.scripted (statuses : List String) (last : String) : Conn where
  RemoveFromGlobalCluster := fun _ _ => none
  DeleteDBCluster := fun _ _ => none
  DescribeDBClustersPages := fun tr _ =>
    ([some { DBClusters := [some (clusterInStatus (statuses.getD tr.length last))] }], none)
  DescribeGlobalClusters := fun _ _ => .error (.notFound none)
  CreateDBCluster := fun _ _ => none
  RestoreDBClusterFromSnapshot := fun _ _ => none
  ModifyDBCluster := fun _ _ => none

/-- The credential that `resourceClusterCreate` finds missing in fresh-create
mode, if any: the field named by its "required field is not set" error. -/
def resourceClusterCreate.missingCredential (d : ResourceData) : Option String :=
  if !GetOkString d.attrs.global_cluster_identifier && !GetOkString d.attrs.master_password then
    some "master_password"
  else if !GetOkString d.attrs.global_cluster_identifier
      && !GetOkString d.attrs.master_username then
    some "master_username"
  else none

/-- The retried creation call of `resourceClusterCreate`: the restore call when
`snapshot_identifier` is set, the create call otherwise. -/
def resourceClusterCreate.call (m : Meta) (d : ResourceData) (tr : Trace) : Option Err × Trace :=
  if GetOkString d.attrs.snapshot_identifier then
    RetryWhenAWSErrMessageContains (m.retries m.propagationTimeout)
      (m.conn.RestoreDBClusterFromSnapshotWithContext
        (resourceClusterCreate.restoreInput m d (resourceClusterCreate.identifier m d)))
      errCodeInvalidParameterValue iamRoleNotPropagated tr
  else
    RetryWhenAWSErrMessageContains (m.retries m.propagationTimeout)
      (m.conn.CreateDBClusterWithContext
        (resourceClusterCreate.createInput m d (resourceClusterCreate.identifier m d)))
      errCodeInvalidParameterValue iamRoleNotPropagated tr

/-- The follow-up `ModifyDBClusterInput` of a restore from a snapshot, field by
field: apply immediately, the cluster identifier, and those of the four
attributes that are set. -/
def followUpInput (d : ResourceData) (identifier : String) : ModifyDBClusterInput :=
  { ApplyImmediately := some true
    DBClusterIdentifier := some identifier
    BackupRetentionPeriod :=
      if d.attrs.backup_retention_period = 0 then none
      else some d.attrs.backup_retention_period
    DBClusterParameterGroupName :=
      if d.attrs.db_cluster_parameter_group_name = "" then none
      else some d.attrs.db_cluster_parameter_group_name
    PreferredBackupWindow :=
      if d.attrs.preferred_backup_window = "" then none
      else some d.attrs.preferred_backup_window
    PreferredMaintenanceWindow :=
      if d.attrs.preferred_maintenance_window = "" then none
      else some d.attrs.preferred_maintenance_window }

/-- A configuration that restores cluster `c1` from a snapshot with a backup
window. -/
def dRestore : ResourceData :=
  { isNewResource := true
    attrs := { cluster_identifier := "c1", snapshot_identifier := "snap-1"
               preferred_backup_window := "07:00-09:00" } }

/-- A configuration that creates cluster `c1` afresh. -/
def dFresh : ResourceData :=
  { isNewResource := true
    attrs := { cluster_identifier := "c1", master_username := "u", master_password := "p" } }

/-- An update that changes the backup retention period of a cluster whose
`allow_major_version_upgrade` is true before and after. -/
def dUpgradeKept : ResourceData :=
  { id := "c1"
    state := { allow_major_version_upgrade := true, backup_retention_period := 1 }
    attrs := { allow_major_version_upgrade := true, backup_retention_period := 7 } }

/-- An update that only switches `allow_major_version_upgrade` off. -/
def dUpgradeOff : ResourceData :=
  { id := "c1"
    state := { allow_major_version_upgrade := true }
    attrs := { allow_major_version_upgrade := false } }

/-- The describe call of a read of cluster `id`. -/
def readCall (id : String) : Call :=
  .DescribeDBClustersPages { DBClusterIdentifier := some id }

/-! ## The importer and the diff-suppress functions of the schema -/

/-- The `StateContext` of the importer: neither `skip_final_snapshot` nor
`final_snapshot_identifier` can be fetched from any API call, so
`skip_final_snapshot` is set to true; the resource data is returned as the
only element. -/
def ResourceCluster.Importer.StateContext (d : ResourceData) : List ResourceData × Option Err :=
  let d := { d with attrs := { d.attrs with skip_final_snapshot := true } }
  ([d], none)

/-- The `DiffSuppressFunc` of `snapshot_identifier`: allow the attribute to be
removed without forcing re-creation. -/
def snapshotIdentifierDiffSuppressFunc (_k _old new : String) (_d : ResourceData) : Bool :=
  new == ""

/-- Modelled from the spec: the constant `storageTypeStandard` is declared in a
file of this package that is not part of the sources at hand. -/
def storageTypeStandard : String := "standard"

/-- The `DiffSuppressFunc` of `storage_type`: the storage type is not returned
by the service when it is "standard". -/
def storageTypeDiffSuppressFunc (_k old new : String) (_d : ResourceData) : Bool :=
  if old == "" && new == storageTypeStandard then true
  else old == new

/-- An update that adds a cluster to a global cluster and changes its backup
retention period. -/
def dJoinGlobal : ResourceData :=
  { id := "c1"
    state := { arn := "arn:c1", backup_retention_period := 1 }
    attrs := { arn := "arn:c1", backup_retention_period := 7, global_cluster_identifier := "g1" } }

/-- An update that only adds a cluster to a global cluster. -/
def dJoinGlobalOnly : ResourceData :=
  { id := "c1"
    state := { arn := "arn:c1" }
    attrs := { arn := "arn:c1", global_cluster_identifier := "g1" } }

/-- An update that only takes a cluster out of global cluster `g1`. -/
def dLeaveGlobal : ResourceData :=
  { id := "c1"
    state := { arn := "arn:c1", global_cluster_identifier := "g1" }
    attrs := { arn := "arn:c1" } }

end DocDB

/-! # AppConfig extension association: the destroy check of the acceptance tests
(`internal/service/appconfig/extenstion_association_test.go`) -/

namespace AppConfig

open DocDB

/-- A resource of the Terraform state: its type and the id of its primary
instance. -/
structure ResourceState where
  type : String
  primaryID : String
  deriving DecidableEq, Repr

structure GetExtensionAssociationInput where
  ExtensionAssociationId : Option String
  deriving DecidableEq, Repr

structure GetExtensionAssociationOutput where
  Id : Option String := none
  deriving DecidableEq, Repr

/-- The SDK constant `appconfig.ErrCodeResourceNotFoundException`. -/
def ErrCodeResourceNotFoundException : String := "ResourceNotFoundException"

/-- The errors of the destroy check. -/
inductive CheckError where
  | reading (id : String) (err : Err)
  | stillExists (id : String)
  deriving DecidableEq, Repr

/-- The service as the destroy check sees it: the answer of
`GetExtensionAssociation`, an output (possibly `nil`) and an error. -/
abbrev AppConfigConn :=
  GetExtensionAssociationInput → Option GetExtensionAssociationOutput × Option Err

/-- The loop of `testAccCheckExtensionAssociationDestroy` over the resources of
the root module, in the order the loop visits them. -/
def testAccCheckExtensionAssociationDestroy (conn : AppConfigConn) :
    List ResourceState → Option CheckError
  | [] => none
  | rs :: rest =>
    if rs.type != "aws_appconfig_environment" then
      testAccCheckExtensionAssociationDestroy conn rest
    else
      let input : GetExtensionAssociationInput := { ExtensionAssociationId := some rs.primaryID }
      let r := conn input
      let output := r.1
      let err := r.2
      if ErrCodeEquals err [ErrCodeResourceNotFoundException] then
        testAccCheckExtensionAssociationDestroy conn rest
      else
        match err with
        | some e => some (.reading rs.primaryID e)
        | none =>
          if output.isSome then some (.stillExists rs.primaryID)
          else testAccCheckExtensionAssociationDestroy conn rest

/-- A service on which every extension association still exists. -/
def connStillExists : AppConfigConn :=
  fun input => (some { Id := input.ExtensionAssociationId }, none)

end AppConfig

namespace DocDB

/-! # Theorems -/

/-! ## The log-export diff -/

theorem IndexOf_nonneg_or (s : List String) (v : String) :
    IndexOf s v = -1 ∨ 0 ≤ IndexOf s v := by
  induction s with
  | nil => left; rfl
  | cons x xs ih =>
    unfold IndexOf
    by_cases hx : x = v
    · right; simp [hx]
    · simp only [hx, if_false]
      rcases ih with h | h
      · left; simp [h]
      · right
        have : IndexOf xs v ≠ -1 := by omega
        simp only [this, if_false]; omega

theorem IndexOf_eq_neg_one_iff (s : List String) (v : String) :
    IndexOf s v = -1 ↔ v ∉ s := by
  induction s with
  | nil => simp [IndexOf]
  | cons x xs ih =>
    unfold IndexOf
    by_cases hx : x = v
    · simp [hx]
    · simp only [hx, if_false, List.mem_cons]
      have hv : ¬ v = x := fun h => hx h.symm
      by_cases hi : IndexOf xs v = -1
      · simp only [hi, if_true, true_iff]
        rw [ih] at hi
        simp [hv, hi]
      · simp only [hi, if_false]
        rcases IndexOf_nonneg_or xs v with h | h
        · exact absurd h hi
        · have hm : v ∈ xs := by
            by_contra hc; exact hi ((ih).2 hc)
          constructor
          · intro h'; omega
          · intro h'; exact absurd (Or.inr hm) h'

theorem foldl_append_if (P : String → Bool) (l init : List String) :
    l.foldl (fun acc n => if P n then acc ++ [n] else acc) init = init ++ l.filter P := by
  induction l generalizing init with
  | nil => simp
  | cons x xs ih =>
    simp only [List.foldl_cons, List.filter_cons]
    by_cases hp : P x = true
    · simp [hp, ih]
    · simp [hp, ih]

theorem diff_eq_filter (old new : List String) :
    diffCloudWatchLogsExportConfiguration old new =
      (new.filter (fun n => decide (IndexOf old n = -1)),
       old.filter (fun o => decide (IndexOf new o = -1))) := by
  unfold diffCloudWatchLogsExportConfiguration
  have h1 := foldl_append_if (fun n => decide (IndexOf old n = -1)) new []
  have h2 := foldl_append_if (fun o => decide (IndexOf new o = -1)) old []
  simp only [decide_eq_true_eq, List.nil_append] at h1 h2
  simp only [h1, h2]

/-- C1: a value occurs in the enable list exactly when it occurs in `new` and not
in `old`, and in the disable list exactly when it occurs in `old` and not in
`new`; in particular old = [A, B] and new = [B, C] give enable = [C] and
disable = [A]. -/
theorem diffCloudWatchLogsExportConfiguration_spec (old new : List String) :
    (∀ v, v ∈ (diffCloudWatchLogsExportConfiguration old new).1 ↔ (v ∈ new ∧ v ∉ old)) ∧
    (∀ v, v ∈ (diffCloudWatchLogsExportConfiguration old new).2 ↔ (v ∈ old ∧ v ∉ new)) ∧
    diffCloudWatchLogsExportConfiguration ["A", "B"] ["B", "C"] = (["C"], ["A"]) := by
  rw [diff_eq_filter]
  refine ⟨?_, ?_, by decide⟩
  · intro v; simp [List.mem_filter, IndexOf_eq_neg_one_iff]
  · intro v; simp [List.mem_filter, IndexOf_eq_neg_one_iff]

/-! ## The final-snapshot-identifier validator -/

namespace Regex

theorem nullable_iff (r : Regex) : nullable r = true ↔ Matches r [] := by
  induction r with
  | none => simp only [nullable]; constructor
            · intro h; cases h
            · intro h; cases h
  | eps => simp only [nullable, true_iff]; exact Matches.eps
  | cls p => simp only [nullable]; constructor
             · intro h; cases h
             · intro h; cases h
  | cat r s ihr ihs =>
    simp only [nullable, Bool.and_eq_true, ihr, ihs]
    constructor
    · rintro ⟨h1, h2⟩; exact Matches.cat h1 h2
    · intro h
      generalize hw : ([] : List Char) = w at h
      cases h with
      | @cat _ _ u v h1 h2 =>
        have := List.append_eq_nil.1 hw.symm
        rcases this with ⟨rfl, rfl⟩
        exact ⟨h1, h2⟩
  | alt r s ihr ihs =>
    simp only [nullable, Bool.or_eq_true, ihr, ihs]
    constructor
    · rintro (h | h)
      · exact Matches.altL h
      · exact Matches.altR h
    · intro h
      cases h with
      | altL h => exact Or.inl h
      | altR h => exact Or.inr h
  | star r _ => simp only [nullable, true_iff]; exact Matches.starNil

theorem star_cons_split {r : Regex} {c : Char} {cs : List Char}
    (h : Matches (star r) (c :: cs)) :
    ∃ u v, cs = u ++ v ∧ Matches r (c :: u) ∧ Matches (star r) v := by
  generalize hs : star r = s at h
  generalize hw : c :: cs = w at h
  induction h with
  | eps => cases hs
  | cls _ => cases hs
  | cat _ _ => cases hs
  | altL _ => cases hs
  | altR _ => cases hs
  | starNil => cases hw
  | @starCons r' u v h1 h2 _ ih2 =>
    cases hs
    cases u with
    | nil => exact ih2 rfl hw
    | cons a u' =>
      simp only [List.cons_append, List.cons.injEq] at hw
      rcases hw with ⟨rfl, rfl⟩
      exact ⟨u', v, rfl, h1, h2⟩

theorem deriv_iff (r : Regex) (c : Char) (cs : List Char) :
    Matches (deriv r c) cs ↔ Matches r (c :: cs) := by
  induction r generalizing cs with
  | none => simp only [deriv]; constructor
            · intro h; cases h
            · intro h; cases h
  | eps => simp only [deriv]; constructor
           · intro h; cases h
           · intro h; cases h
  | cls p =>
    simp only [deriv]
    constructor
    · intro h
      by_cases hp : p c = true
      · rw [if_pos hp] at h
        cases h
        exact Matches.cls hp
      · rw [if_neg hp] at h
        cases h
    · intro h
      cases h with
      | cls hp => rw [if_pos hp]; exact Matches.eps
  | cat r s ihr ihs =>
    have key : Matches (cat r s) (c :: cs) ↔
        (∃ u v, cs = u ++ v ∧ Matches r (c :: u) ∧ Matches s v) ∨
        (Matches r [] ∧ Matches s (c :: cs)) := by
      constructor
      · intro h
        generalize hw : c :: cs = w at h
        cases h with
        | @cat _ _ u v h1 h2 =>
          cases u with
          | nil =>
            simp only [List.nil_append] at hw
            subst hw
            exact Or.inr ⟨h1, h2⟩
          | cons a u' =>
            simp only [List.cons_append, List.cons.injEq] at hw
            rcases hw with ⟨rfl, rfl⟩
            exact Or.inl ⟨u', v, rfl, h1, h2⟩
      · rintro (⟨u, v, rfl, h1, h2⟩ | ⟨h1, h2⟩)
        · exact Matches.cat h1 h2
        · exact Matches.cat h1 h2
    have left : Matches (cat (deriv r c) s) cs ↔
        ∃ u v, cs = u ++ v ∧ Matches r (c :: u) ∧ Matches s v := by
      constructor
      · intro h
        cases h with
        | @cat _ _ u v h1 h2 =>
          exact ⟨u, v, rfl, (ihr u).1 h1, h2⟩
      · rintro ⟨u, v, rfl, h1, h2⟩
        exact Matches.cat ((ihr u).2 h1) h2
    rw [key]
    simp only [deriv]
    by_cases hn : nullable r = true
    · rw [if_pos hn]
      constructor
      · intro h
        cases h with
        | altL h => exact Or.inl (left.1 h)
        | altR h => exact Or.inr ⟨(nullable_iff r).1 hn, (ihs cs).1 h⟩
      · rintro (h | ⟨_, h⟩)
        · exact Matches.altL (left.2 h)
        · exact Matches.altR ((ihs cs).2 h)
    · rw [if_neg hn]
      constructor
      · intro h; exact Or.inl (left.1 h)
      · rintro (h | ⟨h, _⟩)
        · exact left.2 h
        · exact absurd ((nullable_iff r).2 h) hn
  | alt r s ihr ihs =>
    simp only [deriv]
    constructor
    · intro h
      cases h with
      | altL h => exact Matches.altL ((ihr cs).1 h)
      | altR h => exact Matches.altR ((ihs cs).1 h)
    · intro h
      cases h with
      | altL h => exact Matches.altL ((ihr cs).2 h)
      | altR h => exact Matches.altR ((ihs cs).2 h)
  | star r ih =>
    simp only [deriv]
    constructor
    · intro h
      cases h with
      | @cat _ _ u v h1 h2 =>
        have := Matches.starCons ((ih u).1 h1) h2
        simpa using this
    · intro h
      obtain ⟨u, v, rfl, h1, h2⟩ := star_cons_split h
      exact Matches.cat ((ih u).2 h1) h2

theorem fullMatch_iff (r : Regex) (cs : List Char) :
    fullMatch r cs = true ↔ Matches r cs := by
  induction cs generalizing r with
  | nil => simp only [fullMatch]; exact nullable_iff r
  | cons c cs ih => simp only [fullMatch]; rw [ih, deriv_iff]

theorem matches_cls_iff (p : Char → Bool) (cs : List Char) :
    Matches (cls p) cs ↔ ∃ c, cs = [c] ∧ p c = true := by
  constructor
  · intro h
    cases h with
    | cls hp => exact ⟨_, rfl, hp⟩
  · rintro ⟨c, rfl, hp⟩
    exact Matches.cls hp

theorem matches_star_cls_iff (p : Char → Bool) (cs : List Char) :
    Matches (star (cls p)) cs ↔ ∀ c ∈ cs, p c = true := by
  induction cs with
  | nil => simp only [List.not_mem_nil, false_implies, implies_true, iff_true]
           exact Matches.starNil
  | cons a as ih =>
    constructor
    · intro h
      obtain ⟨u, v, rfl, h1, h2⟩ := star_cons_split h
      obtain ⟨c, hc, hp⟩ := (matches_cls_iff p _).1 h1
      simp only [List.cons.injEq, List.cons_ne_self, and_false] at hc
      cases hc with
      | intro h1 h2' =>
        subst h1; subst h2'
        simp only [List.nil_append] at ih
        intro x hx
        simp only [List.nil_append, List.mem_cons] at hx
        rcases hx with rfl | hx
        · exact hp
        · exact (ih.1 h2) x hx
    · intro h
      have h1 : Matches (cls p) [a] := Matches.cls (h a (List.mem_cons_self _ _))
      have h2 : Matches (star (cls p)) as := ih.2 (fun c hc => h c (List.mem_cons_of_mem _ hc))
      exact Matches.starCons h1 h2

end Regex

theorem alnumHyphen_iff (c : Char) :
    alnumHyphen c = true ↔ (c.isAlpha = true ∨ c.isDigit = true ∨ c = '-') := by
  simp only [alnumHyphen, Char.isAlpha, Char.isUpper, Char.isLower, Char.isDigit,
    Bool.or_eq_true, Bool.and_eq_true, decide_eq_true_eq, beq_iff_eq, Char.le_def,
    UInt32.le_def, ge_iff_le]
  constructor
  · rintro (((h | h) | h) | h)
    · right; left; exact h
    · left; left; exact h
    · left; right; exact h
    · right; right; exact h
  · rintro ((h | h) | h | h)
    · left; left; right; exact h
    · left; right; exact h
    · left; left; left; exact h
    · right; exact h

theorem isHyphen_iff (c : Char) : isHyphen c = true ↔ c = '-' := by
  simp [isHyphen]

theorem matches_plus_cls_iff (p : Char → Bool) (cs : List Char) :
    Regex.Matches (.cat (.cls p) (.star (.cls p))) cs ↔
      (cs ≠ [] ∧ ∀ c ∈ cs, p c = true) := by
  constructor
  · intro h
    cases h with
    | @cat _ _ u v h1 h2 =>
      obtain ⟨c, rfl, hp⟩ := (Regex.matches_cls_iff _ _).1 h1
      have hv := (Regex.matches_star_cls_iff _ _).1 h2
      refine ⟨by simp, ?_⟩
      intro x hx
      simp only [List.singleton_append, List.mem_cons] at hx
      rcases hx with rfl | hx
      · exact hp
      · exact hv x hx
  · rintro ⟨hne, hall⟩
    cases cs with
    | nil => exact absurd rfl hne
    | cons a as =>
      have h1 : Regex.Matches (.cls p) [a] :=
        Regex.Matches.cls (hall a (List.mem_cons_self _ _))
      have h2 : Regex.Matches (.star (.cls p)) as :=
        (Regex.matches_star_cls_iff _ _).2 (fun c hc => hall c (List.mem_cons_of_mem _ hc))
      exact Regex.Matches.cat h1 h2

theorem matches_two_cls_iff (p q : Char → Bool) (cs : List Char) :
    Regex.Matches (.cat (.cls p) (.cls q)) cs ↔
      ∃ a b, cs = [a, b] ∧ p a = true ∧ q b = true := by
  constructor
  · intro h
    cases h with
    | @cat _ _ u v h1 h2 =>
      obtain ⟨a, rfl, hp⟩ := (Regex.matches_cls_iff _ _).1 h1
      obtain ⟨b, rfl, hq⟩ := (Regex.matches_cls_iff _ _).1 h2
      exact ⟨a, b, rfl, hp, hq⟩
  · rintro ⟨a, b, rfl, hp, hq⟩
    exact Regex.Matches.cat (u := [a]) (v := [b]) (Regex.Matches.cls hp) (Regex.Matches.cls hq)

theorem reAlnumHyphens_iff (s : String) :
    reAlnumHyphens.MatchString s = true ↔
      (s.data ≠ [] ∧ ∀ c ∈ s.data, alnumHyphen c = true) := by
  simp only [Pattern.MatchString, reAlnumHyphens, if_true, List.any_cons, List.any_nil,
    Bool.or_false, Regex.fullMatch_iff, matches_plus_cls_iff]

theorem reDoubleHyphen_iff (s : String) :
    reDoubleHyphen.MatchString s = true ↔ ['-', '-'] <:+: s.data := by
  simp only [Pattern.MatchString, reDoubleHyphen, Bool.false_eq_true, if_false, List.any_eq_true,
    List.mem_tails, List.mem_inits, Regex.fullMatch_iff, matches_two_cls_iff, isHyphen_iff]
  rw [List.infix_iff_prefix_suffix]
  constructor
  · rintro ⟨suf, hsuf, mid, hmid, a, b, rfl, rfl, rfl⟩
    exact ⟨suf, hmid, hsuf⟩
  · rintro ⟨t, h1, h2⟩
    exact ⟨t, h2, _, h1, _, _, rfl, rfl, rfl⟩

theorem reTrailingHyphen_iff (s : String) :
    reTrailingHyphen.MatchString s = true ↔ ['-'] <:+ s.data := by
  simp only [Pattern.MatchString, reTrailingHyphen, Bool.false_eq_true, if_false, if_true,
    List.any_eq_true, List.mem_tails, List.any_cons, List.any_nil, Bool.or_false,
    Regex.fullMatch_iff, Regex.matches_cls_iff, isHyphen_iff]
  constructor
  · rintro ⟨suf, hsuf, c, rfl, rfl⟩
    exact hsuf
  · intro h
    exact ⟨_, h, _, rfl, rfl⟩

/-- C2: the validator of `final_snapshot_identifier` returns no error exactly for
the non-empty strings of ASCII letters, ASCII digits and hyphens that hold no
two consecutive hyphens and do not end in a hyphen, and it never returns a
warning; it rejects "a--b" and "a-" and accepts "a-b-c". -/
theorem validateFinalSnapshotIdentifier_spec (v k : String) :
    ((validateFinalSnapshotIdentifier v k).2 = [] ↔
      (v.data ≠ [] ∧ (∀ c ∈ v.data, c.isAlpha = true ∨ c.isDigit = true ∨ c = '-') ∧
        ¬ ['-', '-'] <:+: v.data ∧ ¬ ['-'] <:+ v.data)) ∧
    (validateFinalSnapshotIdentifier v k).1 = [] ∧
    (validateFinalSnapshotIdentifier "a--b" k).2 ≠ [] ∧
    (validateFinalSnapshotIdentifier "a-" k).2 ≠ [] ∧
    (validateFinalSnapshotIdentifier "a-b-c" k).2 = [] := by
  have key : ∀ s : String, (validateFinalSnapshotIdentifier s k).2 = [] ↔
      (reAlnumHyphens.MatchString s = true ∧ reDoubleHyphen.MatchString s = false ∧
        reTrailingHyphen.MatchString s = false) := by
    intro s
    unfold validateFinalSnapshotIdentifier
    cases reAlnumHyphens.MatchString s <;> cases reDoubleHyphen.MatchString s <;>
      cases reTrailingHyphen.MatchString s <;> simp
  refine ⟨?_, rfl, ?_, ?_, ?_⟩
  · rw [key, reAlnumHyphens_iff, ← Bool.not_eq_true, ← Bool.not_eq_true, reDoubleHyphen_iff,
      reTrailingHyphen_iff]
    simp only [alnumHyphen_iff, and_assoc]
  · rw [Ne, key]; decide
  · rw [Ne, key]; decide
  · rw [key]; decide

/-! ## Create: the credential precondition -/

theorem resourceClusterRead_no_required (m : Meta) (d : ResourceData) (tr : Trace) :
    ∀ x ∈ (resourceClusterRead m d tr).diags, x.isRequiredFieldNotSet = false := by
  intro x hx
  unfold resourceClusterRead at hx
  simp only at hx
  split at hx
  · split at hx
    · simp at hx
    · simp at hx; subst hx; rfl
  · split at hx
    · split at hx
      · simp at hx
      · simp at hx; subst hx; rfl
    · simp at hx

theorem finish_no_required (m : Meta) (d : ResourceData) (identifier : String)
    (inputM : ModifyDBClusterInput) (req : Bool) (tr : Trace) :
    ∀ x ∈ (resourceClusterCreate.finish m d identifier inputM req tr).diags,
      x.isRequiredFieldNotSet = false := by
  intro x hx
  unfold resourceClusterCreate.finish at hx
  simp only at hx
  split at hx
  · simp at hx; subst hx; rfl
  · split at hx
    · split at hx
      · simp at hx; subst hx; rfl
      · split at hx
        · simp at hx; subst hx; rfl
        · exact resourceClusterRead_no_required _ _ _ x hx
    · exact resourceClusterRead_no_required _ _ _ x hx

/-- C4: `resourceClusterCreate` reports a "required field is not set" error
exactly when `snapshot_identifier` and `global_cluster_identifier` are unset
and `master_password` or `master_username` is unset, and it then has issued no
remote call; so with either of the two identifiers set, missing credentials
never cause this error. -/
theorem resourceClusterCreate_required_field (m : Meta) (d : ResourceData) (tr : Trace) :
    ((∃ x ∈ (resourceClusterCreate m d tr).diags, x.isRequiredFieldNotSet = true) ↔
      (d.attrs.snapshot_identifier = "" ∧ d.attrs.global_cluster_identifier = "" ∧
        (d.attrs.master_password = "" ∨ d.attrs.master_username = ""))) ∧
    ((d.attrs.snapshot_identifier = "" ∧ d.attrs.global_cluster_identifier = "" ∧
        (d.attrs.master_password = "" ∨ d.attrs.master_username = "")) →
      (∃ field, (resourceClusterCreate m d tr).diags
        = [.requiredFieldNotSet (resourceClusterCreate.identifier m d) field]) ∧
      (resourceClusterCreate m d tr).trace = tr ∧
      (resourceClusterCreate m d tr).d = d) := by
  have hpos : (d.attrs.snapshot_identifier = "" ∧ d.attrs.global_cluster_identifier = "" ∧
        (d.attrs.master_password = "" ∨ d.attrs.master_username = "")) →
      (∃ field, (resourceClusterCreate m d tr).diags
        = [.requiredFieldNotSet (resourceClusterCreate.identifier m d) field]) ∧
      (resourceClusterCreate m d tr).trace = tr ∧
      (resourceClusterCreate m d tr).d = d := by
    rintro ⟨hs, hg, hc⟩
    unfold resourceClusterCreate
    by_cases hp : d.attrs.master_password = ""
    · simp [GetOkString, hs, hg, hp]
    · rcases hc with hc | hc
      · exact absurd hc hp
      · simp [GetOkString, hs, hg, hp, hc]
  refine ⟨⟨?_, ?_⟩, hpos⟩
  · rintro ⟨x, hx, hreq⟩
    by_contra hcond
    have hno : ∀ y ∈ (resourceClusterCreate m d tr).diags, y.isRequiredFieldNotSet = false := by
      intro y hy
      unfold resourceClusterCreate at hy
      simp only at hy
      split at hy
      · split at hy
        · simp at hy; subst hy; rfl
        · exact finish_no_required _ _ _ _ _ _ y hy
      · rename_i hsnap
        split at hy
        · rename_i h1
          exfalso; apply hcond
          simp only [GetOkString, bne_iff_ne, ne_eq, Bool.not_eq_true, Bool.and_eq_true,
            Bool.not_eq_true', bne_eq_false_iff_eq, Decidable.not_not] at hsnap h1
          exact ⟨hsnap, h1.1, Or.inl h1.2⟩
        · split at hy
          · rename_i h1 h2
            exfalso; apply hcond
            simp only [GetOkString, bne_iff_ne, ne_eq, Bool.not_eq_true, Bool.and_eq_true,
              Bool.not_eq_true', bne_eq_false_iff_eq, Decidable.not_not] at hsnap h2
            exact ⟨hsnap, h2.1, Or.inr h2.2⟩
          · split at hy
            · simp at hy; subst hy; rfl
            · exact finish_no_required _ _ _ _ _ _ y hy
    rw [hno x hx] at hreq
    cases hreq
  · intro hcond
    obtain ⟨⟨field, hf⟩, -, -⟩ := hpos hcond
    exact ⟨.requiredFieldNotSet (resourceClusterCreate.identifier m d) field,
      by rw [hf]; exact List.mem_singleton_self _, rfl⟩

theorem resourceClusterCreate_required_field_witness :
    (resourceClusterCreate (Meta.sample Conn.absent) {} []).trace = [] ∧
    (resourceClusterCreate (Meta.sample Conn.absent) {} []).d = {} :=
  ((resourceClusterCreate_required_field (Meta.sample Conn.absent) {} []).2
    ⟨rfl, rfl, Or.inl rfl⟩).2

/-! ## Read: a cluster that is not found -/

/-- C8: when the cluster lookup of `resourceClusterRead` yields NotFound, a
resource that is not newly created gets the empty id and no error is returned,
while for a newly created resource an error is returned and the id (indeed
the whole resource data) is left unchanged. -/
theorem resourceClusterRead_not_found (m : Meta) (d : ResourceData) (tr : Trace) (err : Err)
    (hfind : (FindDBClusterByID m.conn d.id tr).1 = .error err)
    (hnf : NotFound (some err) = true) :
    (d.isNewResource = false →
      (resourceClusterRead m d tr).diags = [] ∧
      (resourceClusterRead m d tr).d.id = "" ∧
      (resourceClusterRead m d tr).d = { d with id := "" }) ∧
    (d.isNewResource = true →
      (resourceClusterRead m d tr).diags = [.reading d.id err] ∧
      (resourceClusterRead m d tr).d.id = d.id ∧
      (resourceClusterRead m d tr).d = d) := by
  constructor
  · intro hnew
    simp [resourceClusterRead, hfind, hnf, hnew]
  · intro hnew
    simp [resourceClusterRead, hfind, hnew]

theorem resourceClusterRead_not_found_witness :
    (resourceClusterRead (Meta.sample Conn.absent) { id := "c1" } []).d.id = "" ∧
    (resourceClusterRead (Meta.sample Conn.absent) { id := "c1", isNewResource := true } []).d.id
      = "c1" :=
  ⟨((resourceClusterRead_not_found (Meta.sample Conn.absent) { id := "c1" } []
      (.notFound (some { Code := ErrCodeDBClusterNotFoundFault, Message := "DBCluster not found" }))
      rfl rfl).1 rfl).2.1,
   ((resourceClusterRead_not_found (Meta.sample Conn.absent)
      { id := "c1", isNewResource := true } []
      (.notFound (some { Code := ErrCodeDBClusterNotFoundFault, Message := "DBCluster not found" }))
      rfl rfl).2 rfl).2.1⟩


/-! ## Delete -/

/-- C3: with `skip_final_snapshot` false and `final_snapshot_identifier` empty,
`resourceClusterDelete` returns an error and issues no remote call at all: the
trace of calls and the resource data are left as they were. -/
theorem resourceClusterDelete_requires_final_snapshot_identifier (m : Meta) (d : ResourceData)
    (tr : Trace)
    (hskip : d.attrs.skip_final_snapshot = false)
    (hfinal : d.attrs.final_snapshot_identifier = "") :
    (resourceClusterDelete m d tr).diags = [.finalSnapshotIdentifierRequired] ∧
    (resourceClusterDelete m d tr).trace = tr ∧
    (resourceClusterDelete m d tr).d = d := by
  simp [resourceClusterDelete, hskip, hfinal, GetOkString]

theorem resourceClusterDelete_requires_final_snapshot_identifier_witness :
    (resourceClusterDelete (Meta.sample Conn.absent) { id := "c1" } []).diags
      = [.finalSnapshotIdentifierRequired] ∧
    (resourceClusterDelete (Meta.sample Conn.absent) { id := "c1" } []).trace = [] ∧
    (resourceClusterDelete (Meta.sample Conn.absent) { id := "c1" } []).d = { id := "c1" } :=
  resourceClusterDelete_requires_final_snapshot_identifier (Meta.sample Conn.absent)
    { id := "c1" } [] rfl rfl

theorem RetryWhen_delete_trace (conn : Conn) (input : DeleteDBClusterInput)
    (retryable : Option Err → Bool × Option Err) (fuel : Nat) (tr : Trace) :
    ∃ n, 1 ≤ n ∧ n ≤ fuel + 1 ∧
      (RetryWhen (conn.DeleteDBClusterWithContext input) retryable fuel tr).2
        = tr ++ List.replicate n (Call.DeleteDBCluster input) := by
  induction fuel generalizing tr with
  | zero => exact ⟨1, le_refl _, le_refl _, by simp [RetryWhen, Conn.DeleteDBClusterWithContext]⟩
  | succ k ih =>
    unfold RetryWhen
    simp only []
    split
    · obtain ⟨n, h1, h2, h3⟩ := ih (conn.DeleteDBClusterWithContext input tr).2
      refine ⟨n + 1, by omega, by omega, ?_⟩
      rw [h3]
      simp [Conn.DeleteDBClusterWithContext, List.replicate_succ]
    · exact ⟨1, le_refl _, by omega, by simp [Conn.DeleteDBClusterWithContext]⟩

theorem resourceClusterDelete_eq_detach (m : Meta) (d : ResourceData) (tr : Trace)
    (hpre : d.attrs.skip_final_snapshot = true ∨ d.attrs.final_snapshot_identifier ≠ "") :
    resourceClusterDelete m d tr = resourceClusterDelete.detach m d (deleteInputOf d) tr := by
  unfold resourceClusterDelete deleteInputOf
  cases hs : d.attrs.skip_final_snapshot
  · have hf : d.attrs.final_snapshot_identifier ≠ "" := by
      rcases hpre with h | h
      · rw [hs] at h; cases h
      · exact h
    simp [GetOkString, hf]
  · simp

/-- C9: once the final-snapshot check has passed and the detach step (if any) has
succeeded, leaving the trace `tr1`: if the retried `DeleteDBCluster` call ends
with error code `DBClusterNotFoundFault` then `resourceClusterDelete` returns
no error and the calls after `tr1` are `DeleteDBCluster` attempts only (the
wait-until-deleted poll is not entered); if it ends with any other error then
`resourceClusterDelete` returns that error as a diagnostic. -/
theorem resourceClusterDelete_not_found_is_success (m : Meta) (d : ResourceData) (tr tr1 : Trace)
    (hpre : d.attrs.skip_final_snapshot = true ∨ d.attrs.final_snapshot_identifier ≠ "")
    (hdetach : (d.attrs.global_cluster_identifier = "" ∧ tr1 = tr) ∨
      (d.attrs.global_cluster_identifier ≠ "" ∧
        removeClusterFromGlobalCluster m.conn d.attrs.arn d.attrs.global_cluster_identifier
          (m.retries d.timeoutDelete) tr = (none, tr1))) :
    (ErrCodeEquals (RetryWhen (m.conn.DeleteDBClusterWithContext (deleteInputOf d))
          resourceClusterDelete.retryable (m.retries d.timeoutDelete) tr1).1
        [ErrCodeDBClusterNotFoundFault] = true →
      (resourceClusterDelete m d tr).diags = [] ∧
      ∃ n, (resourceClusterDelete m d tr).trace
        = tr1 ++ List.replicate n (Call.DeleteDBCluster (deleteInputOf d))) ∧
    (∀ e, (RetryWhen (m.conn.DeleteDBClusterWithContext (deleteInputOf d))
          resourceClusterDelete.retryable (m.retries d.timeoutDelete) tr1).1 = some e →
      ErrCodeEquals (some e) [ErrCodeDBClusterNotFoundFault] = false →
      (resourceClusterDelete m d tr).diags = [.deleting d.id e] ∧
      ∃ n, (resourceClusterDelete m d tr).trace
        = tr1 ++ List.replicate n (Call.DeleteDBCluster (deleteInputOf d))) := by
  have hdel : resourceClusterDelete m d tr
      = resourceClusterDelete.delete m d (deleteInputOf d) tr1 := by
    rw [resourceClusterDelete_eq_detach m d tr hpre]
    unfold resourceClusterDelete.detach
    rcases hdetach with ⟨hg, rfl⟩ | ⟨hg, hr⟩
    · simp [GetOkString, hg]
    · simp [GetOkString, hg, hr]
  obtain ⟨n, -, -, hn⟩ := RetryWhen_delete_trace m.conn (deleteInputOf d)
    resourceClusterDelete.retryable (m.retries d.timeoutDelete) tr1
  rw [hdel]
  constructor
  · intro h
    simp only [resourceClusterDelete.delete, h, if_true, true_and]
    exact ⟨n, hn⟩
  · intro e he hne
    simp only [resourceClusterDelete.delete, he, hne, Bool.false_eq_true, if_false, true_and]
    exact ⟨n, hn⟩

theorem resourceClusterDelete_not_found_is_success_witness :
    (resourceClusterDelete (Meta.sample Conn.absent)
      { id := "c1", attrs := { skip_final_snapshot := true } } []).diags = [] :=
  ((resourceClusterDelete_not_found_is_success (Meta.sample Conn.absent)
    { id := "c1", attrs := { skip_final_snapshot := true } } [] []
    (Or.inl rfl) (Or.inl ⟨rfl, rfl⟩)).1 (by decide)).1

theorem retryable_of_notFoundFault (err : Option Err)
    (h : ErrCodeEquals err [ErrCodeDBClusterNotFoundFault] = true) :
    resourceClusterDelete.retryable err = (false, err) := by
  unfold resourceClusterDelete.retryable
  have hm : ∀ msg, ErrMessageContains err ErrCodeInvalidDBClusterStateFault msg = false := by
    intro msg
    unfold ErrCodeEquals at h
    unfold ErrMessageContains
    cases err with
    | none => rfl
    | some e =>
      simp only at h ⊢
      cases ha : e.asAws with
      | none => rfl
      | some a =>
        rw [ha] at h
        simp only [List.contains_cons, List.contains_nil, Bool.or_false, beq_iff_eq] at h
        simp only [h, Bool.and_eq_false_imp, beq_iff_eq]
        intro hc
        exact absurd hc (by decide)
  simp [hm]

theorem delete_of_notFoundFault (m : Meta) (d : ResourceData) (t : Trace)
    (hdel : ∀ h i, ErrCodeEquals (m.conn.DeleteDBCluster h i)
      [ErrCodeDBClusterNotFoundFault] = true) :
    resourceClusterDelete.delete m d (deleteInputOf d) t
      = { diags := [], d := d, trace := t ++ [Call.DeleteDBCluster (deleteInputOf d)] } := by
  have h1 : (RetryWhen (m.conn.DeleteDBClusterWithContext (deleteInputOf d))
      resourceClusterDelete.retryable (m.retries d.timeoutDelete) t)
      = (m.conn.DeleteDBCluster t (deleteInputOf d),
          t ++ [Call.DeleteDBCluster (deleteInputOf d)]) := by
    cases m.retries d.timeoutDelete <;>
      simp [RetryWhen, Conn.DeleteDBClusterWithContext, retryable_of_notFoundFault _ (hdel _ _)]
  simp [resourceClusterDelete.delete, h1, hdel]

theorem detach_swallowed (conn : Conn) (clusterARN globalClusterID : String)
    (fuel : Nat) (tr : Trace)
    (h : ErrCodeEquals
          (conn.RemoveFromGlobalCluster tr
            { DbClusterIdentifier := some clusterARN
              GlobalClusterIdentifier := some globalClusterID })
          [ErrCodeDBClusterNotFoundFault, ErrCodeGlobalClusterNotFoundFault] = true ∨
        ErrMessageContains
          (conn.RemoveFromGlobalCluster tr
            { DbClusterIdentifier := some clusterARN
              GlobalClusterIdentifier := some globalClusterID })
          errCodeInvalidParameterValue "is not found in global cluster" = true) :
    removeClusterFromGlobalCluster conn clusterARN globalClusterID fuel tr
        = (none, tr ++ [Call.RemoveFromGlobalCluster
            { DbClusterIdentifier := some clusterARN
              GlobalClusterIdentifier := some globalClusterID }]) ∧
    (conn.RemoveFromGlobalCluster tr
            { DbClusterIdentifier := some clusterARN
              GlobalClusterIdentifier := some globalClusterID }).isNone = false := by
  constructor
  · have h' : (ErrCodeEquals
          (conn.RemoveFromGlobalCluster tr
            { DbClusterIdentifier := some clusterARN
              GlobalClusterIdentifier := some globalClusterID })
          [ErrCodeDBClusterNotFoundFault, ErrCodeGlobalClusterNotFoundFault]
        || ErrMessageContains
          (conn.RemoveFromGlobalCluster tr
            { DbClusterIdentifier := some clusterARN
              GlobalClusterIdentifier := some globalClusterID })
          errCodeInvalidParameterValue "is not found in global cluster") = true := by
      simpa only [Bool.or_eq_true] using h
    simp only [removeClusterFromGlobalCluster, Conn.RemoveFromGlobalClusterWithContext, h',
      if_true]
  · cases hc : conn.RemoveFromGlobalCluster tr
            { DbClusterIdentifier := some clusterARN
              GlobalClusterIdentifier := some globalClusterID } with
    | none => rw [hc] at h; simp [ErrCodeEquals, ErrMessageContains] at h
    | some e => rfl

theorem detach_done_absent (conn : Conn) (clusterARN globalClusterID : String)
    (fuel : Nat) (tr : Trace)
    (hlookup : ∀ h arn, ∃ e, conn.DescribeGlobalClusters h arn = .error e ∧
      NotFound (some e) = true)
    (h : conn.RemoveFromGlobalCluster tr
            { DbClusterIdentifier := some clusterARN
              GlobalClusterIdentifier := some globalClusterID } = none) :
    removeClusterFromGlobalCluster conn clusterARN globalClusterID fuel tr
        = (none, tr ++ [Call.RemoveFromGlobalCluster
            { DbClusterIdentifier := some clusterARN
              GlobalClusterIdentifier := some globalClusterID },
            Call.DescribeGlobalClusters clusterARN]) := by
  obtain ⟨e, he, hn⟩ := hlookup (tr ++ [Call.RemoveFromGlobalCluster
            { DbClusterIdentifier := some clusterARN
              GlobalClusterIdentifier := some globalClusterID }]) clusterARN
  have hp : RetryUntilNotFound (findGlobalClusterByClusterARN conn clusterARN) fuel
      (tr ++ [Call.RemoveFromGlobalCluster
            { DbClusterIdentifier := some clusterARN
              GlobalClusterIdentifier := some globalClusterID }])
      = (none, tr ++ [Call.RemoveFromGlobalCluster
            { DbClusterIdentifier := some clusterARN
              GlobalClusterIdentifier := some globalClusterID },
            Call.DescribeGlobalClusters clusterARN]) := by
    cases fuel <;> simp [RetryUntilNotFound, findGlobalClusterByClusterARN, he, hn]
  simp only [removeClusterFromGlobalCluster, Conn.RemoveFromGlobalClusterWithContext, h,
    ErrCodeEquals, ErrMessageContains, Bool.or_self, Bool.false_eq_true, if_false, hp]

/-- C10 (amended): for a resource state that passes the final-snapshot check, when
the cluster is absent remotely (the global-cluster lookups answer NotFound and
`DeleteDBCluster` answers `DBClusterNotFoundFault`) and the
`RemoveFromGlobalCluster` call, which is issued exactly when
`global_cluster_identifier` is set, does not answer an error that fails the
detach (it succeeds, or it answers `DBClusterNotFoundFault`,
`GlobalClusterNotFoundFault`, or InvalidParameterValue with "is not found in
global cluster"), `resourceClusterDelete` returns success and leaves the
resource data as it was; its calls are that `RemoveFromGlobalCluster` call, one
global-cluster lookup when that call succeeded, and one `DeleteDBCluster`
call; so its mutating calls are the `RemoveFromGlobalCluster` call, when
`global_cluster_identifier` is set, and the `DeleteDBCluster` attempt. -/
theorem resourceClusterDelete_absent (m : Meta) (d : ResourceData) (tr : Trace)
    (hpre : d.attrs.skip_final_snapshot = true ∨ d.attrs.final_snapshot_identifier ≠ "")
    (hlookup : ∀ h arn, ∃ e, m.conn.DescribeGlobalClusters h arn = .error e ∧
      NotFound (some e) = true)
    (hrem : d.attrs.global_cluster_identifier ≠ "" →
      m.conn.RemoveFromGlobalCluster tr
          { DbClusterIdentifier := some d.attrs.arn
            GlobalClusterIdentifier := some d.attrs.global_cluster_identifier } = none ∨
      ErrCodeEquals
          (m.conn.RemoveFromGlobalCluster tr
            { DbClusterIdentifier := some d.attrs.arn
              GlobalClusterIdentifier := some d.attrs.global_cluster_identifier })
          [ErrCodeDBClusterNotFoundFault, ErrCodeGlobalClusterNotFoundFault] = true ∨
      ErrMessageContains
          (m.conn.RemoveFromGlobalCluster tr
            { DbClusterIdentifier := some d.attrs.arn
              GlobalClusterIdentifier := some d.attrs.global_cluster_identifier })
          errCodeInvalidParameterValue "is not found in global cluster" = true)
    (hdel : ∀ h i, ErrCodeEquals (m.conn.DeleteDBCluster h i)
      [ErrCodeDBClusterNotFoundFault] = true) :
    (resourceClusterDelete m d tr).diags = [] ∧
    (resourceClusterDelete m d tr).d = d ∧
    (resourceClusterDelete m d tr).trace
      = tr ++ (if d.attrs.global_cluster_identifier = "" then []
          else Call.RemoveFromGlobalCluster
              { DbClusterIdentifier := some d.attrs.arn
                GlobalClusterIdentifier := some d.attrs.global_cluster_identifier } ::
            (if (m.conn.RemoveFromGlobalCluster tr
                { DbClusterIdentifier := some d.attrs.arn
                  GlobalClusterIdentifier := some d.attrs.global_cluster_identifier }).isNone
              then [Call.DescribeGlobalClusters d.attrs.arn] else []))
        ++ [Call.DeleteDBCluster (deleteInputOf d)] ∧
    ((resourceClusterDelete m d tr).trace.drop tr.length).filter Call.isMutating
      = (if d.attrs.global_cluster_identifier = "" then []
          else [Call.RemoveFromGlobalCluster
            { DbClusterIdentifier := some d.attrs.arn
              GlobalClusterIdentifier := some d.attrs.global_cluster_identifier }])
        ++ [Call.DeleteDBCluster (deleteInputOf d)] := by
  rw [resourceClusterDelete_eq_detach m d tr hpre]
  unfold resourceClusterDelete.detach
  by_cases hg : d.attrs.global_cluster_identifier = ""
  · simp [GetOkString, hg, delete_of_notFoundFault m d _ hdel, Call.isMutating]
  · rcases hrem hg with hnone | hsw
    · have hr := detach_done_absent m.conn d.attrs.arn d.attrs.global_cluster_identifier
        (m.retries d.timeoutDelete) tr hlookup hnone
      simp [GetOkString, hg, hr, hnone, delete_of_notFoundFault m d _ hdel, Call.isMutating]
    · obtain ⟨hr, hsome⟩ := detach_swallowed m.conn d.attrs.arn
        d.attrs.global_cluster_identifier (m.retries d.timeoutDelete) tr hsw
      simp [GetOkString, hg, hr, hsome, delete_of_notFoundFault m d _ hdel, Call.isMutating]

theorem resourceClusterDelete_absent_witness :
    (resourceClusterDelete (Meta.sample Conn.absent) dGlobal []).diags = [] ∧
    (resourceClusterDelete (Meta.sample Conn.absent) dGlobal []).trace
      = [Call.RemoveFromGlobalCluster
          { DbClusterIdentifier := some "arn:c1", GlobalClusterIdentifier := some "g1" },
         Call.DeleteDBCluster (deleteInputOf dGlobal)] ∧
    (resourceClusterDelete (Meta.sample (Conn.absentDetaching (some globalClusterNotFoundFault)))
        dGlobal []).diags = [] ∧
    (resourceClusterDelete (Meta.sample (Conn.absentDetaching (some notInGlobalCluster)))
        dGlobal []).diags = [] ∧
    (resourceClusterDelete (Meta.sample (Conn.absentDetaching none)) dGlobal []).diags = [] ∧
    (resourceClusterDelete (Meta.sample (Conn.absentDetaching none)) dGlobal []).trace
      = [Call.RemoveFromGlobalCluster
          { DbClusterIdentifier := some "arn:c1", GlobalClusterIdentifier := some "g1" },
         Call.DescribeGlobalClusters "arn:c1",
         Call.DeleteDBCluster (deleteInputOf dGlobal)] :=
  have h1 := resourceClusterDelete_absent (Meta.sample Conn.absent) dGlobal [] (Or.inl rfl)
    (fun _ _ => ⟨_, rfl, rfl⟩) (fun _ => Or.inr (Or.inl rfl)) (fun _ _ => rfl)
  have h2 := resourceClusterDelete_absent
    (Meta.sample (Conn.absentDetaching (some globalClusterNotFoundFault))) dGlobal [] (Or.inl rfl)
    (fun _ _ => ⟨_, rfl, rfl⟩) (fun _ => Or.inr (Or.inl rfl)) (fun _ _ => rfl)
  have h3 := resourceClusterDelete_absent
    (Meta.sample (Conn.absentDetaching (some notInGlobalCluster))) dGlobal [] (Or.inl rfl)
    (fun _ _ => ⟨_, rfl, rfl⟩) (fun _ => Or.inr (Or.inr (by decide))) (fun _ _ => rfl)
  have h4 := resourceClusterDelete_absent
    (Meta.sample (Conn.absentDetaching none)) dGlobal [] (Or.inl rfl)
    (fun _ _ => ⟨_, rfl, rfl⟩) (fun _ => Or.inl rfl) (fun _ _ => rfl)
  ⟨h1.1, h1.2.2.1, h2.1, h3.1, h4.1, h4.2.2.1⟩

/-- C10 (counterexample): on a service where the cluster is absent (every lookup
answers NotFound and `DeleteDBCluster` answers `DBClusterNotFoundFault`),
Delete of a resource in the default state (no final snapshot identifier,
`skip_final_snapshot` false) returns an error, and Delete of a member of a
global cluster issues the mutating call `RemoveFromGlobalCluster` before the
`DeleteDBCluster` attempt; and on such a service whose
`RemoveFromGlobalCluster` answers a throttling error, Delete of that member
returns the error of the detach. -/
theorem resourceClusterDelete_absent_counterexample :
    (∀ h i, Conn.absent.DeleteDBCluster h i = some clusterNotFoundFault) ∧
    (∀ h id, ∃ e, (FindDBClusterByID Conn.absent id h).1 = .error e ∧ NotFound (some e) = true) ∧
    (∀ h arn, ∃ e, (findGlobalClusterByClusterARN Conn.absent arn h).1 = .error e ∧
      NotFound (some e) = true) ∧
    (resourceClusterDelete (Meta.sample Conn.absent) { id := "c1" } []).diags
      = [.finalSnapshotIdentifierRequired] ∧
    (resourceClusterDelete (Meta.sample Conn.absent) dGlobal []).diags = [] ∧
    (resourceClusterDelete (Meta.sample Conn.absent) dGlobal []).trace
      = [Call.RemoveFromGlobalCluster
          { DbClusterIdentifier := some "arn:c1", GlobalClusterIdentifier := some "g1" },
         Call.DeleteDBCluster
          { DBClusterIdentifier := some "c1", FinalDBSnapshotIdentifier := none,
            SkipFinalSnapshot := some true }] ∧
    (Call.RemoveFromGlobalCluster
        { DbClusterIdentifier := some "arn:c1", GlobalClusterIdentifier := some "g1" }).isMutating
      = true ∧
    (∀ h i, (Conn.absentDetaching (some throttled)).DeleteDBCluster h i
      = some clusterNotFoundFault) ∧
    (∀ h id, ∃ e, (FindDBClusterByID (Conn.absentDetaching (some throttled)) id h).1 = .error e ∧
      NotFound (some e) = true) ∧
    (∀ h arn, ∃ e,
      (findGlobalClusterByClusterARN (Conn.absentDetaching (some throttled)) arn h).1 = .error e ∧
      NotFound (some e) = true) ∧
    (resourceClusterDelete (Meta.sample (Conn.absentDetaching (some throttled))) dGlobal []).diags
      = [.fromErr (.removing "arn:c1" "g1" throttled)] ∧
    (resourceClusterDelete (Meta.sample (Conn.absentDetaching (some throttled))) dGlobal []).trace
      = [Call.RemoveFromGlobalCluster
          { DbClusterIdentifier := some "arn:c1", GlobalClusterIdentifier := some "g1" }] := by
  refine ⟨fun _ _ => rfl, ?_, ?_, by decide, by decide, by decide, rfl,
    fun _ _ => rfl, ?_, ?_, by decide, by decide⟩
  · intro h id
    exact ⟨.notFound (some ⟨ErrCodeDBClusterNotFoundFault, "DBCluster not found"⟩), rfl, rfl⟩
  · intro h arn
    exact ⟨.notFound none, rfl, rfl⟩
  · intro h id
    exact ⟨.notFound (some ⟨ErrCodeDBClusterNotFoundFault, "DBCluster not found"⟩), rfl, rfl⟩
  · intro h arn
    exact ⟨.notFound none, rfl, rfl⟩

/-! ## Finders -/

theorem page_foldl (filter : DBCluster → Bool) (l : List (Option DBCluster))
    (out : List DBCluster) :
    l.foldl (findDBClusters.append filter) out = out ++ (l.filterMap id).filter filter := by
  induction l generalizing out with
  | nil => simp
  | cons x xs ih =>
    cases x with
    | none => simp [ih, findDBClusters.append]
    | some v =>
      by_cases hf : filter v = true
      · simp [ih, hf, findDBClusters.append]
      · simp [ih, hf, findDBClusters.append]

theorem matchingClusters_nil (filter : DBCluster → Bool) : matchingClusters [] filter = [] := rfl

theorem matchingClusters_cons_none (pages : List (Option DescribeDBClustersOutput))
    (filter : DBCluster → Bool) :
    matchingClusters (none :: pages) filter = matchingClusters pages filter := by
  simp [matchingClusters]

theorem matchingClusters_cons_some (page : DescribeDBClustersOutput)
    (pages : List (Option DescribeDBClustersOutput)) (filter : DBCluster → Bool) :
    matchingClusters (some page :: pages) filter
      = (page.DBClusters.filterMap id).filter filter ++ matchingClusters pages filter := by
  simp [matchingClusters]

theorem eachPage_findDBClusters (noErr : Bool) (filter : DBCluster → Bool)
    (pages : List (Option DescribeDBClustersOutput)) (out : List DBCluster) :
    eachPage noErr (findDBClusters.page filter) pages out
      = out ++ matchingClusters pages filter := by
  induction pages generalizing out with
  | nil => simp [eachPage, matchingClusters_nil]
  | cons p rest ih =>
    unfold eachPage
    cases p with
    | none =>
      simp only [findDBClusters.page, matchingClusters_cons_none]
      split
      · exact ih out
      · rename_i h
        simp only [Bool.not_eq_true', Bool.not_eq_false, Bool.and_eq_true,
          List.isEmpty_iff] at h
        rw [h.1]; simp [matchingClusters_nil]
    | some page =>
      simp only [findDBClusters.page, matchingClusters_cons_some]
      split
      · rw [ih, page_foldl]; simp
      · rename_i h
        simp only [Bool.not_eq_true', Bool.not_eq_false, Bool.and_eq_true,
          List.isEmpty_iff] at h
        rw [h.1, page_foldl]; simp [matchingClusters_nil]

theorem findDBClusters_of_pages (conn : Conn) (input : DescribeDBClustersInput)
    (filter : DBCluster → Bool) (tr : Trace) (pages : List (Option DescribeDBClustersOutput))
    (h : conn.DescribeDBClustersPages tr input = (pages, none)) :
    findDBClusters conn input filter tr
      = (.ok (matchingClusters pages filter), tr ++ [Call.DescribeDBClustersPages input]) := by
  simp [findDBClusters, Conn.DescribeDBClustersPagesWithContext, h, eachPage_findDBClusters,
    ErrCodeEquals]

/-- C7: when the paginated describe call reports no error, `findDBClusters`
returns exactly the non-`nil` clusters that pass the filter, from all pages up
to and including the last one, in page order and in-page order; `nil` pages
and `nil` entries are skipped and no page is left unread. -/
theorem findDBClusters_drains_all_pages (conn : Conn) (input : DescribeDBClustersInput)
    (filter : DBCluster → Bool) (tr : Trace) (pages : List (Option DescribeDBClustersOutput))
    (h : conn.DescribeDBClustersPages tr input = (pages, none)) :
    (findDBClusters conn input filter tr).1
      = .ok ((((pages.filterMap id).map fun page => page.DBClusters).flatten.filterMap id).filter
          filter) ∧
    (findDBClusters conn input filter tr).2 = tr ++ [Call.DescribeDBClustersPages input] := by
  rw [findDBClusters_of_pages conn input filter tr pages h]
  exact ⟨rfl, rfl⟩

theorem findDBClusters_drains_all_pages_witness :
    (findDBClusters (Conn.serving samplePages) { DBClusterIdentifier := none }
        (fun _ => true) []).1
      = .ok [{ DBClusterIdentifier := some "c1" }, { DBClusterIdentifier := some "c2" }] :=
  (findDBClusters_drains_all_pages (Conn.serving samplePages) { DBClusterIdentifier := none }
    (fun _ => true) [] samplePages rfl).1

/-- C6: when the describe call delivers its pages without error, `findDBCluster`
returns a cluster exactly when one non-`nil` cluster across all pages passes
the filter, and then it is that cluster; with none or more than one it returns
an error and no cluster. -/
theorem findDBCluster_single_result (conn : Conn) (input : DescribeDBClustersInput)
    (filter : DBCluster → Bool) (tr : Trace) (pages : List (Option DescribeDBClustersOutput))
    (h : conn.DescribeDBClustersPages tr input = (pages, none)) :
    (∀ c, (findDBCluster conn input filter tr).1 = .ok c ↔ matchingClusters pages filter = [c]) ∧
    ((matchingClusters pages filter).length ≠ 1 →
      ∃ e, (findDBCluster conn input filter tr).1 = .error e) := by
  have hf := findDBClusters_of_pages conn input filter tr pages h
  have hr : (findDBCluster conn input filter tr).1
      = AssertSinglePtrResult (matchingClusters pages filter) := by
    simp [findDBCluster, hf]
  rw [hr]
  constructor
  · intro c
    unfold AssertSinglePtrResult
    split
    · rename_i h0; simp [h0]
    · rename_i v h1; simp [h1]
    · rename_i h0 h1
      constructor
      · intro hc; cases hc
      · intro hc; exact absurd hc (h1 c)
  · intro hl
    unfold AssertSinglePtrResult
    split
    · exact ⟨_, rfl⟩
    · rename_i v h1; rw [h1] at hl; simp at hl
    · exact ⟨_, rfl⟩

theorem findDBCluster_single_result_witness :
    (findDBCluster (Conn.serving samplePages) { DBClusterIdentifier := none }
        (fun c => c.DBClusterIdentifier == some "c2") []).1
      = .ok { DBClusterIdentifier := some "c2" } :=
  ((findDBCluster_single_result (Conn.serving samplePages) { DBClusterIdentifier := none }
    (fun c => c.DBClusterIdentifier == some "c2") [] samplePages rfl).1 _).2 (by decide)

/-- C5: a cluster that `FindDBClusterByID` returns has the requested identifier
(read with `aws.StringValue`; for a non-empty `id` the field holds exactly
`id`), and when the single cluster found has another identifier
`FindDBClusterByID` returns a NotFound error and no cluster. -/
theorem FindDBClusterByID_identifier_matches (conn : Conn) (id : String) (tr : Trace) :
    (∀ c, (FindDBClusterByID conn id tr).1 = .ok c →
      StringValue c.DBClusterIdentifier = id ∧ (id ≠ "" → c.DBClusterIdentifier = some id)) ∧
    (∀ c, (findDBCluster conn { DBClusterIdentifier := some id } (fun _ => true) tr).1 = .ok c →
      StringValue c.DBClusterIdentifier ≠ id →
      (FindDBClusterByID conn id tr).1 = .error (.notFound none) ∧
      NotFound (some (.notFound none)) = true) := by
  constructor
  · intro c hc
    unfold FindDBClusterByID at hc
    simp only at hc
    split at hc
    · cases hc
    · rename_i output ho
      split at hc
      · cases hc
      · rename_i hne
        simp only [bne_iff_ne, ne_eq, Decidable.not_not] at hne
        cases hc
        refine ⟨hne, ?_⟩
        intro hid
        cases hci : c.DBClusterIdentifier with
        | none => rw [hci] at hne; exact absurd hne.symm hid
        | some v => rw [hci] at hne; simp [StringValue] at hne; rw [hne]
  · intro c hc hne
    refine ⟨?_, rfl⟩
    unfold FindDBClusterByID
    simp [hc, hne]

theorem FindDBClusterByID_identifier_matches_witness :
    (FindDBClusterByID (Conn.serving broaderMatchPages) "c1" []).1 = .error (.notFound none) :=
  ((FindDBClusterByID_identifier_matches (Conn.serving broaderMatchPages) "c1" []).2
    { DBClusterIdentifier := some "c1-replica" } rfl (by decide)).1

/-! ## The retry predicates and the poll configurations -/

theorem ErrMessageContains_iff (err : Option Err) (code message : String) :
    ErrMessageContains err code message = true ↔ HasSignature err code message := by
  unfold ErrMessageContains HasSignature
  cases err with
  | none => simp
  | some e =>
    cases ha : e.asAws with
    | none => simp [ha]
    | some a => simp [ha, stringsContains]

/-- C12: the retry predicate of `resourceClusterUpdate` decides "retry" exactly
for the errors that match one of the three signatures (InvalidParameterValue
with the IAM role text, InvalidDBClusterStateFault with "is not currently in
the available state", InvalidDBClusterStateFault with "cluster is a part of a
global cluster"); so it retries every error that the predicate of the Create
call retries, and it always hands the error back unchanged. -/
theorem resourceClusterUpdate_retryable_spec (err : Option Err) :
    ((resourceClusterUpdate.retryable err).1 = true ↔
      (HasSignature err "InvalidParameterValue"
          "IAM role ARN value is invalid or does not include the required permissions" ∨
        HasSignature err "InvalidDBClusterStateFault" "is not currently in the available state" ∨
        HasSignature err "InvalidDBClusterStateFault" "cluster is a part of a global cluster")) ∧
    (ErrMessageContains err errCodeInvalidParameterValue iamRoleNotPropagated = true →
      (resourceClusterUpdate.retryable err).1 = true) ∧
    (resourceClusterUpdate.retryable err).2 = err := by
  have h1 := ErrMessageContains_iff err errCodeInvalidParameterValue iamRoleNotPropagated
  have h2 := ErrMessageContains_iff err ErrCodeInvalidDBClusterStateFault
    "is not currently in the available state"
  have h3 := ErrMessageContains_iff err ErrCodeInvalidDBClusterStateFault
    "cluster is a part of a global cluster"
  simp only [errCodeInvalidParameterValue, iamRoleNotPropagated,
    ErrCodeInvalidDBClusterStateFault] at h1 h2 h3
  rw [← h1, ← h2, ← h3]
  unfold resourceClusterUpdate.retryable
  simp only [errCodeInvalidParameterValue, iamRoleNotPropagated,
    ErrCodeInvalidDBClusterStateFault]
  refine ⟨?_, ?_, ?_⟩
  · split
    · simp [*]
    · split
      · simp [*]
      · split <;> simp [*]
  · intro h; simp [h]
  · split
    · rfl
    · split
      · rfl
      · split <;> rfl

theorem sig_exclusive (err : Option Err) (m1 m2 : String)
    (h : ErrMessageContains err errCodeInvalidParameterValue m1 = true) :
    ErrMessageContains err ErrCodeInvalidDBClusterStateFault m2 = false := by
  unfold ErrMessageContains at h ⊢
  cases err with
  | none => rfl
  | some e =>
    cases ha : e.asAws with
    | none => simp [ha]
    | some a =>
      simp only [ha, Bool.and_eq_true, beq_iff_eq] at h
      simp only [ha, Bool.and_eq_false_imp, beq_iff_eq]
      intro hc
      rw [h.1] at hc
      exact absurd hc (by decide)

/-- C11 (amended): the retry predicate of the `DeleteDBCluster` call retries exactly
the errors that the predicate of the `ModifyDBCluster` call retries other than
the IAM role propagation error; on that error Update retries and Delete does
not. -/
theorem resourceClusterDelete_retryable_vs_update (err : Option Err) :
    ((resourceClusterDelete.retryable err).1 = true ↔
      ((resourceClusterUpdate.retryable err).1 = true ∧
        ErrMessageContains err errCodeInvalidParameterValue iamRoleNotPropagated = false)) ∧
    (ErrMessageContains err errCodeInvalidParameterValue iamRoleNotPropagated = true →
      (resourceClusterUpdate.retryable err).1 = true ∧
      (resourceClusterDelete.retryable err).1 = false) := by
  unfold resourceClusterDelete.retryable resourceClusterUpdate.retryable
  cases h1 : ErrMessageContains err errCodeInvalidParameterValue iamRoleNotPropagated
  · simp only [Bool.false_eq_true, if_false, and_true, false_implies]
  · have h2 := sig_exclusive err iamRoleNotPropagated "is not currently in the available state" h1
    have h3 := sig_exclusive err iamRoleNotPropagated "cluster is a part of a global cluster" h1
    simp [h2, h3]

/-- C11 (counterexample): on the IAM role propagation error the predicate of
Update decides "retry" and the predicate of Delete does not. -/
theorem resourceClusterDelete_retryable_counterexample :
    (resourceClusterUpdate.retryable (some iamRoleError)).1 = true ∧
    (resourceClusterDelete.retryable (some iamRoleError)).1 = false := by
  decide

/-- C19: in the poll configurations of `waitDBClusterAvailable` and of
`waitDBClusterDeleted`, no status is both pending and target. -/
theorem wait_pending_target_disjoint (conn : Conn) (id : String) :
    (∀ s, ¬ (s ∈ (waitDBClusterAvailable.stateConf conn id).Pending ∧
      s ∈ (waitDBClusterAvailable.stateConf conn id).Target)) ∧
    (∀ s, ¬ (s ∈ (waitDBClusterDeleted.stateConf conn id).Pending ∧
      s ∈ (waitDBClusterDeleted.stateConf conn id).Target)) := by
  constructor
  · intro s ⟨hp, ht⟩
    simp only [waitDBClusterAvailable.stateConf, List.mem_singleton] at ht hp
    subst ht
    revert hp
    decide
  · intro s ⟨_, ht⟩
    simp [waitDBClusterDeleted.stateConf] at ht

/-! ## Which calls each step issues -/

theorem RetryWhen_trace (f : Trace → Option Err × Trace) (c : Call)
    (hf : ∀ t, (f t).2 = t ++ [c])
    (retryable : Option Err → Bool × Option Err) (fuel : Nat) (tr : Trace) :
    ∃ n, (RetryWhen f retryable fuel tr).2 = tr ++ c :: List.replicate n c := by
  induction fuel generalizing tr with
  | zero => exact ⟨0, by simp [RetryWhen, hf]⟩
  | succ k ih =>
    unfold RetryWhen
    simp only []
    split
    · obtain ⟨n, hn⟩ := ih (f tr).2
      refine ⟨n + 1, ?_⟩
      rw [hn, hf]
      simp [List.replicate_succ]
    · exact ⟨0, by simp [hf]⟩

theorem findDBClusters_trace (conn : Conn) (input : DescribeDBClustersInput)
    (filter : DBCluster → Bool) (tr : Trace) :
    (findDBClusters conn input filter tr).2 = tr ++ [Call.DescribeDBClustersPages input] := by
  unfold findDBClusters
  simp only [Conn.DescribeDBClustersPagesWithContext]
  split
  · rfl
  · split <;> rfl

theorem findDBCluster_trace (conn : Conn) (input : DescribeDBClustersInput)
    (filter : DBCluster → Bool) (tr : Trace) :
    (findDBCluster conn input filter tr).2 = tr ++ [Call.DescribeDBClustersPages input] := by
  unfold findDBCluster
  simp only []
  split <;> exact findDBClusters_trace conn input filter tr

theorem FindDBClusterByID_trace (conn : Conn) (id : String) (tr : Trace) :
    (FindDBClusterByID conn id tr).2
      = tr ++ [Call.DescribeDBClustersPages { DBClusterIdentifier := some id }] := by
  unfold FindDBClusterByID
  simp only []
  split
  · exact findDBCluster_trace _ _ _ _
  · split <;> exact findDBCluster_trace _ _ _ _

theorem statusDBCluster_trace (conn : Conn) (id : String) (tr : Trace) :
    (statusDBCluster conn id tr).2
      = tr ++ [Call.DescribeDBClustersPages { DBClusterIdentifier := some id }] := by
  unfold statusDBCluster
  simp only []
  split
  · split <;> exact FindDBClusterByID_trace _ _ _
  · exact FindDBClusterByID_trace _ _ _

theorem WaitForStateContext_trace (conf : StateChangeConf) (c : Call)
    (hf : ∀ t, (conf.Refresh t).2 = t ++ [c])
    (fuel tick : Nat) (last : String) (tr : Trace) :
    ∃ n, n ≤ fuel ∧ (WaitForStateContext conf fuel tick last tr).2 = tr ++ List.replicate n c := by
  induction fuel generalizing tick last tr with
  | zero => exact ⟨0, le_refl _, by simp [WaitForStateContext]⟩
  | succ k ih =>
    have one : ∃ n, n ≤ k + 1 ∧ (conf.Refresh tr).2 = tr ++ List.replicate n c :=
      ⟨1, by omega, by simp [hf]⟩
    have more : ∀ tick last, ∃ n, n ≤ k + 1 ∧
        (WaitForStateContext conf k tick last (conf.Refresh tr).2).2
          = tr ++ List.replicate n c := by
      intro tick last
      obtain ⟨n, hn, h⟩ := ih tick last (conf.Refresh tr).2
      refine ⟨n + 1, by omega, ?_⟩
      rw [h, hf]
      simp [List.replicate_succ]
    unfold WaitForStateContext
    simp only []
    split
    · exact one
    · split
      · split
        · exact one
        · split
          · exact one
          · exact more _ _
      · split
        · exact one
        · split
          · exact more _ _
          · split
            · exact one
            · exact more _ _

theorem waitDBClusterAvailable_trace (conn : Conn) (id : String) (fuel : Nat) (tr : Trace) :
    ∃ n, n ≤ fuel ∧ (waitDBClusterAvailable conn id fuel tr).2
      = tr ++ List.replicate n (Call.DescribeDBClustersPages { DBClusterIdentifier := some id }) :=
  WaitForStateContext_trace _ _ (statusDBCluster_trace conn id) fuel 0 "" tr

theorem waitDBClusterDeleted_trace (conn : Conn) (id : String) (fuel : Nat) (tr : Trace) :
    ∃ n, n ≤ fuel ∧ (waitDBClusterDeleted conn id fuel tr).2
      = tr ++ List.replicate n (Call.DescribeDBClustersPages { DBClusterIdentifier := some id }) :=
  WaitForStateContext_trace _ _ (statusDBCluster_trace conn id) fuel 0 "" tr

theorem RetryUntilNotFound_trace (conn : Conn) (arn : String) (fuel : Nat) (tr : Trace) :
    ∃ n, (RetryUntilNotFound (findGlobalClusterByClusterARN conn arn) fuel tr).2
      = tr ++ List.replicate (n + 1) (Call.DescribeGlobalClusters arn) := by
  induction fuel generalizing tr with
  | zero =>
    refine ⟨0, ?_⟩
    unfold RetryUntilNotFound
    simp only []
    split
    · split <;> rfl
    · rfl
  | succ k ih =>
    unfold RetryUntilNotFound
    simp only []
    split
    · refine ⟨0, ?_⟩
      split <;> rfl
    · obtain ⟨n, hn⟩ := ih (findGlobalClusterByClusterARN conn arn tr).2
      refine ⟨n + 1, ?_⟩
      rw [hn]
      simp [findGlobalClusterByClusterARN, List.replicate_succ]

theorem removeClusterFromGlobalCluster_trace (conn : Conn) (arn gid : String) (fuel : Nat)
    (tr : Trace) :
    ∃ n, (removeClusterFromGlobalCluster conn arn gid fuel tr).2
      = tr ++ Call.RemoveFromGlobalCluster
          { DbClusterIdentifier := some arn, GlobalClusterIdentifier := some gid }
        :: List.replicate n (Call.DescribeGlobalClusters arn) := by
  unfold removeClusterFromGlobalCluster
  simp only []
  split
  · exact ⟨0, rfl⟩
  · split
    · exact ⟨0, rfl⟩
    · obtain ⟨n, hn⟩ := RetryUntilNotFound_trace conn arn fuel
        (conn.RemoveFromGlobalClusterWithContext
          { DbClusterIdentifier := some arn, GlobalClusterIdentifier := some gid } tr).2
      refine ⟨n + 1, ?_⟩
      split
      · simp only [hn]; simp [Conn.RemoveFromGlobalClusterWithContext]
      · simp only [hn]; simp [Conn.RemoveFromGlobalClusterWithContext]

theorem resourceClusterRead_trace (m : Meta) (d : ResourceData) (tr : Trace) :
    ∃ l, (resourceClusterRead m d tr).trace = tr ++ l ∧ ∀ c ∈ l, c.isMutating = false := by
  have hfind := FindDBClusterByID_trace m.conn d.id tr
  unfold resourceClusterRead
  simp only []
  split
  · refine ⟨[Call.DescribeDBClustersPages { DBClusterIdentifier := some d.id }], ?_, ?_⟩
    · split <;> exact hfind
    · intro c hc; simp at hc; subst hc; rfl
  · rename_i dbc _
    refine ⟨[Call.DescribeDBClustersPages { DBClusterIdentifier := some d.id },
      Call.DescribeGlobalClusters (StringValue dbc.DBClusterArn)], ?_, ?_⟩
    · have : ∀ a, (findGlobalClusterByClusterARN m.conn a (FindDBClusterByID m.conn d.id tr).2).2
          = tr ++ [Call.DescribeDBClustersPages { DBClusterIdentifier := some d.id },
              Call.DescribeGlobalClusters a] := by
        intro a; simp [findGlobalClusterByClusterARN, hfind]
      split
      · split <;> exact this _
      · exact this _
    · intro c hc
      simp at hc
      rcases hc with rfl | rfl <;> rfl

/-! ## Detaching from a global cluster -/

/-- A successful poll made its lookups until one answered NotFound. -/
theorem RetryUntilNotFound_success (conn : Conn) (arn : String) (fuel : Nat) (tr : Trace)
    (h : (RetryUntilNotFound (findGlobalClusterByClusterARN conn arn) fuel tr).1 = none) :
    ∃ n e, n ≤ fuel ∧
      (RetryUntilNotFound (findGlobalClusterByClusterARN conn arn) fuel tr).2
        = tr ++ List.replicate (n + 1) (Call.DescribeGlobalClusters arn) ∧
      conn.DescribeGlobalClusters (tr ++ List.replicate n (Call.DescribeGlobalClusters arn)) arn
        = .error e ∧ NotFound (some e) = true ∧
      ∀ k, k < n → ∃ g,
        conn.DescribeGlobalClusters (tr ++ List.replicate k (Call.DescribeGlobalClusters arn)) arn
          = .ok g := by
  induction fuel generalizing tr with
  | zero =>
    unfold RetryUntilNotFound at h ⊢
    simp only [findGlobalClusterByClusterARN] at h ⊢
    cases hr : conn.DescribeGlobalClusters tr arn with
    | error e =>
      rw [hr] at h
      simp only at h ⊢
      by_cases hn : NotFound (some e) = true
      · refine ⟨0, e, le_refl _, ?_, ?_, hn, ?_⟩
        · simp [hn]
        · simpa using hr
        · intro k hk; omega
      · simp [hn] at h
    | ok g => rw [hr] at h; simp at h
  | succ k ih =>
    unfold RetryUntilNotFound at h ⊢
    simp only [findGlobalClusterByClusterARN] at h ⊢
    cases hr : conn.DescribeGlobalClusters tr arn with
    | error e =>
      rw [hr] at h
      simp only at h ⊢
      by_cases hn : NotFound (some e) = true
      · refine ⟨0, e, by omega, ?_, ?_, hn, ?_⟩
        · simp [hn]
        · simpa using hr
        · intro j hj; omega
      · simp [hn] at h
    | ok g =>
      rw [hr] at h
      simp only at h ⊢
      obtain ⟨n, e, hn, htr, hlast, hnf, hprev⟩ := ih (tr ++ [Call.DescribeGlobalClusters arn]) h
      refine ⟨n + 1, e, by omega, ?_, ?_, hnf, ?_⟩
      · rw [htr]; simp [List.replicate_succ]
      · rw [← hlast]; simp [List.replicate_succ]
      · intro j hj
        cases j with
        | zero => exact ⟨g, by simpa using hr⟩
        | succ j =>
          obtain ⟨g', hg'⟩ := hprev j (by omega)
          exact ⟨g', by rw [← hg']; simp [List.replicate_succ]⟩

/-- C14: `removeClusterFromGlobalCluster` returns `nil` without polling when the
`RemoveFromGlobalCluster` call answers `DBClusterNotFoundFault`,
`GlobalClusterNotFoundFault`, or InvalidParameterValue with "is not found in
global cluster"; it returns a non-`nil` error for every other error of the
call; when the call succeeds it polls, returns an error exactly when the poll
fails, and after a successful poll the lookups were repeated until one
answered NotFound. -/
theorem removeClusterFromGlobalCluster_outcomes (conn : Conn) (clusterARN globalClusterID : String)
    (fuel : Nat) (tr : Trace) :
    ((ErrCodeEquals
          (conn.RemoveFromGlobalCluster tr
            { DbClusterIdentifier := some clusterARN
              GlobalClusterIdentifier := some globalClusterID })
          ["DBClusterNotFoundFault", "GlobalClusterNotFoundFault"] = true ∨
        ErrMessageContains
          (conn.RemoveFromGlobalCluster tr
            { DbClusterIdentifier := some clusterARN
              GlobalClusterIdentifier := some globalClusterID })
          "InvalidParameterValue" "is not found in global cluster" = true) →
      removeClusterFromGlobalCluster conn clusterARN globalClusterID fuel tr
        = (none, tr ++ [Call.RemoveFromGlobalCluster
            { DbClusterIdentifier := some clusterARN
              GlobalClusterIdentifier := some globalClusterID }])) ∧
    (∀ e, conn.RemoveFromGlobalCluster tr
          { DbClusterIdentifier := some clusterARN
            GlobalClusterIdentifier := some globalClusterID } = some e →
      ErrCodeEquals (some e) ["DBClusterNotFoundFault", "GlobalClusterNotFoundFault"] = false →
      ErrMessageContains (some e) "InvalidParameterValue" "is not found in global cluster"
        = false →
      removeClusterFromGlobalCluster conn clusterARN globalClusterID fuel tr
        = (some (.removing clusterARN globalClusterID e),
            tr ++ [Call.RemoveFromGlobalCluster
              { DbClusterIdentifier := some clusterARN
                GlobalClusterIdentifier := some globalClusterID }])) ∧
    (conn.RemoveFromGlobalCluster tr
          { DbClusterIdentifier := some clusterARN
            GlobalClusterIdentifier := some globalClusterID } = none →
      removeClusterFromGlobalCluster conn clusterARN globalClusterID fuel tr
        = (((RetryUntilNotFound (findGlobalClusterByClusterARN conn clusterARN) fuel
              (tr ++ [Call.RemoveFromGlobalCluster
                { DbClusterIdentifier := some clusterARN
                  GlobalClusterIdentifier := some globalClusterID }])).1.map
              fun e => Err.waitingRemoval clusterARN globalClusterID e),
            (RetryUntilNotFound (findGlobalClusterByClusterARN conn clusterARN) fuel
              (tr ++ [Call.RemoveFromGlobalCluster
                { DbClusterIdentifier := some clusterARN
                  GlobalClusterIdentifier := some globalClusterID }])).2)) ∧
    (conn.RemoveFromGlobalCluster tr
          { DbClusterIdentifier := some clusterARN
            GlobalClusterIdentifier := some globalClusterID } = none →
      (removeClusterFromGlobalCluster conn clusterARN globalClusterID fuel tr).1 = none →
      ∃ n e, n ≤ fuel ∧
        (removeClusterFromGlobalCluster conn clusterARN globalClusterID fuel tr).2
          = tr ++ [Call.RemoveFromGlobalCluster
              { DbClusterIdentifier := some clusterARN
                GlobalClusterIdentifier := some globalClusterID }]
            ++ List.replicate (n + 1) (Call.DescribeGlobalClusters clusterARN) ∧
        conn.DescribeGlobalClusters
            (tr ++ [Call.RemoveFromGlobalCluster
                { DbClusterIdentifier := some clusterARN
                  GlobalClusterIdentifier := some globalClusterID }]
              ++ List.replicate n (Call.DescribeGlobalClusters clusterARN)) clusterARN
          = .error e ∧
        NotFound (some e) = true ∧
        ∀ k, k < n → ∃ g, conn.DescribeGlobalClusters
            (tr ++ [Call.RemoveFromGlobalCluster
                { DbClusterIdentifier := some clusterARN
                  GlobalClusterIdentifier := some globalClusterID }]
              ++ List.replicate k (Call.DescribeGlobalClusters clusterARN)) clusterARN
          = .ok g) := by
  have hpoll : conn.RemoveFromGlobalCluster tr
          { DbClusterIdentifier := some clusterARN
            GlobalClusterIdentifier := some globalClusterID } = none →
      removeClusterFromGlobalCluster conn clusterARN globalClusterID fuel tr
        = (((RetryUntilNotFound (findGlobalClusterByClusterARN conn clusterARN) fuel
              (tr ++ [Call.RemoveFromGlobalCluster
                { DbClusterIdentifier := some clusterARN
                  GlobalClusterIdentifier := some globalClusterID }])).1.map
              fun e => Err.waitingRemoval clusterARN globalClusterID e),
            (RetryUntilNotFound (findGlobalClusterByClusterARN conn clusterARN) fuel
              (tr ++ [Call.RemoveFromGlobalCluster
                { DbClusterIdentifier := some clusterARN
                  GlobalClusterIdentifier := some globalClusterID }])).2) := by
    intro he
    simp only [removeClusterFromGlobalCluster, Conn.RemoveFromGlobalClusterWithContext, he,
      ErrCodeEquals, ErrMessageContains, Bool.or_self, Bool.false_eq_true, if_false]
    split
    · rename_i e h; rw [h]; rfl
    · rename_i h; rw [h]; rfl
  refine ⟨?_, ?_, hpoll, ?_⟩
  · intro h
    have h' : (ErrCodeEquals
          (conn.RemoveFromGlobalCluster tr
            { DbClusterIdentifier := some clusterARN
              GlobalClusterIdentifier := some globalClusterID })
          [ErrCodeDBClusterNotFoundFault, ErrCodeGlobalClusterNotFoundFault]
        || ErrMessageContains
          (conn.RemoveFromGlobalCluster tr
            { DbClusterIdentifier := some clusterARN
              GlobalClusterIdentifier := some globalClusterID })
          errCodeInvalidParameterValue "is not found in global cluster") = true := by
      simpa only [Bool.or_eq_true] using h
    simp only [removeClusterFromGlobalCluster, Conn.RemoveFromGlobalClusterWithContext, h',
      if_true]
  · intro e he h1 h2
    have h' : (ErrCodeEquals (some e)
          [ErrCodeDBClusterNotFoundFault, ErrCodeGlobalClusterNotFoundFault]
        || ErrMessageContains (some e)
          errCodeInvalidParameterValue "is not found in global cluster") = false := by
      rw [Bool.or_eq_false_iff]; exact ⟨h1, h2⟩
    simp only [removeClusterFromGlobalCluster, Conn.RemoveFromGlobalClusterWithContext, he, h',
      Bool.false_eq_true, if_false]
  · intro he hnone
    rw [hpoll he] at hnone ⊢
    simp only [Option.map_eq_none'] at hnone
    exact RetryUntilNotFound_success conn clusterARN fuel _ hnone


theorem removeClusterFromGlobalCluster_outcomes_witness :
    removeClusterFromGlobalCluster Conn.absent "arn:c1" "g1" 2 []
      = (none, [] ++ [Call.RemoveFromGlobalCluster
          { DbClusterIdentifier := some "arn:c1", GlobalClusterIdentifier := some "g1" }]) :=
  (removeClusterFromGlobalCluster_outcomes Conn.absent "arn:c1" "g1" 2 []).1 (Or.inl (by decide))


/-! ## Create: the request, the follow-up modification and the id -/

theorem resourceClusterCreate_restore_err (m : Meta) (d : ResourceData) (tr : Trace) (err : Err)
    (hs : d.attrs.snapshot_identifier ≠ "")
    (hc : (resourceClusterCreate.call m d tr).1 = some err) :
    resourceClusterCreate m d tr =
      { diags := [.creatingRestore (resourceClusterCreate.identifier m d) err], d := d,
        trace := (resourceClusterCreate.call m d tr).2 } := by
  simp only [resourceClusterCreate.call, GetOkString, bne_iff_ne, ne_eq, hs,
    not_false_eq_true, if_true] at hc ⊢
  simp only [resourceClusterCreate, GetOkString, bne_iff_ne, ne_eq, hs,
    not_false_eq_true, if_true, hc]

theorem resourceClusterCreate_restore_ok (m : Meta) (d : ResourceData) (tr : Trace)
    (hs : d.attrs.snapshot_identifier ≠ "")
    (hc : (resourceClusterCreate.call m d tr).1 = none) :
    resourceClusterCreate m d tr =
      resourceClusterCreate.finish m d (resourceClusterCreate.identifier m d)
        (resourceClusterCreate.restoreModify d).1 (resourceClusterCreate.restoreModify d).2
        (resourceClusterCreate.call m d tr).2 := by
  simp only [resourceClusterCreate.call, GetOkString, bne_iff_ne, ne_eq, hs,
    not_false_eq_true, if_true] at hc ⊢
  simp only [resourceClusterCreate, GetOkString, bne_iff_ne, ne_eq, hs,
    not_false_eq_true, if_true, hc]

theorem missingCredential_none (d : ResourceData)
    (hp : resourceClusterCreate.missingCredential d = none) :
    (!GetOkString d.attrs.global_cluster_identifier && !GetOkString d.attrs.master_password)
      = false ∧
    (!GetOkString d.attrs.global_cluster_identifier && !GetOkString d.attrs.master_username)
      = false := by
  unfold resourceClusterCreate.missingCredential at hp
  split at hp
  · cases hp
  · rename_i h1
    split at hp
    · cases hp
    · rename_i h2
      exact ⟨by simpa using h1, by simpa using h2⟩

theorem resourceClusterCreate_fresh_err (m : Meta) (d : ResourceData) (tr : Trace) (err : Err)
    (hs : d.attrs.snapshot_identifier = "")
    (hp : resourceClusterCreate.missingCredential d = none)
    (hc : (resourceClusterCreate.call m d tr).1 = some err) :
    resourceClusterCreate m d tr =
      { diags := [.creating (resourceClusterCreate.identifier m d) err], d := d,
        trace := (resourceClusterCreate.call m d tr).2 } := by
  obtain ⟨h1, h2⟩ := missingCredential_none d hp
  have hg : GetOkString d.attrs.snapshot_identifier = false := by simp [GetOkString, hs]
  simp only [resourceClusterCreate.call, hg, Bool.false_eq_true, if_false] at hc ⊢
  simp only [resourceClusterCreate, hg, h1, h2, Bool.false_eq_true, if_false, hc]

theorem resourceClusterCreate_fresh_ok (m : Meta) (d : ResourceData) (tr : Trace)
    (hs : d.attrs.snapshot_identifier = "")
    (hp : resourceClusterCreate.missingCredential d = none)
    (hc : (resourceClusterCreate.call m d tr).1 = none) :
    resourceClusterCreate m d tr =
      resourceClusterCreate.finish m d (resourceClusterCreate.identifier m d)
        { ApplyImmediately := some true } false (resourceClusterCreate.call m d tr).2 := by
  obtain ⟨h1, h2⟩ := missingCredential_none d hp
  have hg : GetOkString d.attrs.snapshot_identifier = false := by simp [GetOkString, hs]
  simp only [resourceClusterCreate.call, hg, Bool.false_eq_true, if_false] at hc ⊢
  simp only [resourceClusterCreate, hg, h1, h2, Bool.false_eq_true, if_false, hc]

theorem resourceClusterCreate_missing (m : Meta) (d : ResourceData) (tr : Trace) (field : String)
    (hs : d.attrs.snapshot_identifier = "")
    (hp : resourceClusterCreate.missingCredential d = some field) :
    resourceClusterCreate m d tr =
      { diags := [.requiredFieldNotSet (resourceClusterCreate.identifier m d) field], d := d,
        trace := tr } := by
  have hg : GetOkString d.attrs.snapshot_identifier = false := by simp [GetOkString, hs]
  unfold resourceClusterCreate.missingCredential at hp
  simp only [resourceClusterCreate, hg, Bool.false_eq_true, if_false]
  split at hp
  · rename_i h1
    cases hp
    simp only [h1, if_true]
  · rename_i h1
    split at hp
    · rename_i h2
      cases hp
      simp only [h1, h2, if_true, if_false, Bool.false_eq_true]
    · cases hp

theorem call_trace_restore (m : Meta) (d : ResourceData) (tr : Trace)
    (hs : d.attrs.snapshot_identifier ≠ "") :
    ∃ n, (resourceClusterCreate.call m d tr).2
      = tr ++ Call.RestoreDBClusterFromSnapshot
          (resourceClusterCreate.restoreInput m d (resourceClusterCreate.identifier m d))
        :: List.replicate n (Call.RestoreDBClusterFromSnapshot
          (resourceClusterCreate.restoreInput m d (resourceClusterCreate.identifier m d))) := by
  simp only [resourceClusterCreate.call, GetOkString, bne_iff_ne, ne_eq, hs, not_false_eq_true,
    if_true, RetryWhenAWSErrMessageContains]
  exact RetryWhen_trace _ _ (fun t => rfl) _ _ _

theorem call_trace_fresh (m : Meta) (d : ResourceData) (tr : Trace)
    (hs : d.attrs.snapshot_identifier = "") :
    ∃ n, (resourceClusterCreate.call m d tr).2
      = tr ++ Call.CreateDBCluster
          (resourceClusterCreate.createInput m d (resourceClusterCreate.identifier m d))
        :: List.replicate n (Call.CreateDBCluster
          (resourceClusterCreate.createInput m d (resourceClusterCreate.identifier m d))) := by
  simp only [resourceClusterCreate.call, GetOkString, hs, bne_self_eq_false, Bool.false_eq_true,
    if_false, RetryWhenAWSErrMessageContains]
  exact RetryWhen_trace _ _ (fun t => rfl) _ _ _

theorem replicate_describe_not_mutating (n : Nat) (input : DescribeDBClustersInput) :
    ∀ x ∈ List.replicate n (Call.DescribeDBClustersPages input), x.isMutating = false := by
  intro x hx
  rw [List.eq_of_mem_replicate hx]; rfl

/-- The calls of `finish` when no follow-up modification is issued: describe
calls only. -/
theorem finish_trace_plain (m : Meta) (d : ResourceData) (identifier : String)
    (inputM : ModifyDBClusterInput) (req : Bool) (tr : Trace)
    (h : ¬ (req = true ∧
      (waitDBClusterAvailable m.conn identifier (m.polls d.timeoutCreate) tr).1.2 = none)) :
    ∃ l, (resourceClusterCreate.finish m d identifier inputM req tr).trace = tr ++ l ∧
      ∀ c ∈ l, c.isMutating = false := by
  obtain ⟨n1, -, hw1⟩ := waitDBClusterAvailable_trace m.conn identifier (m.polls d.timeoutCreate) tr
  unfold resourceClusterCreate.finish
  simp only []
  split
  · exact ⟨_, hw1, replicate_describe_not_mutating _ _⟩
  · rename_i hwn
    have hreq : req = false := by
      cases req
      · rfl
      · exact absurd ⟨rfl, hwn⟩ h
    simp only [hreq, Bool.false_eq_true, if_false]
    obtain ⟨l, hl, hlm⟩ := resourceClusterRead_trace m { d with id := identifier }
      (waitDBClusterAvailable m.conn identifier (m.polls d.timeoutCreate) tr).2
    refine ⟨List.replicate n1
      (Call.DescribeDBClustersPages { DBClusterIdentifier := some identifier }) ++ l, ?_, ?_⟩
    · rw [hl, hw1]; simp
    · intro c hc
      rcases List.mem_append.1 hc with h | h
      · exact replicate_describe_not_mutating _ _ c h
      · exact hlm c h

/-- The calls of `finish` when the follow-up modification is issued: describe
calls of the first wait, the modification, then describe calls only. -/
theorem finish_trace_modify (m : Meta) (d : ResourceData) (identifier : String)
    (inputM : ModifyDBClusterInput) (tr : Trace)
    (hw : (waitDBClusterAvailable m.conn identifier (m.polls d.timeoutCreate) tr).1.2 = none) :
    ∃ l1 l2, (∀ c ∈ l1, c.isMutating = false) ∧ (∀ c ∈ l2, c.isMutating = false) ∧
      (waitDBClusterAvailable m.conn identifier (m.polls d.timeoutCreate) tr).2 = tr ++ l1 ∧
      (resourceClusterCreate.finish m d identifier inputM true tr).trace
        = (waitDBClusterAvailable m.conn identifier (m.polls d.timeoutCreate) tr).2
          ++ Call.ModifyDBCluster { inputM with DBClusterIdentifier := some identifier } :: l2 := by
  obtain ⟨n1, -, hw1⟩ := waitDBClusterAvailable_trace m.conn identifier (m.polls d.timeoutCreate) tr
  obtain ⟨n2, -, hw2⟩ := waitDBClusterAvailable_trace m.conn identifier
    (m.polls d.timeoutCreate)
    (m.conn.ModifyDBClusterWithContext { inputM with DBClusterIdentifier := some identifier }
      (waitDBClusterAvailable m.conn identifier (m.polls d.timeoutCreate) tr).2).2
  unfold resourceClusterCreate.finish
  simp only [hw, if_true]
  split
  · exact ⟨_, [], replicate_describe_not_mutating _ _, by simp, hw1,
      by simp [Conn.ModifyDBClusterWithContext]⟩
  · split
    · refine ⟨_, List.replicate n2
          (Call.DescribeDBClustersPages { DBClusterIdentifier := some identifier }),
        replicate_describe_not_mutating _ _, replicate_describe_not_mutating n2 _, hw1, ?_⟩
      rw [hw2]; simp [Conn.ModifyDBClusterWithContext]
    · obtain ⟨l, hl, hlm⟩ := resourceClusterRead_trace m { d with id := identifier }
        (waitDBClusterAvailable m.conn identifier (m.polls d.timeoutCreate)
          (m.conn.ModifyDBClusterWithContext
            { inputM with DBClusterIdentifier := some identifier }
            (waitDBClusterAvailable m.conn identifier (m.polls d.timeoutCreate) tr).2).2).2
      refine ⟨_, List.replicate n2
        (Call.DescribeDBClustersPages { DBClusterIdentifier := some identifier }) ++ l,
        replicate_describe_not_mutating _ _, ?_, hw1, ?_⟩
      · intro c hc
        rcases List.mem_append.1 hc with h | h
        · exact replicate_describe_not_mutating _ _ c h
        · exact hlm c h
      · rw [hl, hw2]; simp [Conn.ModifyDBClusterWithContext]

theorem isModify_of_not_mutating (l : List Call) (h : ∀ c ∈ l, c.isMutating = false) :
    l.filter Call.isModifyDBCluster = [] := by
  rw [List.filter_eq_nil_iff]
  intro c hc hm
  have := h c hc
  cases c <;> simp_all [Call.isMutating, Call.isModifyDBCluster]

theorem not_creation_of_not_mutating (c : Call) (h : c.isMutating = false) :
    c.isCreateDBCluster = false ∧ c.isRestoreDBClusterFromSnapshot = false ∧
      c.isDeleteDBCluster = false := by
  cases c <;> simp_all [Call.isMutating, Call.isCreateDBCluster,
    Call.isRestoreDBClusterFromSnapshot, Call.isDeleteDBCluster]

theorem restoreModify_eq (d : ResourceData) (identifier : String) :
    { (resourceClusterCreate.restoreModify d).1 with DBClusterIdentifier := some identifier }
      = followUpInput d identifier ∧
    (resourceClusterCreate.restoreModify d).2
      = (GetOkInt d.attrs.backup_retention_period
          || GetOkString d.attrs.db_cluster_parameter_group_name
          || GetOkString d.attrs.preferred_backup_window
          || GetOkString d.attrs.preferred_maintenance_window) := by
  unfold resourceClusterCreate.restoreModify followUpInput GetOkInt GetOkString
  by_cases h1 : d.attrs.backup_retention_period = 0 <;>
  by_cases h2 : d.attrs.db_cluster_parameter_group_name = "" <;>
  by_cases h3 : d.attrs.preferred_backup_window = "" <;>
  by_cases h4 : d.attrs.preferred_maintenance_window = "" <;>
  simp [h1, h2, h3, h4]

/-- The calls that `finish` adds to the trace: no creation call, and as the only
modification the follow-up, issued exactly when it is required and the first
wait succeeded. -/
theorem finish_calls (m : Meta) (d : ResourceData) (identifier : String)
    (inputM : ModifyDBClusterInput) (req : Bool) (tr : Trace) :
    ∃ l, (resourceClusterCreate.finish m d identifier inputM req tr).trace = tr ++ l ∧
      (∀ c ∈ l, c.isCreateDBCluster = false ∧ c.isRestoreDBClusterFromSnapshot = false) ∧
      l.filter Call.isModifyDBCluster
        = (if req = true ∧
              (waitDBClusterAvailable m.conn identifier (m.polls d.timeoutCreate) tr).1.2 = none
            then [Call.ModifyDBCluster { inputM with DBClusterIdentifier := some identifier }]
            else []) := by
  by_cases hc : req = true ∧
      (waitDBClusterAvailable m.conn identifier (m.polls d.timeoutCreate) tr).1.2 = none
  · obtain ⟨hreq, hw⟩ := hc
    subst hreq
    obtain ⟨l1, l2, h1, h2, hw1, htr⟩ := finish_trace_modify m d identifier inputM tr hw
    refine ⟨l1 ++ Call.ModifyDBCluster { inputM with DBClusterIdentifier := some identifier }
      :: l2, ?_, ?_, ?_⟩
    · rw [htr, hw1]; simp
    · intro c hc
      rcases List.mem_append.1 hc with hc | hc
      · have := not_creation_of_not_mutating c (h1 c hc)
        exact ⟨this.1, this.2.1⟩
      · rcases List.mem_cons.1 hc with rfl | hc
        · exact ⟨rfl, rfl⟩
        · have := not_creation_of_not_mutating c (h2 c hc)
          exact ⟨this.1, this.2.1⟩
    · rw [List.filter_append, isModify_of_not_mutating l1 h1, List.filter_cons,
        isModify_of_not_mutating l2 h2]
      simp [hw, Call.isModifyDBCluster]
  · obtain ⟨l, hl, hlm⟩ := finish_trace_plain m d identifier inputM req tr hc
    refine ⟨l, hl, ?_, ?_⟩
    · intro c hc'
      have := not_creation_of_not_mutating c (hlm c hc')
      exact ⟨this.1, this.2.1⟩
    · rw [isModify_of_not_mutating l hlm, if_neg hc]

/-! ## Delete: the detach step comes first -/

theorem delete_trace (m : Meta) (d : ResourceData) (input : DeleteDBClusterInput) (t : Trace) :
    ∃ l, (resourceClusterDelete.delete m d input t).trace = t ++ l := by
  obtain ⟨n, hn⟩ := RetryWhen_trace (m.conn.DeleteDBClusterWithContext input)
    (Call.DeleteDBCluster input) (fun _ => rfl) resourceClusterDelete.retryable
    (m.retries d.timeoutDelete) t
  unfold resourceClusterDelete.delete
  simp only []
  split
  · exact ⟨_, hn⟩
  · split
    · exact ⟨_, hn⟩
    · obtain ⟨k, -, hk⟩ := waitDBClusterDeleted_trace m.conn d.id (m.polls d.timeoutDelete)
        (RetryWhen (m.conn.DeleteDBClusterWithContext input) resourceClusterDelete.retryable
          (m.retries d.timeoutDelete) t).2
      split
      · exact ⟨_, by rw [hk, hn, List.append_assoc]⟩
      · exact ⟨_, by rw [hk, hn, List.append_assoc]⟩

/-- C15: for a resource state with `global_cluster_identifier` set that passes the
final-snapshot check, the first call of `resourceClusterDelete` is
`RemoveFromGlobalCluster`, so it precedes every `DeleteDBCluster`; and if the
detach step returns an error then Delete returns that error and has issued no
`DeleteDBCluster` call. -/
theorem resourceClusterDelete_detaches_first (m : Meta) (d : ResourceData) (tr : Trace)
    (hpre : d.attrs.skip_final_snapshot = true ∨ d.attrs.final_snapshot_identifier ≠ "")
    (hg : d.attrs.global_cluster_identifier ≠ "") :
    (∃ l, (resourceClusterDelete m d tr).trace
      = tr ++ Call.RemoveFromGlobalCluster
          { DbClusterIdentifier := some d.attrs.arn
            GlobalClusterIdentifier := some d.attrs.global_cluster_identifier } :: l) ∧
    (∀ err, (removeClusterFromGlobalCluster m.conn d.attrs.arn d.attrs.global_cluster_identifier
          (m.retries d.timeoutDelete) tr).1 = some err →
      (resourceClusterDelete m d tr).diags = [.fromErr err] ∧
      ∃ l, (resourceClusterDelete m d tr).trace = tr ++ l ∧
        ∀ c ∈ l, c.isDeleteDBCluster = false) := by
  obtain ⟨n, hn⟩ := removeClusterFromGlobalCluster_trace m.conn d.attrs.arn
    d.attrs.global_cluster_identifier (m.retries d.timeoutDelete) tr
  have hgo : GetOkString d.attrs.global_cluster_identifier = true := by
    simp [GetOkString, hg]
  rw [resourceClusterDelete_eq_detach m d tr hpre]
  unfold resourceClusterDelete.detach
  simp only [hgo, if_true]
  constructor
  · split
    · exact ⟨_, hn⟩
    · obtain ⟨l, hl⟩ := delete_trace m d (deleteInputOf d)
        (removeClusterFromGlobalCluster m.conn d.attrs.arn d.attrs.global_cluster_identifier
          (m.retries d.timeoutDelete) tr).2
      exact ⟨List.replicate n (Call.DescribeGlobalClusters d.attrs.arn) ++ l,
        by rw [hl, hn]; simp⟩
  · intro err herr
    simp only [herr, true_and]
    refine ⟨_, hn, ?_⟩
    intro c hc
    rcases List.mem_cons.1 hc with rfl | hc
    · rfl
    · rw [List.eq_of_mem_replicate hc]; rfl

theorem resourceClusterDelete_detaches_first_witness :
    (resourceClusterDelete (Meta.sample Conn.absent) dGlobal []).trace.head?
      = some (Call.RemoveFromGlobalCluster
          { DbClusterIdentifier := some "arn:c1", GlobalClusterIdentifier := some "g1" }) := by
  obtain ⟨l, hl⟩ := (resourceClusterDelete_detaches_first (Meta.sample Conn.absent) dGlobal []
    (Or.inl rfl) (by decide)).1
  rw [hl]; rfl

/-! ## Create: which request is issued -/

theorem missingCredential_of_passes (d : ResourceData)
    (hp : d.attrs.global_cluster_identifier ≠ "" ∨
      (d.attrs.master_password ≠ "" ∧ d.attrs.master_username ≠ "")) :
    resourceClusterCreate.missingCredential d = none := by
  unfold resourceClusterCreate.missingCredential GetOkString
  rcases hp with h | ⟨h1, h2⟩
  · simp [h]
  · simp [h1, h2]

theorem missingCredential_of_fails (d : ResourceData)
    (hp : ¬ (d.attrs.global_cluster_identifier ≠ "" ∨
      (d.attrs.master_password ≠ "" ∧ d.attrs.master_username ≠ ""))) :
    ∃ field, resourceClusterCreate.missingCredential d = some field := by
  unfold resourceClusterCreate.missingCredential GetOkString
  simp only [not_or, not_and, ne_eq, Decidable.not_not] at hp
  obtain ⟨hg, hpu⟩ := hp
  by_cases h1 : d.attrs.master_password = ""
  · exact ⟨"master_password", by simp [hg, h1]⟩
  · exact ⟨"master_username", by simp [hg, h1, hpu h1]⟩

/-- C16: `resourceClusterCreate` selects the creation request by
`snapshot_identifier` alone: when it is set the first call is
`RestoreDBClusterFromSnapshot` and no `CreateDBCluster` is ever issued; when
it is unset and the credential precondition holds the first call is
`CreateDBCluster` and no `RestoreDBClusterFromSnapshot` is ever issued, and
when the precondition fails no call is issued at all. -/
theorem resourceClusterCreate_selects_request (m : Meta) (d : ResourceData) (tr : Trace) :
    (d.attrs.snapshot_identifier ≠ "" →
      ∃ l, (resourceClusterCreate m d tr).trace
        = tr ++ Call.RestoreDBClusterFromSnapshot
            (resourceClusterCreate.restoreInput m d (resourceClusterCreate.identifier m d)) :: l ∧
        ∀ c ∈ l, c.isCreateDBCluster = false) ∧
    (d.attrs.snapshot_identifier = "" →
      ((d.attrs.global_cluster_identifier ≠ "" ∨
          (d.attrs.master_password ≠ "" ∧ d.attrs.master_username ≠ "")) →
        ∃ l, (resourceClusterCreate m d tr).trace
          = tr ++ Call.CreateDBCluster
              (resourceClusterCreate.createInput m d (resourceClusterCreate.identifier m d)) :: l ∧
          ∀ c ∈ l, c.isRestoreDBClusterFromSnapshot = false) ∧
      (¬ (d.attrs.global_cluster_identifier ≠ "" ∨
          (d.attrs.master_password ≠ "" ∧ d.attrs.master_username ≠ "")) →
        (resourceClusterCreate m d tr).trace = tr)) := by
  refine ⟨?_, ?_⟩
  · intro hs
    obtain ⟨n, hn⟩ := call_trace_restore m d tr hs
    cases hc : (resourceClusterCreate.call m d tr).1 with
    | some err =>
      rw [resourceClusterCreate_restore_err m d tr err hs hc]
      refine ⟨_, hn, ?_⟩
      intro c hc'
      rw [List.eq_of_mem_replicate hc']; rfl
    | none =>
      rw [resourceClusterCreate_restore_ok m d tr hs hc]
      obtain ⟨l, hl, hlc, -⟩ := finish_calls m d (resourceClusterCreate.identifier m d)
        (resourceClusterCreate.restoreModify d).1 (resourceClusterCreate.restoreModify d).2
        (resourceClusterCreate.call m d tr).2
      refine ⟨List.replicate n (Call.RestoreDBClusterFromSnapshot
        (resourceClusterCreate.restoreInput m d (resourceClusterCreate.identifier m d))) ++ l,
        by rw [hl, hn]; simp, ?_⟩
      intro c hc'
      rcases List.mem_append.1 hc' with h | h
      · rw [List.eq_of_mem_replicate h]; rfl
      · exact (hlc c h).1
  · intro hs
    refine ⟨?_, ?_⟩
    · intro hp
      have hmc := missingCredential_of_passes d hp
      obtain ⟨n, hn⟩ := call_trace_fresh m d tr hs
      cases hc : (resourceClusterCreate.call m d tr).1 with
      | some err =>
        rw [resourceClusterCreate_fresh_err m d tr err hs hmc hc]
        refine ⟨_, hn, ?_⟩
        intro c hc'
        rw [List.eq_of_mem_replicate hc']; rfl
      | none =>
        rw [resourceClusterCreate_fresh_ok m d tr hs hmc hc]
        obtain ⟨l, hl, hlc, -⟩ := finish_calls m d (resourceClusterCreate.identifier m d)
          { ApplyImmediately := some true } false (resourceClusterCreate.call m d tr).2
        refine ⟨List.replicate n (Call.CreateDBCluster
          (resourceClusterCreate.createInput m d (resourceClusterCreate.identifier m d))) ++ l,
          by rw [hl, hn]; simp, ?_⟩
        intro c hc'
        rcases List.mem_append.1 hc' with h | h
        · rw [List.eq_of_mem_replicate h]; rfl
        · exact (hlc c h).2
    · intro hp
      obtain ⟨field, hf⟩ := missingCredential_of_fails d hp
      rw [resourceClusterCreate_missing m d tr field hs hf]

theorem resourceClusterCreate_selects_request_witness :
    (resourceClusterCreate (Meta.sample (Conn.withStatus "available")) dRestore []).trace.head?
      = some (Call.RestoreDBClusterFromSnapshot
          (resourceClusterCreate.restoreInput (Meta.sample (Conn.withStatus "available")) dRestore
            (resourceClusterCreate.identifier (Meta.sample (Conn.withStatus "available"))
              dRestore))) := by
  obtain ⟨l, hl, -⟩ := (resourceClusterCreate_selects_request
    (Meta.sample (Conn.withStatus "available")) dRestore []).1 (by decide)
  rw [hl]; rfl

theorem filter_replicate_restore (n : Nat) (input : RestoreDBClusterFromSnapshotInput) :
    (List.replicate n (Call.RestoreDBClusterFromSnapshot input)).filter Call.isModifyDBCluster
      = [] := by
  rw [List.filter_eq_nil_iff]
  intro c hc
  rw [List.eq_of_mem_replicate hc]; simp [Call.isModifyDBCluster]

theorem filter_replicate_create (n : Nat) (input : CreateDBClusterInput) :
    (List.replicate n (Call.CreateDBCluster input)).filter Call.isModifyDBCluster = [] := by
  rw [List.filter_eq_nil_iff]
  intro c hc
  rw [List.eq_of_mem_replicate hc]; simp [Call.isModifyDBCluster]

/-- C17: when the creation call and the first wait of a restore from a snapshot
succeed, the calls of `resourceClusterCreate` hold exactly one
`ModifyDBCluster` if at least one of `backup_retention_period`,
`db_cluster_parameter_group_name`, `preferred_backup_window`,
`preferred_maintenance_window` is set, and none otherwise; its request applies
immediately and carries exactly those of the four fields that are set; when
it succeeds a second wait follows, whose failure is returned and whose success
leads to the read.  In fresh-create mode no `ModifyDBCluster` is issued. -/
theorem resourceClusterCreate_follow_up (m : Meta) (d : ResourceData) (tr : Trace) :
    (d.attrs.snapshot_identifier ≠ "" →
      (resourceClusterCreate.call m d tr).1 = none →
      (waitDBClusterAvailable m.conn (resourceClusterCreate.identifier m d)
        (m.polls d.timeoutCreate) (resourceClusterCreate.call m d tr).2).1.2 = none →
      ((resourceClusterCreate m d tr).trace.drop tr.length).filter Call.isModifyDBCluster
        = (if (d.attrs.backup_retention_period ≠ 0 ∨ d.attrs.db_cluster_parameter_group_name ≠ "" ∨
              d.attrs.preferred_backup_window ≠ "" ∨ d.attrs.preferred_maintenance_window ≠ "")
            then [Call.ModifyDBCluster (followUpInput d (resourceClusterCreate.identifier m d))]
            else []) ∧
      ((d.attrs.backup_retention_period ≠ 0 ∨ d.attrs.db_cluster_parameter_group_name ≠ "" ∨
          d.attrs.preferred_backup_window ≠ "" ∨ d.attrs.preferred_maintenance_window ≠ "") →
        m.conn.ModifyDBCluster
          (waitDBClusterAvailable m.conn (resourceClusterCreate.identifier m d)
            (m.polls d.timeoutCreate) (resourceClusterCreate.call m d tr).2).2
          (followUpInput d (resourceClusterCreate.identifier m d)) = none →
        (∀ e, (waitDBClusterAvailable m.conn (resourceClusterCreate.identifier m d)
              (m.polls d.timeoutCreate)
              ((waitDBClusterAvailable m.conn (resourceClusterCreate.identifier m d)
                (m.polls d.timeoutCreate) (resourceClusterCreate.call m d tr).2).2
                ++ [Call.ModifyDBCluster
                  (followUpInput d (resourceClusterCreate.identifier m d))])).1.2 = some e →
          (resourceClusterCreate m d tr).diags
            = [.waitingUpdate (resourceClusterCreate.identifier m d) e]) ∧
        ((waitDBClusterAvailable m.conn (resourceClusterCreate.identifier m d)
              (m.polls d.timeoutCreate)
              ((waitDBClusterAvailable m.conn (resourceClusterCreate.identifier m d)
                (m.polls d.timeoutCreate) (resourceClusterCreate.call m d tr).2).2
                ++ [Call.ModifyDBCluster
                  (followUpInput d (resourceClusterCreate.identifier m d))])).1.2 = none →
          resourceClusterCreate m d tr
            = resourceClusterRead m { d with id := resourceClusterCreate.identifier m d }
                (waitDBClusterAvailable m.conn (resourceClusterCreate.identifier m d)
                  (m.polls d.timeoutCreate)
                  ((waitDBClusterAvailable m.conn (resourceClusterCreate.identifier m d)
                    (m.polls d.timeoutCreate) (resourceClusterCreate.call m d tr).2).2
                    ++ [Call.ModifyDBCluster
                      (followUpInput d (resourceClusterCreate.identifier m d))])).2))) ∧
    (d.attrs.snapshot_identifier = "" →
      ((resourceClusterCreate m d tr).trace.drop tr.length).filter Call.isModifyDBCluster = []) := by
  constructor
  · intro hs hc hw
    obtain ⟨n, hn⟩ := call_trace_restore m d tr hs
    obtain ⟨hin, hreq⟩ := restoreModify_eq d (resourceClusterCreate.identifier m d)
    have hany : (resourceClusterCreate.restoreModify d).2 = true ↔
        (d.attrs.backup_retention_period ≠ 0 ∨ d.attrs.db_cluster_parameter_group_name ≠ "" ∨
          d.attrs.preferred_backup_window ≠ "" ∨ d.attrs.preferred_maintenance_window ≠ "") := by
      rw [hreq]; simp [GetOkInt, GetOkString, or_assoc]
    rw [resourceClusterCreate_restore_ok m d tr hs hc]
    constructor
    · obtain ⟨l, hl, -, hlf⟩ := finish_calls m d (resourceClusterCreate.identifier m d)
        (resourceClusterCreate.restoreModify d).1 (resourceClusterCreate.restoreModify d).2
        (resourceClusterCreate.call m d tr).2
      rw [hl, hn, List.append_assoc, List.drop_left, ← List.replicate_succ, List.filter_append,
        filter_replicate_restore, List.nil_append, hlf, hin]
      by_cases h : (d.attrs.backup_retention_period ≠ 0 ∨
          d.attrs.db_cluster_parameter_group_name ≠ "" ∨
          d.attrs.preferred_backup_window ≠ "" ∨ d.attrs.preferred_maintenance_window ≠ "")
      · rw [if_pos h, if_pos ⟨hany.2 h, hw⟩]
      · rw [if_neg h, if_neg (fun hh => h (hany.1 hh.1))]
    · intro h hmod
      have hr := hany.2 h
      unfold resourceClusterCreate.finish
      simp only [hw, hr, if_true, hin, Conn.ModifyDBClusterWithContext, hmod]
      constructor
      · intro e he
        simp only [he]
      · intro he
        simp only [he]
  · intro hs
    by_cases hp : (d.attrs.global_cluster_identifier ≠ "" ∨
        (d.attrs.master_password ≠ "" ∧ d.attrs.master_username ≠ ""))
    · have hmc := missingCredential_of_passes d hp
      obtain ⟨n, hn⟩ := call_trace_fresh m d tr hs
      cases hc : (resourceClusterCreate.call m d tr).1 with
      | some err =>
        rw [resourceClusterCreate_fresh_err m d tr err hs hmc hc]
        simp only [hn, List.drop_left]
        rw [← List.replicate_succ, filter_replicate_create]
      | none =>
        rw [resourceClusterCreate_fresh_ok m d tr hs hmc hc]
        obtain ⟨l, hl, -, hlf⟩ := finish_calls m d (resourceClusterCreate.identifier m d)
          { ApplyImmediately := some true } false (resourceClusterCreate.call m d tr).2
        rw [hl, hn, List.append_assoc, List.drop_left, ← List.replicate_succ, List.filter_append,
          filter_replicate_create, List.nil_append, hlf]
        simp
    · obtain ⟨field, hf⟩ := missingCredential_of_fails d hp
      rw [resourceClusterCreate_missing m d tr field hs hf]
      simp

theorem resourceClusterCreate_follow_up_witness :
    ((resourceClusterCreate (Meta.sample (Conn.withStatus "available")) dRestore []).trace.drop
        ([] : Trace).length).filter Call.isModifyDBCluster
      = [Call.ModifyDBCluster
          { ApplyImmediately := some true, DBClusterIdentifier := some "c1",
            PreferredBackupWindow := some "07:00-09:00" }] :=
  (((resourceClusterCreate_follow_up (Meta.sample (Conn.withStatus "available")) dRestore []).1
    (by decide) (by decide) (by decide)).1).trans (by decide)

theorem resourceClusterRead_id (m : Meta) (d : ResourceData) (tr : Trace)
    (hnew : d.isNewResource = true) : (resourceClusterRead m d tr).d.id = d.id := by
  unfold resourceClusterRead
  simp only [hnew, Bool.not_true, Bool.false_and, Bool.false_eq_true, if_false]
  split
  · rfl
  · split
    · split <;> rfl
    · rfl

theorem finish_id (m : Meta) (d : ResourceData) (identifier : String)
    (inputM : ModifyDBClusterInput) (req : Bool) (tr : Trace)
    (hnew : d.isNewResource = true) :
    (resourceClusterCreate.finish m d identifier inputM req tr).d.id = identifier := by
  have hread : ∀ t, (resourceClusterRead m { d with id := identifier } t).d.id = identifier :=
    fun t => resourceClusterRead_id m { d with id := identifier } t hnew
  unfold resourceClusterCreate.finish
  simp only []
  split
  · rfl
  · split
    · split
      · rfl
      · split
        · rfl
        · exact hread _
    · exact hread _

theorem append_ne_empty_left (a b : String) (h : a ≠ "") : a ++ b ≠ "" := by
  intro hc
  apply h
  have hd := congrArg String.data hc
  rw [String.data_append] at hd
  have ha : a.data = [] := (List.append_eq_nil.1 hd).1
  exact String.ext ha

theorem identifier_ne_empty (m : Meta) (d : ResourceData) :
    resourceClusterCreate.identifier m d ≠ "" := by
  unfold resourceClusterCreate.identifier NameGenerator.Generate
  split
  · rename_i h; simpa using h
  · split
    · rename_i h
      exact append_ne_empty_left _ _ (by simpa using h)
    · exact append_ne_empty_left _ _ (by decide)

/-- C18: `resourceClusterCreate` leaves the resource data, the id included, as it
was when a credential precondition or the creation call fails, and returns an
error; when the creation call succeeds but the wait for "available" fails it
returns the waiting error with the id set to the derived identifier; and for
a new resource without an id, the id ends up as the derived identifier
exactly when the creation call succeeded. -/
theorem resourceClusterCreate_id (m : Meta) (d : ResourceData) (tr : Trace) :
    -- a failed precondition leaves the resource data as it was
    (d.attrs.snapshot_identifier = "" →
      ¬ (d.attrs.global_cluster_identifier ≠ "" ∨
        (d.attrs.master_password ≠ "" ∧ d.attrs.master_username ≠ "")) →
      (resourceClusterCreate m d tr).d = d ∧ (resourceClusterCreate m d tr).diags ≠ []) ∧
    -- a failed creation call leaves the resource data as it was
    ((d.attrs.snapshot_identifier ≠ "" ∨ d.attrs.global_cluster_identifier ≠ "" ∨
        (d.attrs.master_password ≠ "" ∧ d.attrs.master_username ≠ "")) →
      ∀ e, (resourceClusterCreate.call m d tr).1 = some e →
      (resourceClusterCreate m d tr).d = d ∧ (resourceClusterCreate m d tr).diags ≠ []) ∧
    -- after a successful creation call the id is the identifier
    ((d.attrs.snapshot_identifier ≠ "" ∨ d.attrs.global_cluster_identifier ≠ "" ∨
        (d.attrs.master_password ≠ "" ∧ d.attrs.master_username ≠ "")) →
      (resourceClusterCreate.call m d tr).1 = none →
      (d.isNewResource = true →
        (resourceClusterCreate m d tr).d.id = resourceClusterCreate.identifier m d) ∧
      (∀ e, (waitDBClusterAvailable m.conn (resourceClusterCreate.identifier m d)
            (m.polls d.timeoutCreate) (resourceClusterCreate.call m d tr).2).1.2 = some e →
        (resourceClusterCreate m d tr).diags
          = [.waitingCreate (resourceClusterCreate.identifier m d) e] ∧
        (resourceClusterCreate m d tr).d
          = { d with id := resourceClusterCreate.identifier m d })) ∧
    -- so, for a new resource without an id, the id is set exactly on success
    (d.isNewResource = true → d.id = "" →
      ((resourceClusterCreate m d tr).d.id = resourceClusterCreate.identifier m d ↔
        ((d.attrs.snapshot_identifier ≠ "" ∨ d.attrs.global_cluster_identifier ≠ "" ∨
          (d.attrs.master_password ≠ "" ∧ d.attrs.master_username ≠ "")) ∧
          (resourceClusterCreate.call m d tr).1 = none))) := by
  have hfailPre : d.attrs.snapshot_identifier = "" →
      ¬ (d.attrs.global_cluster_identifier ≠ "" ∨
        (d.attrs.master_password ≠ "" ∧ d.attrs.master_username ≠ "")) →
      (resourceClusterCreate m d tr).d = d ∧ (resourceClusterCreate m d tr).diags ≠ [] := by
    intro hs hp
    obtain ⟨field, hf⟩ := missingCredential_of_fails d hp
    rw [resourceClusterCreate_missing m d tr field hs hf]
    exact ⟨rfl, by simp⟩
  have hfailCall : (d.attrs.snapshot_identifier ≠ "" ∨ d.attrs.global_cluster_identifier ≠ "" ∨
        (d.attrs.master_password ≠ "" ∧ d.attrs.master_username ≠ "")) →
      ∀ e, (resourceClusterCreate.call m d tr).1 = some e →
      (resourceClusterCreate m d tr).d = d ∧ (resourceClusterCreate m d tr).diags ≠ [] := by
    intro hmode e he
    by_cases hs : d.attrs.snapshot_identifier = ""
    · have hp : d.attrs.global_cluster_identifier ≠ "" ∨
          (d.attrs.master_password ≠ "" ∧ d.attrs.master_username ≠ "") := by
        rcases hmode with h | h
        · exact absurd hs h
        · exact h
      rw [resourceClusterCreate_fresh_err m d tr e hs (missingCredential_of_passes d hp) he]
      exact ⟨rfl, by simp⟩
    · rw [resourceClusterCreate_restore_err m d tr e hs he]
      exact ⟨rfl, by simp⟩
  have hfin : (d.attrs.snapshot_identifier ≠ "" ∨ d.attrs.global_cluster_identifier ≠ "" ∨
        (d.attrs.master_password ≠ "" ∧ d.attrs.master_username ≠ "")) →
      (resourceClusterCreate.call m d tr).1 = none →
      ∃ inputM req, resourceClusterCreate m d tr
        = resourceClusterCreate.finish m d (resourceClusterCreate.identifier m d) inputM req
            (resourceClusterCreate.call m d tr).2 := by
    intro hmode hc
    by_cases hs : d.attrs.snapshot_identifier = ""
    · have hp : d.attrs.global_cluster_identifier ≠ "" ∨
          (d.attrs.master_password ≠ "" ∧ d.attrs.master_username ≠ "") := by
        rcases hmode with h | h
        · exact absurd hs h
        · exact h
      exact ⟨_, _, resourceClusterCreate_fresh_ok m d tr hs (missingCredential_of_passes d hp) hc⟩
    · exact ⟨_, _, resourceClusterCreate_restore_ok m d tr hs hc⟩
  have hok : (d.attrs.snapshot_identifier ≠ "" ∨ d.attrs.global_cluster_identifier ≠ "" ∨
        (d.attrs.master_password ≠ "" ∧ d.attrs.master_username ≠ "")) →
      (resourceClusterCreate.call m d tr).1 = none →
      d.isNewResource = true →
        (resourceClusterCreate m d tr).d.id = resourceClusterCreate.identifier m d := by
    intro hmode hc hnew
    obtain ⟨inputM, req, h⟩ := hfin hmode hc
    rw [h]
    exact finish_id m d _ inputM req _ hnew
  refine ⟨hfailPre, hfailCall, ?_, ?_⟩
  · intro hmode hc
    refine ⟨hok hmode hc, ?_⟩
    intro e he
    obtain ⟨inputM, req, h⟩ := hfin hmode hc
    rw [h]
    unfold resourceClusterCreate.finish
    simp [he]
  · intro hnew hid
    have hne : d.id ≠ resourceClusterCreate.identifier m d := by
      rw [hid]; exact fun h => identifier_ne_empty m d h.symm
    constructor
    · intro h
      by_contra hcon
      apply hne
      rw [← h]
      by_cases hmode : (d.attrs.snapshot_identifier ≠ "" ∨ d.attrs.global_cluster_identifier ≠ "" ∨
          (d.attrs.master_password ≠ "" ∧ d.attrs.master_username ≠ ""))
      · cases hc : (resourceClusterCreate.call m d tr).1 with
        | none => exact absurd ⟨hmode, hc⟩ hcon
        | some e => rw [(hfailCall hmode e hc).1]
      · simp only [not_or] at hmode
        have hs : d.attrs.snapshot_identifier = "" := by
          by_contra h'; exact hmode.1 h'
        have hp : ¬ (d.attrs.global_cluster_identifier ≠ "" ∨
            (d.attrs.master_password ≠ "" ∧ d.attrs.master_username ≠ "")) := by
          simp only [not_or]; exact hmode.2
        rw [(hfailPre hs hp).1]
    · rintro ⟨hmode, hc⟩
      exact hok hmode hc hnew

theorem resourceClusterCreate_id_witness :
    (resourceClusterCreate (Meta.sample (Conn.withStatus "available")) dFresh []).d.id
      = resourceClusterCreate.identifier (Meta.sample (Conn.withStatus "available")) dFresh :=
  ((resourceClusterCreate_id (Meta.sample (Conn.withStatus "available")) dFresh []).2.2.2
    rfl rfl).2 ⟨Or.inr (Or.inr ⟨by decide, by decide⟩), by decide⟩

/-! ## Update: the request, and the poll for "available" -/

theorem globalCluster_trace (m : Meta) (d : ResourceData) (t : Trace) :
    ∃ l, (resourceClusterUpdate.globalCluster m d t).trace = t ++ l := by
  unfold resourceClusterUpdate.globalCluster
  simp only []
  split
  · split
    · exact ⟨[], by simp⟩
    · split
      · exact ⟨[], by simp⟩
      · obtain ⟨n, hn⟩ := removeClusterFromGlobalCluster_trace m.conn d.attrs.arn
          d.state.global_cluster_identifier (m.retries d.timeoutUpdate) t
        split
        · exact ⟨_, hn⟩
        · obtain ⟨l, hl, -⟩ := resourceClusterRead_trace m d
            (removeClusterFromGlobalCluster m.conn d.attrs.arn d.state.global_cluster_identifier
              (m.retries d.timeoutUpdate) t).2
          exact ⟨_, by rw [hl, hn, List.append_assoc]⟩
  · obtain ⟨l, hl, -⟩ := resourceClusterRead_trace m d t
    exact ⟨l, hl⟩

theorem resourceClusterUpdate_first_call (m : Meta) (d : ResourceData) (tr : Trace)
    (h : d.HasChangesExcept
      [.tags, .tags_all, .global_cluster_identifier, .skip_final_snapshot] = true) :
    ∃ l, (resourceClusterUpdate m d tr).trace
      = tr ++ Call.ModifyDBCluster (resourceClusterUpdate.input d) :: l := by
  obtain ⟨n, hn⟩ := RetryWhen_trace (m.conn.ModifyDBClusterWithContext
    (resourceClusterUpdate.input d)) (Call.ModifyDBCluster (resourceClusterUpdate.input d))
    (fun _ => rfl) resourceClusterUpdate.retryable (m.retries (5 * 60)) tr
  unfold resourceClusterUpdate
  simp only [h, if_true]
  split
  · exact ⟨_, hn⟩
  · obtain ⟨k, -, hk⟩ := waitDBClusterAvailable_trace m.conn d.id (m.polls d.timeoutUpdate)
      (RetryWhen (m.conn.ModifyDBClusterWithContext (resourceClusterUpdate.input d))
        resourceClusterUpdate.retryable (m.retries (5 * 60)) tr).2
    split
    · exact ⟨_, by rw [hk, hn, List.append_assoc, List.cons_append]⟩
    · obtain ⟨l, hl⟩ := globalCluster_trace m d
          (waitDBClusterAvailable m.conn d.id (m.polls d.timeoutUpdate)
            (RetryWhen (m.conn.ModifyDBClusterWithContext (resourceClusterUpdate.input d))
              resourceClusterUpdate.retryable (m.retries (5 * 60)) tr).2).2
      exact ⟨_, by rw [hl, hk, hn, List.append_assoc, List.append_assoc, List.cons_append]⟩

/-- C13 (amended): when `resourceClusterUpdate` issues `ModifyDBCluster`, its first
call carries the request built from the resource data, in which every
attribute-derived field other than `AllowMajorVersionUpgrade` is set exactly
when its attribute has a change (and then holds the new value), while
`AllowMajorVersionUpgrade` is set exactly when `allow_major_version_upgrade`
is true, changed or not. -/
theorem resourceClusterUpdate_request_fields (m : Meta) (d : ResourceData) (tr : Trace)
    (h : d.HasChangesExcept
      [.tags, .tags_all, .global_cluster_identifier, .skip_final_snapshot] = true) :
    (∃ l, (resourceClusterUpdate m d tr).trace
      = tr ++ Call.ModifyDBCluster (resourceClusterUpdate.input d) :: l) ∧
    (resourceClusterUpdate.input d).DBClusterIdentifier = some d.id ∧
    (resourceClusterUpdate.input d).ApplyImmediately = some d.attrs.apply_immediately ∧
    (resourceClusterUpdate.input d).AllowMajorVersionUpgrade
      = (if d.attrs.allow_major_version_upgrade then some true else none) ∧
    (resourceClusterUpdate.input d).BackupRetentionPeriod
      = (if d.HasChange .backup_retention_period then some d.attrs.backup_retention_period
         else none) ∧
    (resourceClusterUpdate.input d).DBClusterParameterGroupName
      = (if d.HasChange .db_cluster_parameter_group_name
         then some d.attrs.db_cluster_parameter_group_name else none) ∧
    (resourceClusterUpdate.input d).DeletionProtection
      = (if d.HasChange .deletion_protection then some d.attrs.deletion_protection else none) ∧
    (resourceClusterUpdate.input d).CloudwatchLogsExportConfiguration
      = (if d.HasChange .enabled_cloudwatch_logs_exports
         then some (expandCloudwatchLogsExportConfiguration d) else none) ∧
    (resourceClusterUpdate.input d).EngineVersion
      = (if d.HasChange .engine_version then some d.attrs.engine_version else none) ∧
    (resourceClusterUpdate.input d).MasterUserPassword
      = (if d.HasChange .master_password then some d.attrs.master_password else none) ∧
    (resourceClusterUpdate.input d).PreferredBackupWindow
      = (if d.HasChange .preferred_backup_window then some d.attrs.preferred_backup_window
         else none) ∧
    (resourceClusterUpdate.input d).StorageType
      = (if d.HasChange .storage_type then some d.attrs.storage_type else none) ∧
    (resourceClusterUpdate.input d).PreferredMaintenanceWindow
      = (if d.HasChange .preferred_maintenance_window
         then some d.attrs.preferred_maintenance_window else none) ∧
    (resourceClusterUpdate.input d).VpcSecurityGroupIds
      = (if d.HasChange .vpc_security_group_ids then some d.attrs.vpc_security_group_ids
         else none) := by
  refine ⟨resourceClusterUpdate_first_call m d tr h, ?_, ?_, ?_, ?_, ?_, ?_, ?_, ?_, ?_, ?_, ?_,
    ?_, ?_⟩
  · simp only [resourceClusterUpdate.input, apply_ite ModifyDBClusterInput.DBClusterIdentifier,
      ite_self]
  · simp only [resourceClusterUpdate.input, apply_ite ModifyDBClusterInput.ApplyImmediately,
      ite_self]
  · simp only [resourceClusterUpdate.input,
      apply_ite ModifyDBClusterInput.AllowMajorVersionUpgrade, ite_self, GetOkBool]
    split
    · rename_i h; rw [h]
    · rfl
  · simp only [resourceClusterUpdate.input, apply_ite ModifyDBClusterInput.BackupRetentionPeriod,
      ite_self]
  · simp only [resourceClusterUpdate.input,
      apply_ite ModifyDBClusterInput.DBClusterParameterGroupName, ite_self]
  · simp only [resourceClusterUpdate.input, apply_ite ModifyDBClusterInput.DeletionProtection,
      ite_self]
  · simp only [resourceClusterUpdate.input,
      apply_ite ModifyDBClusterInput.CloudwatchLogsExportConfiguration, ite_self]
  · simp only [resourceClusterUpdate.input, apply_ite ModifyDBClusterInput.EngineVersion,
      ite_self]
  · simp only [resourceClusterUpdate.input, apply_ite ModifyDBClusterInput.MasterUserPassword,
      ite_self]
  · simp only [resourceClusterUpdate.input, apply_ite ModifyDBClusterInput.PreferredBackupWindow,
      ite_self]
  · simp only [resourceClusterUpdate.input, apply_ite ModifyDBClusterInput.StorageType,
      ite_self]
  · simp only [resourceClusterUpdate.input,
      apply_ite ModifyDBClusterInput.PreferredMaintenanceWindow, ite_self]
  · simp only [resourceClusterUpdate.input, apply_ite ModifyDBClusterInput.VpcSecurityGroupIds,
      ite_self]
    split
    · split
      · rfl
      · rename_i h
        have : d.attrs.vpc_security_group_ids = [] := by
          cases hv : d.attrs.vpc_security_group_ids with
          | nil => rfl
          | cons a l => rw [hv] at h; simp at h
        rw [this]
    · rfl

theorem resourceClusterUpdate_request_fields_witness :
    (resourceClusterUpdate.input dUpgradeKept).BackupRetentionPeriod = some 7 :=
  (resourceClusterUpdate_request_fields (Meta.sample (Conn.withStatus "available")) dUpgradeKept []
    (by decide)).2.2.2.2.1

/-- C13 (counterexample): an update that changes only the backup retention period of
a cluster with `allow_major_version_upgrade` true sends
`AllowMajorVersionUpgrade` although that attribute has no change; an update
that switches `allow_major_version_upgrade` off sends a request without the
field although the attribute changed. -/
theorem resourceClusterUpdate_request_fields_counterexample :
    (dUpgradeKept.HasChangesExcept
      [.tags, .tags_all, .global_cluster_identifier, .skip_final_snapshot] = true ∧
     dUpgradeKept.HasChange .allow_major_version_upgrade = false ∧
     (resourceClusterUpdate (Meta.sample (Conn.withStatus "available")) dUpgradeKept []).trace.head?
       = some (Call.ModifyDBCluster
          { AllowMajorVersionUpgrade := some true, ApplyImmediately := some false,
            BackupRetentionPeriod := some 7, DBClusterIdentifier := some "c1" })) ∧
    (dUpgradeOff.HasChangesExcept
      [.tags, .tags_all, .global_cluster_identifier, .skip_final_snapshot] = true ∧
     dUpgradeOff.HasChange .allow_major_version_upgrade = true ∧
     (resourceClusterUpdate (Meta.sample (Conn.withStatus "available")) dUpgradeOff []).trace.head?
       = some (Call.ModifyDBCluster
          { ApplyImmediately := some false, DBClusterIdentifier := some "c1" })) := by
  decide

/-- C20 (amended): when the successive reads of `waitDBClusterAvailable` observe the
statuses creating, creating, backing-up, available, the wait returns success
with the cluster of the fourth read after exactly 4 reads, whatever room the
timeout leaves beyond them: no read follows the one that observed
"available". -/
theorem waitDBClusterAvailable_four_reads (conn : Conn) (id : String) (tr : Trace) (fuel : Nat)
    (c0 c1 c2 c3 : DBCluster) (hfuel : 4 ≤ fuel)
    (h0 : (statusDBCluster conn id tr).1 = (some c0, "creating", none))
    (h1 : (statusDBCluster conn id (tr ++ List.replicate 1 (readCall id))).1
      = (some c1, "creating", none))
    (h2 : (statusDBCluster conn id (tr ++ List.replicate 2 (readCall id))).1
      = (some c2, "backing-up", none))
    (h3 : (statusDBCluster conn id (tr ++ List.replicate 3 (readCall id))).1
      = (some c3, "available", none)) :
    waitDBClusterAvailable conn id fuel tr
      = ((some c3, none), tr ++ List.replicate 4 (readCall id)) := by
  obtain ⟨k, rfl⟩ : ∃ k, fuel = k + 4 := ⟨fuel - 4, by omega⟩
  have t0 := statusDBCluster_trace conn id tr
  have t1 := statusDBCluster_trace conn id (tr ++ List.replicate 1 (readCall id))
  have t2 := statusDBCluster_trace conn id (tr ++ List.replicate 2 (readCall id))
  have t3 := statusDBCluster_trace conn id (tr ++ List.replicate 3 (readCall id))
  have e1 : tr ++ [Call.DescribeDBClustersPages { DBClusterIdentifier := some id }]
      = tr ++ List.replicate 1 (readCall id) := rfl
  have e2 : tr ++ List.replicate 1 (readCall id)
      ++ [Call.DescribeDBClustersPages { DBClusterIdentifier := some id }]
      = tr ++ List.replicate 2 (readCall id) := by simp [readCall, List.replicate]
  have e3 : tr ++ List.replicate 2 (readCall id)
      ++ [Call.DescribeDBClustersPages { DBClusterIdentifier := some id }]
      = tr ++ List.replicate 3 (readCall id) := by simp [readCall, List.replicate]
  have e4 : tr ++ List.replicate 3 (readCall id)
      ++ [Call.DescribeDBClustersPages { DBClusterIdentifier := some id }]
      = tr ++ List.replicate 4 (readCall id) := by simp [readCall, List.replicate]
  rw [e1] at t0; rw [e2] at t1; rw [e3] at t2; rw [e4] at t3
  have hp1 : (waitDBClusterAvailable.stateConf conn id).Target.contains "creating" = false := by
    simp only [waitDBClusterAvailable.stateConf]; decide
  have hp2 : (waitDBClusterAvailable.stateConf conn id).Pending.contains "creating" = true := by
    simp only [waitDBClusterAvailable.stateConf]; decide
  have hp3 : (waitDBClusterAvailable.stateConf conn id).Target.contains "backing-up" = false := by
    simp only [waitDBClusterAvailable.stateConf]; decide
  have hp4 : (waitDBClusterAvailable.stateConf conn id).Pending.contains "backing-up" = true := by
    simp only [waitDBClusterAvailable.stateConf]; decide
  have hp5 : (waitDBClusterAvailable.stateConf conn id).Target.contains "available" = true := by
    simp only [waitDBClusterAvailable.stateConf]; decide
  have hr : (waitDBClusterAvailable.stateConf conn id).Refresh = statusDBCluster conn id := rfl
  unfold waitDBClusterAvailable
  rw [show k + 4 = (k + 3) + 1 from rfl]
  unfold WaitForStateContext
  simp only [hr, h0, t0, hp1, hp2, Bool.false_eq_true, if_false, if_true]
  rw [show k + 3 = (k + 2) + 1 from rfl]
  unfold WaitForStateContext
  simp only [hr, h1, t1, hp1, hp2, Bool.false_eq_true, if_false, if_true]
  rw [show k + 2 = (k + 1) + 1 from rfl]
  unfold WaitForStateContext
  simp only [hr, h2, t2, hp3, hp4, Bool.false_eq_true, if_false, if_true]
  unfold WaitForStateContext
  simp only [hr, h3, t3, hp5, if_true]

/-- C20 (counterexample): on a service whose reads observe creating, creating,
backing-up, available, the wait succeeds after 4 reads, and a wait that has
room for 3 reads only ends in a timeout with last state "backing-up". -/
theorem waitDBClusterAvailable_three_reads_counterexample :
    waitDBClusterAvailable
        (Conn.scripted ["creating", "creating", "backing-up", "available"] "available") "c1" 10 []
      = ((some (clusterInStatus "available"), none), List.replicate 4 (readCall "c1")) ∧
    waitDBClusterAvailable
        (Conn.scripted ["creating", "creating", "backing-up", "available"] "available") "c1" 3 []
      = ((none, some (.timeout "backing-up")), List.replicate 3 (readCall "c1")) := by
  decide

theorem waitDBClusterAvailable_four_reads_witness :
    waitDBClusterAvailable
        (Conn.scripted ["creating", "creating", "backing-up", "available"] "available") "c1" 7 []
      = ((some (clusterInStatus "available"), none), [] ++ List.replicate 4 (readCall "c1")) :=
  waitDBClusterAvailable_four_reads
    (Conn.scripted ["creating", "creating", "backing-up", "available"] "available") "c1" [] 7
    (clusterInStatus "creating") (clusterInStatus "creating") (clusterInStatus "backing-up")
    (clusterInStatus "available") (by decide) rfl rfl rfl rfl

/-! ## The refresh function, the diff-suppress functions and the log-export diff -/

/-- C21: the refresh function built by `statusDBCluster` returns no entity, the
empty status and no error when the lookup is NotFound, returns the error with
no entity when the lookup fails otherwise, and returns the cluster with its
status and no error when the lookup succeeds; so an error it returns is never
a NotFound error. -/
theorem statusDBCluster_outcomes (conn : Conn) (id : String) (tr : Trace) :
    (∀ err, (FindDBClusterByID conn id tr).1 = .error err → NotFound (some err) = true →
      (statusDBCluster conn id tr).1 = (none, "", none)) ∧
    (∀ err, (FindDBClusterByID conn id tr).1 = .error err → NotFound (some err) = false →
      (statusDBCluster conn id tr).1 = (none, "", some err)) ∧
    (∀ output, (FindDBClusterByID conn id tr).1 = .ok output →
      (statusDBCluster conn id tr).1 = (some output, StringValue output.Status, none)) ∧
    (∀ err, (statusDBCluster conn id tr).1.2.2 = some err → NotFound (some err) = false) := by
  refine ⟨?_, ?_, ?_, ?_⟩
  · intro err h hn
    simp [statusDBCluster, h, hn]
  · intro err h hn
    simp [statusDBCluster, h, hn]
  · intro output h
    simp [statusDBCluster, h]
  · intro err h
    unfold statusDBCluster at h
    simp only [] at h
    split at h
    · rename_i e _
      split at h
      · simp at h
      · rename_i hn
        simp only [Option.some.injEq] at h
        subst h
        simpa using hn
    · simp at h

theorem statusDBCluster_outcomes_witness :
    (statusDBCluster Conn.absent "c1" []).1 = (none, "", none) :=
  (statusDBCluster_outcomes Conn.absent "c1" []).1
    (.notFound (some ⟨ErrCodeDBClusterNotFoundFault, "DBCluster not found"⟩)) rfl rfl

/-- C25: the diff-suppress function of `storage_type` returns true exactly when
old equals new, or old is empty and new is "standard"; it is not symmetric:
old "standard" with new empty is not suppressed. -/
theorem storageTypeDiffSuppressFunc_spec (k old new : String) (d : ResourceData) :
    (storageTypeDiffSuppressFunc k old new d = true ↔
      (old = new ∨ (old = "" ∧ new = "standard"))) ∧
    storageTypeDiffSuppressFunc k "" "standard" d = true ∧
    storageTypeDiffSuppressFunc k "standard" "" d = false := by
  refine ⟨?_, by simp [storageTypeDiffSuppressFunc, storageTypeStandard],
    by simp [storageTypeDiffSuppressFunc, storageTypeStandard]⟩
  unfold storageTypeDiffSuppressFunc storageTypeStandard
  by_cases h : old = "" ∧ new = "standard"
  · simp [h.1, h.2]
  · constructor
    · intro hs
      left
      split at hs
      · rename_i hc
        simp only [Bool.and_eq_true, beq_iff_eq] at hc
        exact absurd hc h
      · simpa using hs
    · rintro (rfl | hc)
      · simp
      · exact absurd hc h

/-- C26: the diff-suppress function of `snapshot_identifier` returns true exactly
when new is empty: removing the attribute is always suppressed, a change to a
non-empty value never. -/
theorem snapshotIdentifierDiffSuppressFunc_spec (k old new : String) (d : ResourceData) :
    (snapshotIdentifierDiffSuppressFunc k old new d = true ↔ new = "") ∧
    snapshotIdentifierDiffSuppressFunc k old "" d = true ∧
    (new ≠ "" → snapshotIdentifierDiffSuppressFunc k old new d = false) := by
  unfold snapshotIdentifierDiffSuppressFunc
  refine ⟨by simp, by simp, ?_⟩
  intro h; simpa using h

/-- C28: the enable list and the disable list of
`diffCloudWatchLogsExportConfiguration` share no element; the elements of
`old` that are not disabled, together with the enabled ones, are exactly the
elements of `new`; when `old` and `new` hold the same values both lists are
empty; and `expandCloudwatchLogsExportConfiguration` hands on these two
lists. -/
theorem diffCloudWatchLogsExportConfiguration_algebra (old new : List String) :
    (∀ v, ¬ (v ∈ (diffCloudWatchLogsExportConfiguration old new).1 ∧
      v ∈ (diffCloudWatchLogsExportConfiguration old new).2)) ∧
    (∀ v, ((v ∈ old ∧ v ∉ (diffCloudWatchLogsExportConfiguration old new).2) ∨
        v ∈ (diffCloudWatchLogsExportConfiguration old new).1) ↔ v ∈ new) ∧
    ((∀ v, v ∈ old ↔ v ∈ new) →
      diffCloudWatchLogsExportConfiguration old new = ([], [])) ∧
    (∀ d : ResourceData,
      (expandCloudwatchLogsExportConfiguration d).EnableLogTypes
        = (diffCloudWatchLogsExportConfiguration d.state.enabled_cloudwatch_logs_exports
            d.attrs.enabled_cloudwatch_logs_exports).1 ∧
      (expandCloudwatchLogsExportConfiguration d).DisableLogTypes
        = (diffCloudWatchLogsExportConfiguration d.state.enabled_cloudwatch_logs_exports
            d.attrs.enabled_cloudwatch_logs_exports).2) := by
  rw [diff_eq_filter]
  refine ⟨?_, ?_, ?_, ?_⟩
  · intro v
    simp only [List.mem_filter, decide_eq_true_eq, IndexOf_eq_neg_one_iff]
    rintro ⟨⟨_, h1⟩, ⟨h2, _⟩⟩
    exact h1 h2
  · intro v
    simp only [List.mem_filter, decide_eq_true_eq, IndexOf_eq_neg_one_iff]
    constructor
    · rintro (⟨h1, h2⟩ | ⟨h1, _⟩)
      · by_contra hn
        exact h2 ⟨h1, hn⟩
      · exact h1
    · intro hn
      by_cases ho : v ∈ old
      · left; exact ⟨ho, fun h => h.2 hn⟩
      · right; exact ⟨hn, ho⟩
  · intro h
    have h1 : new.filter (fun n => decide (IndexOf old n = -1)) = [] := by
      rw [List.filter_eq_nil_iff]
      intro a ha
      simp only [decide_eq_true_eq, IndexOf_eq_neg_one_iff]
      exact fun hc => hc ((h a).2 ha)
    have h2 : old.filter (fun o => decide (IndexOf new o = -1)) = [] := by
      rw [List.filter_eq_nil_iff]
      intro a ha
      simp only [decide_eq_true_eq, IndexOf_eq_neg_one_iff]
      exact fun hc => hc ((h a).1 ha)
    rw [h1, h2]
  · intro d
    exact ⟨rfl, rfl⟩

/-! ## Import, and the global cluster in Read -/

theorem setAttrs_keeps_snapshot_settings (m : Meta) (dbc : DBCluster) (a : Attrs) :
    (resourceClusterRead.setAttrs m dbc a).skip_final_snapshot = a.skip_final_snapshot ∧
    (resourceClusterRead.setAttrs m dbc a).final_snapshot_identifier
      = a.final_snapshot_identifier ∧
    (resourceClusterRead.setAttrs m dbc a).global_cluster_identifier
      = a.global_cluster_identifier :=
  ⟨rfl, rfl, rfl⟩

theorem resourceClusterRead_keeps_snapshot_settings (m : Meta) (d : ResourceData) (tr : Trace) :
    (resourceClusterRead m d tr).d.attrs.skip_final_snapshot = d.attrs.skip_final_snapshot ∧
    (resourceClusterRead m d tr).d.attrs.final_snapshot_identifier
      = d.attrs.final_snapshot_identifier := by
  unfold resourceClusterRead
  simp only []
  split
  · split <;> exact ⟨rfl, rfl⟩
  · split
    · split <;> exact ⟨rfl, rfl⟩
    · exact ⟨rfl, rfl⟩

theorem detach_no_final_snapshot_error (m : Meta) (d : ResourceData)
    (input : DeleteDBClusterInput) (tr : Trace) :
    Diag.finalSnapshotIdentifierRequired ∉ (resourceClusterDelete.detach m d input tr).diags := by
  have hdel : ∀ t, Diag.finalSnapshotIdentifierRequired
      ∉ (resourceClusterDelete.delete m d input t).diags := by
    intro t
    unfold resourceClusterDelete.delete
    simp only []
    split
    · simp
    · split
      · simp
      · split <;> simp
  unfold resourceClusterDelete.detach
  simp only []
  split
  · split
    · simp
    · exact hdel _
  · exact hdel _

/-- C22: the importer sets `skip_final_snapshot` to true and returns exactly that
one resource; `resourceClusterRead` writes neither `skip_final_snapshot` nor
`final_snapshot_identifier`; so a Delete that follows import and Read never
fails with the "FinalSnapshotIdentifier is required" error. -/
theorem import_read_delete (m1 m2 : Meta) (d : ResourceData) (tr1 tr2 : Trace) :
    ResourceCluster.Importer.StateContext d
      = ([{ d with attrs := { d.attrs with skip_final_snapshot := true } }], none) ∧
    (∀ d0 t,
      (resourceClusterRead m1 d0 t).d.attrs.skip_final_snapshot = d0.attrs.skip_final_snapshot ∧
      (resourceClusterRead m1 d0 t).d.attrs.final_snapshot_identifier
        = d0.attrs.final_snapshot_identifier) ∧
    (∀ d1 ∈ (ResourceCluster.Importer.StateContext d).1,
      Diag.finalSnapshotIdentifierRequired
        ∉ (resourceClusterDelete m2 (resourceClusterRead m1 d1 tr1).d tr2).diags) := by
  refine ⟨rfl, fun d0 t => resourceClusterRead_keeps_snapshot_settings m1 d0 t, ?_⟩
  intro d1 hd1
  simp only [ResourceCluster.Importer.StateContext, List.mem_singleton] at hd1
  have hskip : (resourceClusterRead m1 d1 tr1).d.attrs.skip_final_snapshot = true := by
    rw [(resourceClusterRead_keeps_snapshot_settings m1 d1 tr1).1, hd1]
  rw [resourceClusterDelete_eq_detach m2 _ tr2 (Or.inl hskip)]
  exact detach_no_final_snapshot_error _ _ _ _

/-- C24: for a cluster found by `resourceClusterRead`, when the global-cluster
lookup answers NotFound, or InvalidParameterValue with "Access Denied to API
Version: APIGlobalDatabases", Read sets `global_cluster_identifier` to the
empty string and returns no error; for any other lookup error Read returns an
error; when the lookup succeeds Read sets `global_cluster_identifier` to the
identifier of the global cluster found. -/
theorem resourceClusterRead_global_cluster (m : Meta) (d : ResourceData) (tr : Trace)
    (dbc : DBCluster) (hfind : (FindDBClusterByID m.conn d.id tr).1 = .ok dbc) :
    (∀ err, (findGlobalClusterByClusterARN m.conn (StringValue dbc.DBClusterArn)
          (FindDBClusterByID m.conn d.id tr).2).1 = .error err →
      (NotFound (some err) = true ∨
        ErrMessageContains (some err) "InvalidParameterValue"
          "Access Denied to API Version: APIGlobalDatabases" = true) →
      (resourceClusterRead m d tr).diags = [] ∧
      (resourceClusterRead m d tr).d.attrs.global_cluster_identifier = "") ∧
    (∀ err, (findGlobalClusterByClusterARN m.conn (StringValue dbc.DBClusterArn)
          (FindDBClusterByID m.conn d.id tr).2).1 = .error err →
      NotFound (some err) = false →
      ErrMessageContains (some err) "InvalidParameterValue"
        "Access Denied to API Version: APIGlobalDatabases" = false →
      (resourceClusterRead m d tr).diags = [.readingGlobalCluster d.id err] ∧
      (resourceClusterRead m d tr).d = d) ∧
    (∀ globalCluster, (findGlobalClusterByClusterARN m.conn (StringValue dbc.DBClusterArn)
          (FindDBClusterByID m.conn d.id tr).2).1 = .ok globalCluster →
      (resourceClusterRead m d tr).diags = [] ∧
      (resourceClusterRead m d tr).d.attrs.global_cluster_identifier
        = StringValue globalCluster.GlobalClusterIdentifier) := by
  refine ⟨?_, ?_, ?_⟩
  · intro err hg hcond
    have hc : (NotFound (some err)
        || ErrMessageContains (some err) errCodeInvalidParameterValue
            "Access Denied to API Version: APIGlobalDatabases") = true := by
      simpa only [Bool.or_eq_true] using hcond
    simp only [resourceClusterRead, hfind, hg, hc, if_true]
    exact ⟨trivial, rfl⟩
  · intro err hg h1 h2
    have hc : (NotFound (some err)
        || ErrMessageContains (some err) errCodeInvalidParameterValue
            "Access Denied to API Version: APIGlobalDatabases") = false := by
      rw [Bool.or_eq_false_iff]; exact ⟨h1, h2⟩
    simp only [resourceClusterRead, hfind, hg, hc, Bool.false_eq_true, if_false]
    exact ⟨trivial, trivial⟩
  · intro globalCluster hg
    simp only [resourceClusterRead, hfind, hg]
    exact ⟨trivial, rfl⟩

theorem resourceClusterRead_global_cluster_witness :
    (resourceClusterRead (Meta.sample (Conn.withStatus "available"))
      { id := "c1", attrs := { global_cluster_identifier := "g1" } } []).d.attrs.global_cluster_identifier
      = "" :=
  ((resourceClusterRead_global_cluster (Meta.sample (Conn.withStatus "available"))
    { id := "c1", attrs := { global_cluster_identifier := "g1" } } []
    (clusterInStatus "available") rfl).1 (.notFound none) rfl (Or.inl rfl)).2

theorem import_read_delete_witness :
    (ResourceCluster.Importer.StateContext { id := "c1" }).1
      = [{ id := "c1", attrs := { skip_final_snapshot := true } }] :=
  congrArg Prod.fst
    (import_read_delete (Meta.sample Conn.absent) (Meta.sample Conn.absent) { id := "c1" } [] []).1

/-! ## Update: the modification step and the global-cluster step -/

theorem Key_mem_all (k : Key) : k ∈ Key.all := by
  cases k <;> simp [Key.all]

theorem HasChangesExcept_eq_false_iff (d : ResourceData) (keys : List Key) :
    d.HasChangesExcept keys = false ↔ ∀ k, d.HasChange k = true → k ∈ keys := by
  unfold ResourceData.HasChangesExcept
  rw [List.any_eq_false]
  constructor
  · intro h k hk
    have := h k (Key_mem_all k)
    simpa [hk] using this
  · intro h k _
    cases hk : d.HasChange k
    · simp
    · simp [h k hk]

theorem not_modify_of_not_mutating (c : Call) (h : c.isMutating = false) :
    c.isModifyDBCluster = false := by
  cases c <;> simp_all [Call.isMutating, Call.isModifyDBCluster]

/-- The calls of the global-cluster step when the cluster leaves its global
cluster: the detach call, then calls that change nothing. -/
theorem globalCluster_detach (m : Meta) (d : ResourceData) (t : Trace)
    (hch : d.state.global_cluster_identifier ≠ d.attrs.global_cluster_identifier)
    (ho : d.state.global_cluster_identifier ≠ "")
    (hn : d.attrs.global_cluster_identifier = "") :
    ∃ l, (resourceClusterUpdate.globalCluster m d t).trace
        = t ++ Call.RemoveFromGlobalCluster
            { DbClusterIdentifier := some d.attrs.arn
              GlobalClusterIdentifier := some d.state.global_cluster_identifier } :: l ∧
      ∀ c ∈ l, c.isMutating = false := by
  have hch' : d.HasChange .global_cluster_identifier = true := by
    simpa [ResourceData.HasChange] using hch
  obtain ⟨n, hrem⟩ := removeClusterFromGlobalCluster_trace m.conn d.attrs.arn
    d.state.global_cluster_identifier (m.retries d.timeoutUpdate) t
  have hlook : ∀ c ∈ List.replicate n (Call.DescribeGlobalClusters d.attrs.arn),
      c.isMutating = false := by
    intro c hc; rw [List.eq_of_mem_replicate hc]; rfl
  unfold resourceClusterUpdate.globalCluster
  simp only [hch', if_true, ho, hn, beq_iff_eq, bne_self_eq_false, Bool.false_eq_true, if_false]
  split
  · exact ⟨_, hrem, hlook⟩
  · obtain ⟨l, hl, hlm⟩ := resourceClusterRead_trace m d
      (removeClusterFromGlobalCluster m.conn d.attrs.arn d.state.global_cluster_identifier
        (m.retries d.timeoutUpdate) t).2
    refine ⟨List.replicate n (Call.DescribeGlobalClusters d.attrs.arn) ++ l, ?_, ?_⟩
    · rw [hl, hrem]; simp
    · intro c hc
      rcases List.mem_append.1 hc with h | h
      · exact hlook c h
      · exact hlm c h

/-- The calls of the global-cluster step in every other case: calls that change
nothing. -/
theorem globalCluster_plain (m : Meta) (d : ResourceData) (t : Trace)
    (h : ¬ (d.state.global_cluster_identifier ≠ d.attrs.global_cluster_identifier ∧
      d.state.global_cluster_identifier ≠ "" ∧ d.attrs.global_cluster_identifier = "")) :
    ∃ l, (resourceClusterUpdate.globalCluster m d t).trace = t ++ l ∧
      ∀ c ∈ l, c.isMutating = false := by
  unfold resourceClusterUpdate.globalCluster
  simp only []
  split
  · rename_i hch
    split
    · exact ⟨[], by simp, by simp⟩
    · rename_i ho
      split
      · exact ⟨[], by simp, by simp⟩
      · rename_i hn
        exfalso
        apply h
        exact ⟨by simpa [ResourceData.HasChange] using hch, by simpa using ho, by simpa using hn⟩
  · obtain ⟨l, hl, hlm⟩ := resourceClusterRead_trace m d t
    exact ⟨l, hl, hlm⟩

/-- C29: when the only attributes with a change are among `tags`, `tags_all`,
`global_cluster_identifier` and `skip_final_snapshot`, `resourceClusterUpdate`
goes straight to the global-cluster step (no wait for "available") and none
of its calls is `ModifyDBCluster`; when some other attribute has a change,
its first call is `ModifyDBCluster`. -/
theorem resourceClusterUpdate_modify_iff (m : Meta) (d : ResourceData) (tr : Trace) :
    ((∀ k, d.HasChange k = true →
        k ∈ [Key.tags, Key.tags_all, Key.global_cluster_identifier, Key.skip_final_snapshot]) →
      resourceClusterUpdate m d tr = resourceClusterUpdate.globalCluster m d tr ∧
      ∃ l, (resourceClusterUpdate m d tr).trace = tr ++ l ∧
        ∀ c ∈ l, c.isModifyDBCluster = false) ∧
    (¬ (∀ k, d.HasChange k = true →
        k ∈ [Key.tags, Key.tags_all, Key.global_cluster_identifier, Key.skip_final_snapshot]) →
      ∃ l, (resourceClusterUpdate m d tr).trace
        = tr ++ Call.ModifyDBCluster (resourceClusterUpdate.input d) :: l) := by
  constructor
  · intro h
    have hf := (HasChangesExcept_eq_false_iff d _).2 h
    have heq : resourceClusterUpdate m d tr = resourceClusterUpdate.globalCluster m d tr := by
      simp only [resourceClusterUpdate, hf, Bool.false_eq_true, if_false]
    refine ⟨heq, ?_⟩
    rw [heq]
    by_cases hd : (d.state.global_cluster_identifier ≠ d.attrs.global_cluster_identifier ∧
        d.state.global_cluster_identifier ≠ "" ∧ d.attrs.global_cluster_identifier = "")
    · obtain ⟨l, hl, hlm⟩ := globalCluster_detach m d tr hd.1 hd.2.1 hd.2.2
      refine ⟨_, hl, ?_⟩
      intro c hc
      rcases List.mem_cons.1 hc with rfl | hc
      · rfl
      · exact not_modify_of_not_mutating c (hlm c hc)
    · obtain ⟨l, hl, hlm⟩ := globalCluster_plain m d tr hd
      exact ⟨l, hl, fun c hc => not_modify_of_not_mutating c (hlm c hc)⟩
  · intro h
    have ht : d.HasChangesExcept
        [.tags, .tags_all, .global_cluster_identifier, .skip_final_snapshot] = true := by
      cases hc : d.HasChangesExcept
        [.tags, .tags_all, .global_cluster_identifier, .skip_final_snapshot]
      · exact absurd ((HasChangesExcept_eq_false_iff d _).1 hc) h
      · rfl
    exact resourceClusterUpdate_first_call m d tr ht

theorem resourceClusterUpdate_modify_iff_witness :
    resourceClusterUpdate (Meta.sample (Conn.withStatus "available")) dLeaveGlobal []
      = resourceClusterUpdate.globalCluster (Meta.sample (Conn.withStatus "available"))
          dLeaveGlobal [] :=
  ((resourceClusterUpdate_modify_iff (Meta.sample (Conn.withStatus "available")) dLeaveGlobal []).1
    ((HasChangesExcept_eq_false_iff dLeaveGlobal _).1 (by decide))).1

theorem update_after_modify_step (m : Meta) (d : ResourceData) (tr t : Trace)
    (hstep : (d.HasChangesExcept
          [.tags, .tags_all, .global_cluster_identifier, .skip_final_snapshot] = false ∧ t = tr) ∨
      (d.HasChangesExcept
          [.tags, .tags_all, .global_cluster_identifier, .skip_final_snapshot] = true ∧
        (RetryWhen (m.conn.ModifyDBClusterWithContext (resourceClusterUpdate.input d))
          resourceClusterUpdate.retryable (m.retries (5 * 60)) tr).1 = none ∧
        (waitDBClusterAvailable m.conn d.id (m.polls d.timeoutUpdate)
          (RetryWhen (m.conn.ModifyDBClusterWithContext (resourceClusterUpdate.input d))
            resourceClusterUpdate.retryable (m.retries (5 * 60)) tr).2).1.2 = none ∧
        t = (waitDBClusterAvailable m.conn d.id (m.polls d.timeoutUpdate)
          (RetryWhen (m.conn.ModifyDBClusterWithContext (resourceClusterUpdate.input d))
            resourceClusterUpdate.retryable (m.retries (5 * 60)) tr).2).2)) :
    resourceClusterUpdate m d tr = resourceClusterUpdate.globalCluster m d t := by
  rcases hstep with ⟨hf, rfl⟩ | ⟨ht, hr, hw, rfl⟩
  · simp only [resourceClusterUpdate, hf, Bool.false_eq_true, if_false]
  · simp only [resourceClusterUpdate, ht, if_true, hr, hw]

/-- C30: in an Update in which `global_cluster_identifier` changed from `o` to `n`
and the modification step, if any, succeeded (leaving the trace `t`): if `o`
is empty Update returns the "cannot be added" error, otherwise if `n` is not
empty it returns the "cannot be migrated" error, both without a further call;
otherwise its next call is `RemoveFromGlobalCluster` for global cluster `o`;
so that call is issued exactly when `o` is not empty and `n` is empty. -/
theorem resourceClusterUpdate_global_cluster_change (m : Meta) (d : ResourceData) (tr t : Trace)
    (hchange : d.state.global_cluster_identifier ≠ d.attrs.global_cluster_identifier)
    (hstep : (d.HasChangesExcept
          [.tags, .tags_all, .global_cluster_identifier, .skip_final_snapshot] = false ∧ t = tr) ∨
      (d.HasChangesExcept
          [.tags, .tags_all, .global_cluster_identifier, .skip_final_snapshot] = true ∧
        (RetryWhen (m.conn.ModifyDBClusterWithContext (resourceClusterUpdate.input d))
          resourceClusterUpdate.retryable (m.retries (5 * 60)) tr).1 = none ∧
        (waitDBClusterAvailable m.conn d.id (m.polls d.timeoutUpdate)
          (RetryWhen (m.conn.ModifyDBClusterWithContext (resourceClusterUpdate.input d))
            resourceClusterUpdate.retryable (m.retries (5 * 60)) tr).2).1.2 = none ∧
        t = (waitDBClusterAvailable m.conn d.id (m.polls d.timeoutUpdate)
          (RetryWhen (m.conn.ModifyDBClusterWithContext (resourceClusterUpdate.input d))
            resourceClusterUpdate.retryable (m.retries (5 * 60)) tr).2).2)) :
    (d.state.global_cluster_identifier = "" →
      (resourceClusterUpdate m d tr).diags = [.cannotBeAdded] ∧
      (resourceClusterUpdate m d tr).trace = t) ∧
    (d.state.global_cluster_identifier ≠ "" → d.attrs.global_cluster_identifier ≠ "" →
      (resourceClusterUpdate m d tr).diags = [.cannotBeMigrated] ∧
      (resourceClusterUpdate m d tr).trace = t) ∧
    (d.state.global_cluster_identifier ≠ "" → d.attrs.global_cluster_identifier = "" →
      ∃ l, (resourceClusterUpdate m d tr).trace
          = t ++ Call.RemoveFromGlobalCluster
              { DbClusterIdentifier := some d.attrs.arn
                GlobalClusterIdentifier := some d.state.global_cluster_identifier } :: l ∧
        ∀ c ∈ l, c.isMutating = false) ∧
    ((∃ input, Call.RemoveFromGlobalCluster input
        ∈ (resourceClusterUpdate m d tr).trace.drop t.length) ↔
      (d.state.global_cluster_identifier ≠ "" ∧ d.attrs.global_cluster_identifier = "")) := by
  have hch : d.HasChange .global_cluster_identifier = true := by
    simpa [ResourceData.HasChange] using hchange
  rw [update_after_modify_step m d tr t hstep]
  have h1 : d.state.global_cluster_identifier = "" →
      (resourceClusterUpdate.globalCluster m d t).diags = [.cannotBeAdded] ∧
      (resourceClusterUpdate.globalCluster m d t).trace = t := by
    intro ho
    simp [resourceClusterUpdate.globalCluster, hch, ho]
  have h2 : d.state.global_cluster_identifier ≠ "" → d.attrs.global_cluster_identifier ≠ "" →
      (resourceClusterUpdate.globalCluster m d t).diags = [.cannotBeMigrated] ∧
      (resourceClusterUpdate.globalCluster m d t).trace = t := by
    intro ho hn
    simp [resourceClusterUpdate.globalCluster, hch, ho, hn]
  have h3 : d.state.global_cluster_identifier ≠ "" → d.attrs.global_cluster_identifier = "" →
      ∃ l, (resourceClusterUpdate.globalCluster m d t).trace
          = t ++ Call.RemoveFromGlobalCluster
              { DbClusterIdentifier := some d.attrs.arn
                GlobalClusterIdentifier := some d.state.global_cluster_identifier } :: l ∧
        ∀ c ∈ l, c.isMutating = false :=
    fun ho hn => globalCluster_detach m d t hchange ho hn
  refine ⟨h1, h2, h3, ?_⟩
  constructor
  · rintro ⟨input, hin⟩
    by_contra hcon
    by_cases ho : d.state.global_cluster_identifier = ""
    · rw [(h1 ho).2] at hin
      simp at hin
    · by_cases hn : d.attrs.global_cluster_identifier = ""
      · exact hcon ⟨ho, hn⟩
      · rw [(h2 ho hn).2] at hin
        simp at hin
  · rintro ⟨ho, hn⟩
    obtain ⟨l, hl, -⟩ := h3 ho hn
    exact ⟨_, by rw [hl, List.drop_left]; exact List.mem_cons_self _ _⟩

theorem resourceClusterUpdate_global_cluster_change_witness :
    ∃ l, (resourceClusterUpdate (Meta.sample (Conn.withStatus "available")) dLeaveGlobal []).trace
      = [] ++ Call.RemoveFromGlobalCluster
          { DbClusterIdentifier := some "arn:c1", GlobalClusterIdentifier := some "g1" } :: l ∧
        ∀ c ∈ l, c.isMutating = false :=
  (resourceClusterUpdate_global_cluster_change (Meta.sample (Conn.withStatus "available"))
    dLeaveGlobal [] [] (by decide) (Or.inl ⟨by decide, rfl⟩)).2.2.1 (by decide) rfl

/-- C23 (amended): in an Update in which `global_cluster_identifier` changes to a
non-empty value (from empty, or from another value): when no attribute other
than `tags`, `tags_all`, `global_cluster_identifier` and `skip_final_snapshot`
has a change, Update returns the "cannot be added" or "cannot be migrated"
error without any remote call and leaves the resource data as it was; when
some other attribute has a change, the `ModifyDBCluster` call is issued first,
and then: if the retried modification ends in an error, Update returns that
error as its "modifying" error after the modification attempts; if the
modification succeeds and the wait for the cluster to become available ends
in an error, Update returns that error as its "waiting for update" error
after the wait; and if both succeed, Update returns the "cannot be added" or
"cannot be migrated" error after the wait, without a further call. -/
theorem resourceClusterUpdate_global_precondition (m : Meta) (d : ResourceData) (tr : Trace)
    (hchange : d.state.global_cluster_identifier ≠ d.attrs.global_cluster_identifier)
    (hnew : d.attrs.global_cluster_identifier ≠ "") :
    (d.HasChangesExcept
        [.tags, .tags_all, .global_cluster_identifier, .skip_final_snapshot] = false →
      (resourceClusterUpdate m d tr).diags
        = [if d.state.global_cluster_identifier = "" then Diag.cannotBeAdded
           else Diag.cannotBeMigrated] ∧
      (resourceClusterUpdate m d tr).trace = tr ∧
      (resourceClusterUpdate m d tr).d = d) ∧
    (d.HasChangesExcept
        [.tags, .tags_all, .global_cluster_identifier, .skip_final_snapshot] = true →
      (∃ l, (resourceClusterUpdate m d tr).trace
        = tr ++ Call.ModifyDBCluster (resourceClusterUpdate.input d) :: l) ∧
      (∀ e, (RetryWhen (m.conn.ModifyDBClusterWithContext (resourceClusterUpdate.input d))
            resourceClusterUpdate.retryable (m.retries (5 * 60)) tr).1 = some e →
        (resourceClusterUpdate m d tr).diags = [.modifying d.id e] ∧
        (resourceClusterUpdate m d tr).trace
          = (RetryWhen (m.conn.ModifyDBClusterWithContext (resourceClusterUpdate.input d))
              resourceClusterUpdate.retryable (m.retries (5 * 60)) tr).2) ∧
      ((RetryWhen (m.conn.ModifyDBClusterWithContext (resourceClusterUpdate.input d))
            resourceClusterUpdate.retryable (m.retries (5 * 60)) tr).1 = none →
        (∀ e, (waitDBClusterAvailable m.conn d.id (m.polls d.timeoutUpdate)
              (RetryWhen (m.conn.ModifyDBClusterWithContext (resourceClusterUpdate.input d))
                resourceClusterUpdate.retryable (m.retries (5 * 60)) tr).2).1.2 = some e →
          (resourceClusterUpdate m d tr).diags = [.waitingUpdate d.id e] ∧
          (resourceClusterUpdate m d tr).trace
            = (waitDBClusterAvailable m.conn d.id (m.polls d.timeoutUpdate)
                (RetryWhen (m.conn.ModifyDBClusterWithContext (resourceClusterUpdate.input d))
                  resourceClusterUpdate.retryable (m.retries (5 * 60)) tr).2).2) ∧
        ((waitDBClusterAvailable m.conn d.id (m.polls d.timeoutUpdate)
              (RetryWhen (m.conn.ModifyDBClusterWithContext (resourceClusterUpdate.input d))
                resourceClusterUpdate.retryable (m.retries (5 * 60)) tr).2).1.2 = none →
          (resourceClusterUpdate m d tr).diags
            = [if d.state.global_cluster_identifier = "" then Diag.cannotBeAdded
               else Diag.cannotBeMigrated] ∧
          (resourceClusterUpdate m d tr).trace
            = (waitDBClusterAvailable m.conn d.id (m.polls d.timeoutUpdate)
                (RetryWhen (m.conn.ModifyDBClusterWithContext (resourceClusterUpdate.input d))
                  resourceClusterUpdate.retryable (m.retries (5 * 60)) tr).2).2 ∧
          (resourceClusterUpdate m d tr).d = d))) := by
  have hch : d.HasChange .global_cluster_identifier = true := by
    simpa [ResourceData.HasChange] using hchange
  have hg : ∀ t, (resourceClusterUpdate.globalCluster m d t).diags
        = [if d.state.global_cluster_identifier = "" then Diag.cannotBeAdded
           else Diag.cannotBeMigrated] ∧
      (resourceClusterUpdate.globalCluster m d t).trace = t ∧
      (resourceClusterUpdate.globalCluster m d t).d = d := by
    intro t
    simp only [resourceClusterUpdate.globalCluster, hch, if_true]
    by_cases ho : d.state.global_cluster_identifier = ""
    · simp [ho]
    · simp [ho, hnew]
  constructor
  · intro hf
    have heq : resourceClusterUpdate m d tr = resourceClusterUpdate.globalCluster m d tr := by
      simp only [resourceClusterUpdate, hf, Bool.false_eq_true, if_false]
    rw [heq]
    exact hg tr
  · intro ht
    refine ⟨resourceClusterUpdate_first_call m d tr ht, ?_, ?_⟩
    · intro e he
      simp only [resourceClusterUpdate, ht, if_true, he, and_self]
    · intro hr
      constructor
      · intro e he
        simp only [resourceClusterUpdate, ht, if_true, hr, he, and_self]
      · intro hw
        have heq : resourceClusterUpdate m d tr = resourceClusterUpdate.globalCluster m d
            (waitDBClusterAvailable m.conn d.id (m.polls d.timeoutUpdate)
              (RetryWhen (m.conn.ModifyDBClusterWithContext (resourceClusterUpdate.input d))
                resourceClusterUpdate.retryable (m.retries (5 * 60)) tr).2).2 := by
          simp only [resourceClusterUpdate, ht, if_true, hr, hw]
        rw [heq]
        exact hg _

theorem resourceClusterUpdate_global_precondition_witness :
    (resourceClusterUpdate (Meta.sample (Conn.withStatus "available")) dJoinGlobalOnly []).trace
      = [] ∧
    (resourceClusterUpdate (Meta.sample Conn.absent) dJoinGlobal []).diags
      = [.modifying "c1" clusterNotFoundFault] ∧
    (resourceClusterUpdate (Meta.sample (Conn.withStatus "failed")) dJoinGlobal []).diags
      = [.waitingUpdate "c1" (.unexpectedState "failed")] ∧
    (resourceClusterUpdate (Meta.sample (Conn.withStatus "available")) dJoinGlobal []).diags
      = [.cannotBeAdded] :=
  ⟨((resourceClusterUpdate_global_precondition (Meta.sample (Conn.withStatus "available"))
      dJoinGlobalOnly [] (by decide) (by decide)).1 (by decide)).2.1,
   (((resourceClusterUpdate_global_precondition (Meta.sample Conn.absent)
      dJoinGlobal [] (by decide) (by decide)).2 (by decide)).2.1 clusterNotFoundFault
      (by decide)).1,
   ((((resourceClusterUpdate_global_precondition (Meta.sample (Conn.withStatus "failed"))
      dJoinGlobal [] (by decide) (by decide)).2 (by decide)).2.2 (by decide)).1
      (.unexpectedState "failed") (by decide)).1,
   ((((resourceClusterUpdate_global_precondition (Meta.sample (Conn.withStatus "available"))
      dJoinGlobal [] (by decide) (by decide)).2 (by decide)).2.2 (by decide)).2 (by decide)).1⟩

/-- C23 (counterexample): an update that adds the cluster to a global cluster and
changes its backup retention period returns the "cannot be added" error only
after `ModifyDBCluster` and a describe call of the wait have been issued. -/
theorem resourceClusterUpdate_global_precondition_counterexample :
    dJoinGlobal.state.global_cluster_identifier = "" ∧
    dJoinGlobal.attrs.global_cluster_identifier = "g1" ∧
    (resourceClusterUpdate (Meta.sample (Conn.withStatus "available")) dJoinGlobal []).diags
      = [.cannotBeAdded] ∧
    (resourceClusterUpdate (Meta.sample (Conn.withStatus "available")) dJoinGlobal []).trace
      = [Call.ModifyDBCluster
          { ApplyImmediately := some false, BackupRetentionPeriod := some 7,
            DBClusterIdentifier := some "c1" },
         Call.DescribeDBClustersPages { DBClusterIdentifier := some "c1" }] := by
  decide

end DocDB

/-! # AppConfig: the destroy check -/

namespace AppConfig

open DocDB

theorem destroy_skips_other_types (conn : AppConfigConn) (s : List ResourceState)
    (h : ∀ rs ∈ s, rs.type ≠ "aws_appconfig_environment") :
    testAccCheckExtensionAssociationDestroy conn s = none := by
  induction s with
  | nil => rfl
  | cons rs rest ih =>
    unfold testAccCheckExtensionAssociationDestroy
    have h1 : rs.type ≠ "aws_appconfig_environment" := h rs (List.mem_cons_self _ _)
    simp only [bne_iff_ne, ne_eq, h1, not_false_eq_true, if_true]
    exact ih (fun r hr => h r (List.mem_cons_of_mem _ hr))

/-- C27: on a service where the association still exists, the destroy check
returns `nil` for a state that holds an `aws_appconfig_extension_association`
resource, and it does so for every state of such resources whatever the
service answers: the loop looks at resources of type
`aws_appconfig_environment` only. -/
theorem testAccCheckExtensionAssociationDestroy_misses_associations :
    (connStillExists { ExtensionAssociationId := some "assoc-1" }
      = (some { Id := some "assoc-1" }, none)) ∧
    testAccCheckExtensionAssociationDestroy connStillExists
      [{ type := "aws_appconfig_extension_association", primaryID := "assoc-1" }] = none ∧
    (∀ (conn : AppConfigConn) (s : List ResourceState),
      (∀ rs ∈ s, rs.type = "aws_appconfig_extension_association") →
      testAccCheckExtensionAssociationDestroy conn s = none) := by
  refine ⟨rfl, by decide, ?_⟩
  intro conn s h
  apply destroy_skips_other_types
  intro rs hrs
  rw [h rs hrs]
  decide

end AppConfig
